import Mathlib

/-!
# Product attachment workflow (`xiaohongshu/publish_products.go`)

A shallow embedding of the product-attachment code that drives a remote page
through the go-rod control protocol, and theorems about its retry engine,
visibility oracle and element resolution.

## Modelling choices

* The browser, the page and the wall clock form the *environment*.  It is a
  deterministic machine over an arbitrary state type `σ` (`Remote σ`): every
  operation of the control protocol takes the current state and returns its
  answer together with the next state.  Quantifying over `Remote σ` and the
  start state quantifies over every behaviour of the page.
* Every Go function becomes a program `Prog σ α`: a function from the
  environment state to the returned value, the list of events it performed
  (`Event`, in order) and the final state.
* A Go `error` is `Option Err` (`none` is `nil`); a `(T, error)` result of the
  control protocol is `Except Err T`; a nullable `*rod.Element` is
  `Option Elem`.
* `for time.Now().Before(deadline)` loops take a fuel argument and yield
  `none` when the fuel runs out before the loop is left.
* Every operation of the control protocol is taken to return, with an element
  or an error; a lookup that would block is an error of the environment.
* `strings.ToLower` is a parameter `lower` of the functions that use it.
-/

namespace Xhs

/-! ## Errors (`github.com/pkg/errors`) -/

/-- A Go error value: a plain message (`errors.New`, `errors.Errorf`, or an error
reported by the control protocol), or an error annotated by `errors.Wrap`. -/
inductive Err where
  | msg (text : String)
  | wrap (cause : Err) (text : String)
deriving DecidableEq, Repr, Inhabited

/-- The text of `err.Error()`: a wrapped error prints as `text: cause`. -/
def Err.Error : Err → String
  | .msg t => t
  | .wrap c t => t ++ ": " ++ c.Error

/-- The function `errors.Wrap(err, message)` of pkg/errors: "If err is nil, Wrap returns nil." -/
def Wrap : Option Err → String → Option Err
  | none, _ => none
  | some e, m => some (.wrap e m)

/-- The function `errors.Wrapf(err, format, args...)` of pkg/errors, with the
formatted message already built: "If err is nil, Wrapf returns nil." -/
def Wrapf : Option Err → String → Option Err
  | none, _ => none
  | some e, m => some (.wrap e m)

instance instDecidableEqExcept {ε α : Type} [DecidableEq ε] [DecidableEq α] :
    DecidableEq (Except ε α)
  | .ok a, .ok b => if h : a = b then isTrue (by rw [h]) else isFalse (fun h2 => h (Except.ok.inj h2))
  | .error a, .error b =>
      if h : a = b then isTrue (by rw [h]) else isFalse (fun h2 => h (Except.error.inj h2))
  | .ok _, .error _ => isFalse (fun h => by cases h)
  | .error _, .ok _ => isFalse (fun h => by cases h)

/-! ## Strings (`strings` package) -/

/-- The function `strings.Contains(s, substr)`. -/
def Contains (s substr : String) : Bool :=
  decide (substr.data <:+: s.data)

/-- The predicate `unicode.IsSpace`: the Latin-1 spaces and the code points with
the White_Space property. -/
def isSpace (c : Char) : Bool :=
  let n := c.toNat
  (0x09 ≤ n && n ≤ 0x0D) || n == 0x20 || n == 0x85 || n == 0xA0 || n == 0x1680 ||
  (0x2000 ≤ n && n ≤ 0x200A) || n == 0x2028 || n == 0x2029 || n == 0x202F ||
  n == 0x205F || n == 0x3000

/-- The function `strings.TrimSpace`: leading and trailing white space removed. -/
def TrimSpace (s : String) : String :=
  ⟨((s.data.dropWhile isSpace).reverse.dropWhile isSpace).reverse⟩

/-! ## The control protocol -/

/-- A resolved element handle (`*rod.Element`, non-nil). -/
abbrev Elem := Nat

/-- The JavaScript functions the code evaluates on an element with `Eval`. -/
inductive Script where
  /-- The function of lines 166-178: does `this` have a child with text or markup? -/
  | hasContent
  /-- The function `() => this.checked`. -/
  | isChecked
  /-- The function `() => this.click()`. -/
  | click
  /-- The function of lines 222-227: sets `this.checked = true`, dispatches `input` and `change`. -/
  | forceCheck
  /-- The function of lines 106-110: focus, clear the value, dispatch `input`. -/
  | clearValue
  /-- The function of lines 114-119 applied to `value`: focus, set the value, dispatch `input` and `change`. -/
  | setValue (value : String)
deriving DecidableEq, Repr

/-- The environment: the operations of go-rod the code uses, and the clock.
`Timeout(d)` on a page or element only bounds how long the next operation
may take; the bound is passed along as `timeout` (milliseconds). -/
structure Remote (σ : Type) where
  /-- The call `page.Element(selector)`, maybe under `page.Timeout(d)`. -/
  pageElement : Option Nat → String → σ → Except Err Elem × σ
  /-- The call `page.ElementR(selector, regex)`. -/
  pageElementR : String → String → σ → Except Err Elem × σ
  /-- The call `page.Has(selector)`: is there such an element? -/
  pageHas : String → σ → Except Err Bool × σ
  /-- The call `el.Element(selector)`, maybe under `el.Timeout(d)`. -/
  element : Elem → Option Nat → String → σ → Except Err Elem × σ
  /-- The call `el.Elements(selector)`. -/
  elements : Elem → String → σ → Except Err (List Elem) × σ
  /-- The call `el.ElementR(selector, regex)`. -/
  elementR : Elem → String → String → σ → Except Err Elem × σ
  /-- The call `el.Attribute(name)`: `ok none` is a nil `*string`. -/
  attr : Elem → String → σ → Except Err (Option String) × σ
  /-- The call `el.Visible()`. -/
  visible : Elem → σ → Except Err Bool × σ
  /-- The call `el.Text()`. -/
  text : Elem → σ → Except Err String × σ
  /-- The call `el.Eval(js, args...)`; the answer is `res.Value.Bool()`. -/
  eval : Elem → Script → σ → Except Err Bool × σ
  /-- The call `el.Click(proto.InputMouseButtonLeft, 1)`, maybe under `el.Timeout(d)`. -/
  click : Elem → Option Nat → σ → Option Err × σ
  /-- The call `el.ScrollIntoView()`. -/
  scrollIntoView : Elem → σ → Option Err × σ
  /-- The call `time.Sleep(d)`, `d` in milliseconds. -/
  sleep : Nat → σ → σ
  /-- The call `time.Now()`, in milliseconds. -/
  now : σ → Nat

/-- What a program did, in order.  Every operation of the control protocol is
recorded with its answer; `attempt`, `strategy`, `strategyDone` and `exhausted` mark the
control points of the retry loop of `ensureProductSelected`; `log` is a
logrus line. -/
inductive Event where
  | pageElement (timeout : Option Nat) (selector : String) (r : Except Err Elem)
  | pageElementR (selector regex : String) (r : Except Err Elem)
  | pageHas (selector : String) (r : Except Err Bool)
  | element (el : Elem) (timeout : Option Nat) (selector : String) (r : Except Err Elem)
  | elements (el : Elem) (selector : String) (r : Except Err (List Elem))
  | elementR (el : Elem) (selector regex : String) (r : Except Err Elem)
  | attr (el : Elem) (name : String) (r : Except Err (Option String))
  | visible (el : Elem) (r : Except Err Bool)
  | text (el : Elem) (r : Except Err String)
  | eval (el : Elem) (js : Script) (r : Except Err Bool)
  | click (el : Elem) (timeout : Option Nat) (r : Option Err)
  | scrollIntoView (el : Elem) (r : Option Err)
  | sleep (ms : Nat)
  /-- The loop body of `for attempt := 0; attempt < 3; attempt++` is entered. -/
  | attempt (n : Nat)
  /-- The closure `strategies[i]` is called. -/
  | strategy (i : Nat)
  /-- The closure `strategies[i]` has returned `err`. -/
  | strategyDone (i : Nat) (err : Option Err)
  /-- The loop `for attempt := 0; attempt < 3; attempt++` is left with `attempt = 3`:
  line 255 is reached with this `lastErr`. -/
  | exhausted (lastErr : Option Err)
  | log (level : String) (message : String)
deriving DecidableEq

/-- The outcome of running a program: the value returned, the events performed and the
final state of the environment. -/
structure Out (σ α : Type) where
  val : α
  trace : List Event
  st : σ

/-- A program over the environment state `σ` returning an `α`. -/
def Prog (σ α : Type) : Type := σ → Out σ α

/-- Return without touching the environment. -/
def Prog.pure {σ α : Type} (a : α) : Prog σ α :=
  fun s => ⟨a, [], s⟩

/-- Run `m`, then `f` on its result; the traces are concatenated. -/
def Prog.bind {σ α β : Type} (m : Prog σ α) (f : α → Prog σ β) : Prog σ β :=
  fun s => ⟨(f (m s).val (m s).st).val, (m s).trace ++ (f (m s).val (m s).st).trace,
    (f (m s).val (m s).st).st⟩

instance {σ : Type} : Monad (Prog σ) where
  pure := Prog.pure
  bind := Prog.bind

/-- One operation of the control protocol, recorded in the trace. -/
def Prog.op {σ α : Type} (f : σ → α × σ) (ev : α → Event) : Prog σ α :=
  fun s => ⟨(f s).1, [ev (f s).1], (f s).2⟩

/-- A control-point marker or log line: an event that leaves the environment alone. -/
def Prog.emit {σ : Type} (ev : Event) : Prog σ Unit :=
  fun s => ⟨(), [ev], s⟩

/-- The call `time.Sleep(ms)`. -/
def Prog.sleep {σ : Type} (R : Remote σ) (ms : Nat) : Prog σ Unit :=
  fun s => ⟨(), [Event.sleep ms], R.sleep ms s⟩

/-- The call `time.Now()`. -/
def Prog.now {σ : Type} (R : Remote σ) : Prog σ Nat :=
  fun s => ⟨R.now s, [], s⟩

/-- A logrus line (`logrus.Debugf`, `logrus.Warnf`, `logrus.Infof`, `slog.Warn`). -/
def Prog.log {σ : Type} (level message : String) : Prog σ Unit :=
  Prog.emit (Event.log level message)

/-! ## Visibility oracle -/

/-- The inline-style test of `isElementVisible` (lines 330-334). -/
def styleHides (styleStr : String) : Bool :=
  Contains styleStr "left: -9999px" ||
  Contains styleStr "top: -9999px" ||
  Contains styleStr "position: absolute; left: -9999px" ||
  Contains styleStr "display: none" ||
  Contains styleStr "visibility: hidden"

/-- The guard `err == nil && style != nil` of `isElementVisible` (line 328) around the
inline-style test: does the answer of `elem.Attribute("style")` reject the
element? -/
def styleRejects : Except Err (Option String) → Bool
  | .ok (some styleStr) => styleHides styleStr
  | _ => false

/-- The function `isElementVisible` (lines 326-346). -/
def isElementVisible {σ : Type} (R : Remote σ) (elem : Elem) : Prog σ Bool := do
  let style ← Prog.op (R.attr elem "style") (Event.attr elem "style")
  if styleRejects style then
    return false
  let visible ← Prog.op (R.visible elem) (Event.visible elem)
  match visible with
  | .error err =>
      Prog.log "warn" ("无法获取元素可见性 error=" ++ err.Error)
      return true
  | .ok visible => return visible

/-- The function `findVisibleElement` (lines 275-282): the first element classified
visible, or a nil element and an error. -/
def findVisibleElement {σ : Type} (R : Remote σ) : List Elem → Prog σ (Option Elem × Option Err)
  | [] => Prog.pure (none, some (Err.msg "未找到可见元素"))
  | elem :: rest => do
      if ← isElementVisible R elem then
        return (some elem, none)
      findVisibleElement R rest

/-! ## Element resolution -/

/-- The loop `for _, selector := range selectors` of `findCheckboxArea` (lines 265-272),
with the error return that follows it. -/
def findCheckboxArea.loop {σ : Type} (R : Remote σ) (card : Elem) :
    List String → Prog σ (Option Elem × Option Err)
  | [] => Prog.pure (none, some (Err.msg "未找到复选框选择区域"))
  | selector :: rest => do
      match ← Prog.op (R.element card none selector) (Event.element card none selector) with
      | .ok elem => return (some elem, none)
      | .error _ => findCheckboxArea.loop R card rest

/-- The selector list of `findCheckboxArea` (lines 259-263). -/
def findCheckboxArea.selectors : List String :=
  [".d-checkbox-main", ".d-checkbox", ".product-select-area"]

/-- The function `findCheckboxArea` (lines 258-273). -/
def findCheckboxArea {σ : Type} (R : Remote σ) (card : Elem) : Prog σ (Option Elem × Option Err) :=
  findCheckboxArea.loop R card findCheckboxArea.selectors

/-! ## Action retry engine -/

/-- Is the answer of `checkboxInput.Eval("() => this.checked")` a success:
`err == nil && res.Value.Bool()`? -/
def checkedOk : Except Err Bool → Bool
  | .ok b => b
  | .error _ => false

/-- The probe `checkboxInput.Eval("() => this.checked")` with its test
`err == nil && res.Value.Bool()` (lines 185, 234, 247). -/
def probeChecked {σ : Type} (R : Remote σ) (checkboxInput : Elem) : Prog σ Bool := do
  let res ← Prog.op (R.eval checkboxInput Script.isChecked) (Event.eval checkboxInput Script.isChecked)
  return checkedOk res

/-- The first strategy (lines 200-205): click the checkbox area, when there is one. -/
def clickCheckboxArea {σ : Type} (R : Remote σ) (checkboxArea : Option Elem) : Prog σ (Option Err) :=
  match checkboxArea with
  | some area => Prog.op (R.click area (some 3000)) (Event.click area (some 3000))
  | none => Prog.pure none

/-- The second strategy (lines 206-209): synthetic click on the input. -/
def clickInput {σ : Type} (R : Remote σ) (checkboxInput : Elem) : Prog σ (Option Err) := do
  match ← Prog.op (R.eval checkboxInput Script.click) (Event.eval checkboxInput Script.click) with
  | .ok _ => return none
  | .error err => return some err

/-- The third strategy (lines 210-220): synthetic click on the first visible indicator. -/
def clickVisibleIndicator {σ : Type} (R : Remote σ) (card : Elem) : Prog σ (Option Err) := do
  let indicators ← Prog.op (R.elements card ".d-checkbox-indicator")
    (Event.elements card ".d-checkbox-indicator")
  match indicators with
  | .ok (i :: is) =>
      match ← findVisibleElement R (i :: is) with
      | (some visibleIndicator, none) =>
          match ← Prog.op (R.eval visibleIndicator Script.click)
              (Event.eval visibleIndicator Script.click) with
          | .ok _ => return none
          | .error err => return some err
      | _ => return some (Err.msg "未找到可见的复选框指示器")
  | _ => return some (Err.msg "未找到可见的复选框指示器")

/-- The fourth strategy (lines 221-229): force the checked state, dispatch `input` and
`change`. -/
def forceChecked {σ : Type} (R : Remote σ) (checkboxInput : Elem) : Prog σ (Option Err) := do
  match ← Prog.op (R.eval checkboxInput Script.forceCheck)
      (Event.eval checkboxInput Script.forceCheck) with
  | .ok _ => return none
  | .error err => return some err

/-- The slice `strategies` of `ensureProductSelected` (lines 199-230), in order. -/
def strategies {σ : Type} (R : Remote σ) (card checkboxInput : Elem) (checkboxArea : Option Elem) :
    List (Prog σ (Option Err)) :=
  [clickCheckboxArea R checkboxArea, clickInput R checkboxInput, clickVisibleIndicator R card,
    forceChecked R checkboxInput]

/-- How the body of a loop is left: the enclosing function returns `err`, or the loop
is over and the function goes on with `lastErr`. -/
inductive Flow where
  | ret (err : Option Err)
  | go (lastErr : Option Err)
deriving DecidableEq

/-- The loop `for _, strategy := range strategies` of `ensureProductSelected`
(lines 238-250); `i` is the index of the head of the list in `strategies`. -/
def strategyLoop {σ : Type} (R : Remote σ) (checkboxInput : Elem) :
    List (Prog σ (Option Err)) → Nat → Option Err → Prog σ Flow
  | [], _, lastErr => Prog.pure (Flow.go lastErr)
  | strategy :: rest, i, lastErr => do
      Prog.emit (Event.strategy i)
      let err ← strategy
      Prog.emit (Event.strategyDone i err)
      match err with
      | some e =>
          Prog.log "debug" ("尝试切换商品勾选状态失败: " ++ e.Error)
          strategyLoop R checkboxInput rest (i + 1) (some e)
      | none =>
          Prog.sleep R 200
          if ← probeChecked R checkboxInput then
            return Flow.ret none
          strategyLoop R checkboxInput rest (i + 1) lastErr

/-- The loop `for attempt := 0; attempt < 3; attempt++` of `ensureProductSelected`
(lines 233-253) with the return that follows it (line 255); `remaining` is
`3 - attempt`. -/
def attemptLoop {σ : Type} (R : Remote σ) (checkboxInput : Elem)
    (strats : List (Prog σ (Option Err))) : Nat → Nat → Option Err → Prog σ (Option Err)
  | 0, _, lastErr => do
      Prog.emit (Event.exhausted lastErr)
      return Wrapf lastErr "商品选择失败（已尝试3次）"
  | remaining + 1, attempt, lastErr => do
      Prog.emit (Event.attempt attempt)
      if ← probeChecked R checkboxInput then
        return none
      match ← strategyLoop R checkboxInput strats 0 lastErr with
      | Flow.ret err => return err
      | Flow.go lastErr =>
          Prog.sleep R 300
          attemptLoop R checkboxInput strats remaining (attempt + 1) lastErr

/-- The part of `ensureProductSelected` that follows the two early returns (lines 189-255):
scroll to the card, resolve the checkbox area, run the retry loop. -/
def ensureProductSelected.retry {σ : Type} (R : Remote σ) (card checkboxInput : Elem) :
    Prog σ (Option Err) := do
  match ← Prog.op (R.scrollIntoView card) (Event.scrollIntoView card) with
  | some err => Prog.log "debug" ("滚动商品卡片失败: " ++ err.Error)
  | none => Prog.pure ()
  Prog.sleep R 100
  let (checkboxArea, err) ← findCheckboxArea R card
  match err with
  | some err => Prog.log "warn" ("未找到商品选择区域: " ++ err.Error)
  | none => Prog.pure ()
  attemptLoop R checkboxInput (strategies R card checkboxInput checkboxArea) 3 0 none

/-- The function `ensureProductSelected` (lines 160-256). -/
def ensureProductSelected {σ : Type} (R : Remote σ) (card : Elem) : Prog σ (Option Err) := do
  match ← Prog.op (R.element card none "input[type='checkbox']")
      (Event.element card none "input[type='checkbox']") with
  | .error err => return Wrap (some err) "未找到商品选择框"
  | .ok checkboxInput =>
      let res ← Prog.op (R.eval checkboxInput Script.hasContent)
        (Event.eval checkboxInput Script.hasContent)
      if res = .ok false then
        Prog.log "warn" "检测到空的选择框元素，跳过此商品"
        return none
      if ← probeChecked R checkboxInput then
        return none
      ensureProductSelected.retry R card checkboxInput

/-! ## Wait / poll primitives -/

/-- The loops `for _, card := range cards { if isElementVisible(card) { return nil } }`
of `waitForProductListLoad` (lines 290-294 and 299-303): is some element of the
list classified visible?  The elements after the first visible one are not
examined. -/
def anyVisible {σ : Type} (R : Remote σ) : List Elem → Prog σ Bool
  | [] => Prog.pure false
  | elem :: rest => do
      if ← isElementVisible R elem then
        return true
      anyVisible R rest

/-- The loop `for time.Now().Before(deadline)` of `waitForProductListLoad` (lines 287-309)
with the timeout return that follows it. -/
def waitForProductListLoad.poll {σ : Type} (R : Remote σ) (modal : Elem) (deadline : Nat) :
    Nat → Prog σ (Option (Option Err))
  | 0 => Prog.pure none
  | fuel + 1 => do
      if (← Prog.now R) < deadline then
        let cards ← Prog.op (R.elements modal ".good-card-container")
          (Event.elements modal ".good-card-container")
        let cardVisible ←
          match cards with
          | .ok (c :: cs) => anyVisible R (c :: cs)
          | _ => Prog.pure false
        if cardVisible then
          return some none
        let emptyStates ← Prog.op (R.elements modal ".goods-list-empty, .goods-list-search-empty")
          (Event.elements modal ".goods-list-empty, .goods-list-search-empty")
        let emptyVisible ←
          match emptyStates with
          | .ok es => anyVisible R es
          | .error _ => Prog.pure false
        if emptyVisible then
          return some none
        Prog.sleep R 200
        waitForProductListLoad.poll R modal deadline fuel
      else
        return some (some (Err.msg "等待商品列表加载超时"))

/-- The function `waitForProductListLoad` (lines 284-310). -/
def waitForProductListLoad {σ : Type} (R : Remote σ) (fuel : Nat) (modal : Elem) :
    Prog σ (Option (Option Err)) := do
  let deadline := (← Prog.now R) + 10000
  waitForProductListLoad.poll R modal deadline fuel

/-- The loop `for time.Now().Before(deadline)` of `waitForModalClose` (lines 315-323)
with the timeout return that follows it. -/
def waitForModalClose.poll {σ : Type} (R : Remote σ) (deadline : Nat) :
    Nat → Prog σ (Option (Option Err))
  | 0 => Prog.pure none
  | fuel + 1 => do
      if (← Prog.now R) < deadline then
        match ← Prog.op (R.pageHas "div.multi-goods-selector-modal")
            (Event.pageHas "div.multi-goods-selector-modal") with
        | .ok false => return some none
        | _ =>
            Prog.sleep R 200
            waitForModalClose.poll R deadline fuel
      else
        return some (some (Err.msg "关闭商品选择弹窗超时"))

/-- The function `waitForModalClose` (lines 312-324). -/
def waitForModalClose {σ : Type} (R : Remote σ) (fuel : Nat) : Prog σ (Option (Option Err)) := do
  let deadline := (← Prog.now R) + 5000
  waitForModalClose.poll R deadline fuel

/-! ## Product attachment -/

/-- The loop `for _, selector := range selectors` of `findAddProductButton` (lines 95-102)
with the text-match fallback that follows it. -/
def findAddProductButton.loop {σ : Type} (R : Remote σ) : List String → Prog σ (Except Err Elem)
  | [] => Prog.op (R.pageElementR "button" "添加商品") (Event.pageElementR "button" "添加商品")
  | selector :: rest => do
      match ← Prog.op (R.pageElement none selector) (Event.pageElement none selector) with
      | .ok elem => return .ok elem
      | .error _ => findAddProductButton.loop R rest

/-- The function `findAddProductButton` (lines 89-103). -/
def findAddProductButton {σ : Type} (R : Remote σ) : Prog σ (Except Err Elem) :=
  findAddProductButton.loop R
    ["div.multi-good-select-empty-btn button", "div.multi-good-select-add-btn button"]

/-- The function `inputProductSearchKeyword` (lines 105-125). -/
def inputProductSearchKeyword {σ : Type} (R : Remote σ) (input : Elem) (keyword : String) :
    Prog σ (Option Err) := do
  match ← Prog.op (R.eval input Script.clearValue) (Event.eval input Script.clearValue) with
  | .error err => return some err
  | .ok _ =>
      match ← Prog.op (R.eval input (Script.setValue keyword))
          (Event.eval input (Script.setValue keyword)) with
      | .error err => return some err
      | .ok _ =>
          Prog.sleep R 500
          return none

/-- The loop `for _, card := range cards` of `findProductCard` (lines 138-152): the first card
whose `.sku-name` text can be read and contains the keyword, both lower-cased
by `lower` (`strings.ToLower`). -/
def findProductCard.scan {σ : Type} (R : Remote σ) (lower : String → String)
    (lowerKeyword : String) : List Elem → Prog σ (Option Elem)
  | [] => Prog.pure none
  | card :: rest => do
      match ← Prog.op (R.element card none ".sku-name") (Event.element card none ".sku-name") with
      | .error _ => findProductCard.scan R lower lowerKeyword rest
      | .ok nameElem =>
          match ← Prog.op (R.text nameElem) (Event.text nameElem) with
          | .error _ => findProductCard.scan R lower lowerKeyword rest
          | .ok name =>
              if Contains (lower name) lowerKeyword then
                return some card
              else
                findProductCard.scan R lower lowerKeyword rest

/-- The loop `for time.Now().Before(deadline)` of `findProductCard` (lines 131-157) with the
error return that follows it. -/
def findProductCard.poll {σ : Type} (R : Remote σ) (lower : String → String) (modal : Elem)
    (keyword lowerKeyword : String) (deadline : Nat) : Nat → Prog σ (Option (Except Err Elem))
  | 0 => Prog.pure none
  | fuel + 1 => do
      if (← Prog.now R) < deadline then
        match ← Prog.op (R.elements modal ".good-card-container")
            (Event.elements modal ".good-card-container") with
        | .ok (c :: cs) =>
            match ← findProductCard.scan R lower lowerKeyword (c :: cs) with
            | some card => return some (.ok card)
            | none =>
                Prog.sleep R 300
                findProductCard.poll R lower modal keyword lowerKeyword deadline fuel
        | _ =>
            Prog.sleep R 300
            findProductCard.poll R lower modal keyword lowerKeyword deadline fuel
      else
        return some (.error (Err.msg ("未找到商品: " ++ keyword)))

/-- The function `findProductCard` (lines 127-158). -/
def findProductCard {σ : Type} (R : Remote σ) (lower : String → String) (fuel : Nat)
    (modal : Elem) (keyword : String) : Prog σ (Option (Except Err Elem)) := do
  let deadline := (← Prog.now R) + 10000
  let lowerKeyword := lower keyword
  findProductCard.poll R lower modal keyword lowerKeyword deadline fuel

/-- The loop `for _, keyword := range keywords` of `addProducts` (lines 56-71): `some none`
when every keyword was searched, resolved and selected, `some (some err)` at
the first failure, `none` when a poll loop ran out of fuel. -/
def addProducts.loop {σ : Type} (R : Remote σ) (lower : String → String) (fuel : Nat)
    (modal searchInput : Elem) : List String → Prog σ (Option (Option Err))
  | [] => Prog.pure (some none)
  | keyword :: rest => do
      match ← inputProductSearchKeyword R searchInput keyword with
      | some err => return some (Wrapf (some err) ("搜索商品失败: " ++ keyword))
      | none =>
          match ← findProductCard R lower fuel modal keyword with
          | none => return none
          | some (.error err) => return some (Wrapf (some err) ("未找到匹配商品: " ++ keyword))
          | some (.ok card) =>
              match ← ensureProductSelected R card with
              | some err => return some (Wrapf (some err) ("选择商品失败: " ++ keyword))
              | none =>
                  Prog.log "info" ("已选中商品: " ++ keyword)
                  addProducts.loop R lower fuel modal searchInput rest

/-- The keywords of `addProducts` (lines 15-21): the entries trimmed, the blank ones dropped. -/
def addProducts.keywords (productKeywords : List String) : List String :=
  (productKeywords.map TrimSpace).filter (fun trimmed => trimmed != "")

/-- The function `addProducts` (lines 14-87); `none` when a poll loop ran out of fuel. -/
def addProducts {σ : Type} (R : Remote σ) (lower : String → String) (fuel : Nat)
    (productKeywords : List String) : Prog σ (Option (Option Err)) := do
  let keywords := addProducts.keywords productKeywords
  if keywords.length = 0 then
    return some none
  match ← findAddProductButton R with
  | .error err => return some (Wrap (some err) "未找到添加商品入口")
  | .ok addButton =>
  match ← Prog.op (R.scrollIntoView addButton) (Event.scrollIntoView addButton) with
  | some err => Prog.log "debug" ("滚动到添加商品按钮失败: " ++ err.Error)
  | none => Prog.pure ()
  Prog.sleep R 100
  match ← Prog.op (R.click addButton none) (Event.click addButton none) with
  | some err => return some (Wrap (some err) "点击添加商品按钮失败")
  | none =>
  Prog.sleep R 500
  match ← Prog.op (R.pageElement (some 15000) "div.multi-goods-selector-modal")
      (Event.pageElement (some 15000) "div.multi-goods-selector-modal") with
  | .error err => return some (Wrap (some err) "打开商品选择弹窗失败")
  | .ok modal =>
  match ← waitForProductListLoad R fuel modal with
  | none => return none
  | some loaded =>
  match loaded with
  | some err => Prog.log "warn" ("等待商品列表加载失败: " ++ err.Error)
  | none => Prog.pure ()
  match ← Prog.op (R.element modal (some 10000) "input[placeholder='搜索商品ID 或 商品名称']")
      (Event.element modal (some 10000) "input[placeholder='搜索商品ID 或 商品名称']") with
  | .error err => return some (Wrap (some err) "未找到商品搜索输入框")
  | .ok searchInput =>
  match ← addProducts.loop R lower fuel modal searchInput keywords with
  | none => return none
  | some (some err) => return some (some err)
  | some none =>
  match ← Prog.op (R.elementR modal "div.d-modal-footer button" "保存")
      (Event.elementR modal "div.d-modal-footer button" "保存") with
  | .error err => return some (Wrap (some err) "未找到商品保存按钮")
  | .ok saveButton =>
  match ← Prog.op (R.click saveButton none) (Event.click saveButton none) with
  | some err => return some (Wrap (some err) "点击保存商品按钮失败")
  | none => waitForModalClose R fuel

/-! ## Traces and runs -/

/-- The indices of the strategies called in a trace, in call order. -/
def strategyCalls (t : List Event) : List Nat :=
  t.filterMap (fun ev => match ev with | .strategy i => some i | _ => none)

/-- The attempt numbers of the retry-loop passes entered in a trace, in order. -/
def attemptsOf (t : List Event) : List Nat :=
  t.filterMap (fun ev => match ev with | .attempt n => some n | _ => none)

/-- Is the event a checked-state probe that reported true without error? -/
def isCheckedTrue : Event → Bool
  | .eval _ .isChecked (.ok true) => true
  | _ => false

/-- Is the event the return of a strategy without error? -/
def isDoneOk : Event → Bool
  | .strategyDone _ none => true
  | _ => false

/-- Is the event a plain operation: not a marker of the retry loop, not a checked-state
probe?  The strategies perform only such events. -/
def isPlain : Event → Bool
  | .attempt _ => false
  | .strategy _ => false
  | .strategyDone _ _ => false
  | .exhausted _ => false
  | .eval _ .isChecked _ => false
  | _ => true

/-- Every event of the trace picked by `sel` is followed by a rest of the trace
satisfying `Q`. -/
def After (sel : Event → Bool) (Q : List Event → Prop) (t : List Event) : Prop :=
  ∀ pre ev post, t = pre ++ ev :: post → sel ev = true → Q post

/-- All events performed by a program are plain, from every state. -/
def Plain {σ α : Type} (p : Prog σ α) : Prop :=
  ∀ s, ∀ ev ∈ (p s).trace, isPlain ev = true

/-- The runs of the strategy loop (lines 238-250) over `n` strategies with plain events,
the first of index `i`, entered with `lastErr = l`: how the loop is left and
the events performed, for every behaviour of the page. -/
inductive LoopRun (inp : Elem) : Nat → Nat → Option Err → Flow → List Event → Prop
  /-- No strategy is left: the loop is over. -/
  | done (i : Nat) (l : Option Err) : LoopRun inp 0 i l (Flow.go l) []
  /-- The strategy returns an error: it is recorded and logged, the next strategy is tried. -/
  | err (n i : Nat) (l : Option Err) (tp : List Event) (e : Err) (v : Flow) (t : List Event)
      (hp : ∀ ev ∈ tp, isPlain ev = true) (hrest : LoopRun inp n (i + 1) (some e) v t) :
      LoopRun inp (n + 1) i l v
        (Event.strategy i :: (tp ++ (Event.strategyDone i (some e) ::
          Event.log "debug" ("尝试切换商品勾选状态失败: " ++ e.Error) :: t)))
  /-- The strategy returns nil and the probe reports checked: the function returns nil. -/
  | hit (n i : Nat) (l : Option Err) (tp : List Event) (r : Except Err Bool)
      (hp : ∀ ev ∈ tp, isPlain ev = true) (hr : checkedOk r = true) :
      LoopRun inp (n + 1) i l (Flow.ret none)
        (Event.strategy i :: (tp ++ [Event.strategyDone i none, Event.sleep 200,
          Event.eval inp Script.isChecked r]))
  /-- The strategy returns nil and the probe does not report checked: the next strategy is tried. -/
  | miss (n i : Nat) (l : Option Err) (tp : List Event) (r : Except Err Bool) (v : Flow)
      (t : List Event) (hp : ∀ ev ∈ tp, isPlain ev = true) (hr : checkedOk r = false)
      (hrest : LoopRun inp n (i + 1) l v t) :
      LoopRun inp (n + 1) i l v
        (Event.strategy i :: (tp ++ (Event.strategyDone i none :: Event.sleep 200 ::
          Event.eval inp Script.isChecked r :: t)))

/-- The runs of the attempt loop (lines 233-255) over `n` strategies with `remaining`
passes left, entered at pass `attempt` with `lastErr = l`: the error returned
and the events performed, for every behaviour of the page. -/
inductive AttemptRun (inp : Elem) (n : Nat) : Nat → Nat → Option Err → Option Err → List Event → Prop
  /-- No pass is left: line 255 returns `Wrapf(lastErr, ...)`. -/
  | exhausted (a : Nat) (l : Option Err) :
      AttemptRun inp n 0 a l (Wrapf l "商品选择失败（已尝试3次）") [Event.exhausted l]
  /-- The probe at the head of the pass reports checked. -/
  | checked (k a : Nat) (l : Option Err) (r : Except Err Bool) (hr : checkedOk r = true) :
      AttemptRun inp n (k + 1) a l none [Event.attempt a, Event.eval inp Script.isChecked r]
  /-- The strategy loop returns from the function. -/
  | ret (k a : Nat) (l : Option Err) (r : Except Err Bool) (e : Option Err) (t : List Event)
      (hr : checkedOk r = false) (hloop : LoopRun inp n 0 l (Flow.ret e) t) :
      AttemptRun inp n (k + 1) a l e
        (Event.attempt a :: Event.eval inp Script.isChecked r :: t)
  /-- The strategy loop is over: sleep, next pass. -/
  | next (k a : Nat) (l : Option Err) (r : Except Err Bool) (l2 : Option Err) (t : List Event)
      (v : Option Err) (t2 : List Event) (hr : checkedOk r = false)
      (hloop : LoopRun inp n 0 l (Flow.go l2) t) (hrest : AttemptRun inp n k (a + 1) l2 v t2) :
      AttemptRun inp n (k + 1) a l v
        (Event.attempt a :: Event.eval inp Script.isChecked r :: (t ++ Event.sleep 300 :: t2))

/-- The runs of `ensureProductSelected` on `card`: the error returned and the events
performed, for every behaviour of the page. -/
inductive SelectRun (card : Elem) : Option Err → List Event → Prop
  /-- The checkbox input is not found (lines 161-164). -/
  | notFound (e : Err) :
      SelectRun card (Wrap (some e) "未找到商品选择框")
        [Event.element card none "input[type='checkbox']" (.error e)]
  /-- The checkbox element has no content: the product is skipped (lines 179-182). -/
  | skipped (inp : Elem) :
      SelectRun card none
        [Event.element card none "input[type='checkbox']" (.ok inp),
          Event.eval inp Script.hasContent (.ok false),
          Event.log "warn" "检测到空的选择框元素，跳过此商品"]
  /-- The checkbox is checked already (lines 185-187). -/
  | already (inp : Elem) (r1 r : Except Err Bool) (h1 : r1 ≠ .ok false)
      (hr : checkedOk r = true) :
      SelectRun card none
        [Event.element card none "input[type='checkbox']" (.ok inp),
          Event.eval inp Script.hasContent r1, Event.eval inp Script.isChecked r]
  /-- The retry loop is run (lines 189-255), after the plain events `mid` of scrolling and
  of resolving the checkbox area. -/
  | retried (inp : Elem) (r1 r : Except Err Bool) (mid : List Event) (v : Option Err)
      (t : List Event) (h1 : r1 ≠ .ok false) (hr : checkedOk r = false)
      (hmid : ∀ ev ∈ mid, isPlain ev = true) (hrun : AttemptRun inp 4 3 0 none v t) :
      SelectRun card v
        (Event.element card none "input[type='checkbox']" (.ok inp) ::
          Event.eval inp Script.hasContent r1 :: Event.eval inp Script.isChecked r :: (mid ++ t))

/-- The rest of a trace starts with the settle sleep of 200 ms and a checked-state
probe. -/
def Rechecked (post : List Event) : Prop :=
  ∃ el r rest, post = Event.sleep 200 :: Event.eval el Script.isChecked r :: rest

/-- The trace shows that `card` was matched for `keyword`: its `.sku-name` label was
found, the text of the label was read, and the lower-cased text contains the
lower-cased keyword. -/
def CardResolved (lower : String → String) (t : List Event) (keyword : String) (card : Elem) :
    Prop :=
  ∃ nameElem name, Event.element card none ".sku-name" (.ok nameElem) ∈ t ∧
    Event.text nameElem (.ok name) ∈ t ∧ Contains (lower name) (lower keyword) = true

/-- The trace shows that the checkbox input of `card` was found and that a checked-state
probe on it reported true. -/
def CheckedObserved (t : List Event) (card : Elem) : Prop :=
  ∃ inp, Event.element card none "input[type='checkbox']" (.ok inp) ∈ t ∧
    Event.eval inp Script.isChecked (.ok true) ∈ t

/-- The trace shows that the checkbox input of `card` was found and that the content probe
of lines 166-178 answered false: the product was skipped (lines 179-182). -/
def SkippedEmpty (t : List Event) (card : Elem) : Prop :=
  ∃ inp, Event.element card none "input[type='checkbox']" (.ok inp) ∈ t ∧
    Event.eval inp Script.hasContent (.ok false) ∈ t ∧
    Event.log "warn" "检测到空的选择框元素，跳过此商品" ∈ t

/-! ## Event kinds, clocks and poll loops -/

/-- The kind of an event: which operation or marker it records.  Setting the value of the
search input (`Script.setValue`) has a kind of its own, `typing`; the
markers of the retry loop share the kind `marker`. -/
inductive Kind where
  | pageElement | pageElementR | pageHas | element | elements | elementR | attr | visible
  | text | eval | typing | click | scroll | sleep | marker | log
deriving DecidableEq, Repr

/-- The kind of an event. -/
def Event.kind : Event → Kind
  | .pageElement _ _ _ => .pageElement
  | .pageElementR _ _ _ => .pageElementR
  | .pageHas _ _ => .pageHas
  | .element _ _ _ _ => .element
  | .elements _ _ _ => .elements
  | .elementR _ _ _ _ => .elementR
  | .attr _ _ _ => .attr
  | .visible _ _ => .visible
  | .text _ _ => .text
  | .eval _ (.setValue _) _ => .typing
  | .eval _ _ _ => .eval
  | .click _ _ _ => .click
  | .scrollIntoView _ _ => .scroll
  | .sleep _ => .sleep
  | .attempt _ => .marker
  | .strategy _ => .marker
  | .strategyDone _ _ => .marker
  | .exhausted _ => .marker
  | .log _ _ => .log

/-- All events performed by the program, from every state, are of the kinds `ks`. -/
def Emits {σ α : Type} (ks : List Kind) (p : Prog σ α) : Prop :=
  ∀ s, ∀ ev ∈ (p s).trace, ev.kind ∈ ks

/-- The clock of the environment goes forward: a sleep advances it by the length of the
sleep at least, and no operation of the control protocol turns it back. -/
structure Clocked {σ : Type} (R : Remote σ) : Prop where
  sleep_adv : ∀ d s, R.now s + d ≤ R.now (R.sleep d s)
  pageElement_fwd : ∀ t sel s, R.now s ≤ R.now (R.pageElement t sel s).2
  pageElementR_fwd : ∀ sel re s, R.now s ≤ R.now (R.pageElementR sel re s).2
  pageHas_fwd : ∀ sel s, R.now s ≤ R.now (R.pageHas sel s).2
  element_fwd : ∀ e t sel s, R.now s ≤ R.now (R.element e t sel s).2
  elements_fwd : ∀ e sel s, R.now s ≤ R.now (R.elements e sel s).2
  elementR_fwd : ∀ e sel re s, R.now s ≤ R.now (R.elementR e sel re s).2
  attr_fwd : ∀ e n s, R.now s ≤ R.now (R.attr e n s).2
  visible_fwd : ∀ e s, R.now s ≤ R.now (R.visible e s).2
  text_fwd : ∀ e s, R.now s ≤ R.now (R.text e s).2
  eval_fwd : ∀ e js s, R.now s ≤ R.now (R.eval e js s).2
  click_fwd : ∀ e t s, R.now s ≤ R.now (R.click e t s).2
  scrollIntoView_fwd : ∀ e s, R.now s ≤ R.now (R.scrollIntoView e s).2

/-- The program does not turn the clock back. -/
def Advances {σ α : Type} (R : Remote σ) (p : Prog σ α) : Prop :=
  ∀ s, R.now s ≤ R.now (p s).st

/-- The sum of the weights `m` of the events of a trace. -/
def weigh (m : Event → Nat) (t : List Event) : Nat :=
  (t.map m).sum

/-- The length of a sleep, 0 for any other event. -/
def sleepMs : Event → Nat
  | .sleep ms => ms
  | _ => 0

/-- The time slept in a trace: the sum of the lengths of its sleeps, in milliseconds. -/
def sleepTotal (t : List Event) : Nat :=
  weigh sleepMs t

/-- The number of events of kind `k` in a trace. -/
def kindCount (k : Kind) (t : List Event) : Nat :=
  weigh (fun ev => if ev.kind = k then 1 else 0) t

/-- The common shape of the three poll loops (`waitUntil(predicate, deadline, pollInterval)`
of the specification, section 4.3): while the clock is before the deadline, run the probe;
leave with `found a` when it answers `some a`, else sleep `interval` and go
round again; past the deadline leave with `timeout`.  Out of fuel: `none`. -/
def pollUntil {σ α β : Type} (R : Remote σ) (probe : Prog σ (Option α)) (interval deadline : Nat)
    (found : α → β) (timeout : β) : Nat → Prog σ (Option β)
  | 0 => Prog.pure none
  | fuel + 1 => do
      if (← Prog.now R) < deadline then
        match ← probe with
        | some a => return some (found a)
        | none =>
            Prog.sleep R interval
            pollUntil R probe interval deadline found timeout fuel
      else
        return some timeout

/-- The state in which pass number `k` of a poll loop starts, the passes before it having
failed: each pass runs the probe and sleeps `interval`. -/
def pollState {σ α : Type} (R : Remote σ) (probe : Prog σ (Option α)) (interval : Nat) :
    Nat → σ → σ
  | 0, s => s
  | k + 1, s => pollState R probe interval k (R.sleep interval (probe s).st)

/-- The events of `n` failed passes of a poll loop: the events of the probe, then the
sleep, `n` times. -/
def pollTrace {σ α : Type} (R : Remote σ) (probe : Prog σ (Option α)) (interval : Nat) :
    Nat → σ → List Event
  | 0, _ => []
  | n + 1, s =>
      (probe s).trace ++ Event.sleep interval ::
        pollTrace R probe interval n (R.sleep interval (probe s).st)

/-- One pass of the loop of `waitForModalClose` (lines 316-319): `some ()` when the
presence probe answers, without error, that the modal is absent. -/
def waitForModalClose.probe {σ : Type} (R : Remote σ) : Prog σ (Option Unit) := do
  match ← Prog.op (R.pageHas "div.multi-goods-selector-modal")
      (Event.pageHas "div.multi-goods-selector-modal") with
  | .ok false => return some ()
  | _ => return none

/-- One pass of the loop of `waitForProductListLoad` (lines 288-304): `some ()` when a
product card, or else an empty-state element, is classified visible. -/
def waitForProductListLoad.probe {σ : Type} (R : Remote σ) (modal : Elem) :
    Prog σ (Option Unit) := do
  let cards ← Prog.op (R.elements modal ".good-card-container")
    (Event.elements modal ".good-card-container")
  let cardVisible ←
    match cards with
    | .ok (c :: cs) => anyVisible R (c :: cs)
    | _ => Prog.pure false
  if cardVisible then
    return some ()
  let emptyStates ← Prog.op (R.elements modal ".goods-list-empty, .goods-list-search-empty")
    (Event.elements modal ".goods-list-empty, .goods-list-search-empty")
  let emptyVisible ←
    match emptyStates with
    | .ok es => anyVisible R es
    | .error _ => Prog.pure false
  if emptyVisible then
    return some ()
  return none

/-- One pass of the loop of `findProductCard` (lines 132-152): the matching card of this
poll, if there is one. -/
def findProductCard.probe {σ : Type} (R : Remote σ) (lower : String → String) (modal : Elem)
    (lowerKeyword : String) : Prog σ (Option Elem) := do
  match ← Prog.op (R.elements modal ".good-card-container")
      (Event.elements modal ".good-card-container") with
  | .ok (c :: cs) => findProductCard.scan R lower lowerKeyword (c :: cs)
  | _ => return none

/-! ## Stages of the product attachment -/

/-- The first stage of `addProducts` (lines 27-45): find and click the add-product button,
resolve the modal; the modal, or the error `addProducts` returns. -/
def addProducts.openModal {σ : Type} (R : Remote σ) : Prog σ (Except Err Elem) := do
  match ← findAddProductButton R with
  | .error err => return .error (Err.wrap err "未找到添加商品入口")
  | .ok addButton =>
  match ← Prog.op (R.scrollIntoView addButton) (Event.scrollIntoView addButton) with
  | some err => Prog.log "debug" ("滚动到添加商品按钮失败: " ++ err.Error)
  | none => Prog.pure ()
  Prog.sleep R 100
  match ← Prog.op (R.click addButton none) (Event.click addButton none) with
  | some err => return .error (Err.wrap err "点击添加商品按钮失败")
  | none =>
  Prog.sleep R 500
  match ← Prog.op (R.pageElement (some 15000) "div.multi-goods-selector-modal")
      (Event.pageElement (some 15000) "div.multi-goods-selector-modal") with
  | .error err => return .error (Err.wrap err "打开商品选择弹窗失败")
  | .ok modal => return .ok modal

/-- The stage of `addProducts` between the list-populated wait and the keyword loop
(lines 47-54), given the answer `loaded` of the wait: log the warning when
the wait failed, resolve the search input. -/
def addProducts.searchInput {σ : Type} (R : Remote σ) (modal : Elem) (loaded : Option Err) :
    Prog σ (Except Err Elem) := do
  match loaded with
  | some err => Prog.log "warn" ("等待商品列表加载失败: " ++ err.Error)
  | none => Prog.pure ()
  match ← Prog.op (R.element modal (some 10000) "input[placeholder='搜索商品ID 或 商品名称']")
      (Event.element modal (some 10000) "input[placeholder='搜索商品ID 或 商品名称']") with
  | .error err => return .error (Err.wrap err "未找到商品搜索输入框")
  | .ok searchInput => return .ok searchInput

/-- The last stage of `addProducts` (lines 73-86): resolve and click the save button, wait
for the modal to close. -/
def addProducts.save {σ : Type} (R : Remote σ) (fuel : Nat) (modal : Elem) :
    Prog σ (Option (Option Err)) := do
  match ← Prog.op (R.elementR modal "div.d-modal-footer button" "保存")
      (Event.elementR modal "div.d-modal-footer button" "保存") with
  | .error err => return some (Wrap (some err) "未找到商品保存按钮")
  | .ok saveButton =>
  match ← Prog.op (R.click saveButton none) (Event.click saveButton none) with
  | some err => return some (Wrap (some err) "点击保存商品按钮失败")
  | none => waitForModalClose R fuel

/-- The stages of `addProducts` before the keyword loop (lines 27-54): open the modal, wait
for the list, resolve the search input; the modal and the search input, or
the error `addProducts` returns, or `none` when the wait ran out of fuel. -/
def addProducts.setup {σ : Type} (R : Remote σ) (fuel : Nat) :
    Prog σ (Option (Except Err (Elem × Elem))) := do
  match ← addProducts.openModal R with
  | .error err => return some (.error err)
  | .ok modal =>
  match ← waitForProductListLoad R fuel modal with
  | none => return none
  | some loaded =>
  match ← addProducts.searchInput R modal loaded with
  | .error err => return some (.error err)
  | .ok searchInput => return some (.ok (modal, searchInput))

/-- The function `addProducts` as the sequence of its stages: the setup, the keyword loop,
the save. -/
def addProducts.staged {σ : Type} (R : Remote σ) (lower : String → String) (fuel : Nat)
    (productKeywords : List String) : Prog σ (Option (Option Err)) := do
  if (addProducts.keywords productKeywords).length = 0 then
    return some none
  match ← addProducts.setup R fuel with
  | none => return none
  | some (.error err) => return some (some err)
  | some (.ok (modal, searchInput)) =>
  match ← addProducts.loop R lower fuel modal searchInput
      (addProducts.keywords productKeywords) with
  | none => return none
  | some (some err) => return some (some err)
  | some none => addProducts.save R fuel modal

/-- Every keyword of the list is searched, resolved and selected without error, one after
the other from state `s`: `inputProductSearchKeyword` returns nil,
`findProductCard` returns a card, `ensureProductSelected` returns nil on that
card. -/
def AllSelected {σ : Type} (R : Remote σ) (lower : String → String) (fuel : Nat)
    (modal searchInput : Elem) : List String → σ → Prop
  | [], _ => True
  | keyword :: rest, s =>
      (inputProductSearchKeyword R searchInput keyword s).val = none ∧
      ∃ card,
        (findProductCard R lower fuel modal keyword
          (inputProductSearchKeyword R searchInput keyword s).st).val = some (.ok card) ∧
        (ensureProductSelected R card
          (findProductCard R lower fuel modal keyword
            (inputProductSearchKeyword R searchInput keyword s).st).st).val = none ∧
        AllSelected R lower fuel modal searchInput rest
          (Prog.log "info" ("已选中商品: " ++ keyword)
            (ensureProductSelected R card
              (findProductCard R lower fuel modal keyword
                (inputProductSearchKeyword R searchInput keyword s).st).st).st).st

/-- The kinds of the events of a selection. -/
def selectKinds : List Kind :=
  [Kind.element, Kind.eval, Kind.log, Kind.scroll, Kind.sleep, Kind.click, Kind.elements,
    Kind.attr, Kind.visible, Kind.marker]

/-- The kinds of the events of the stages of `addProducts` before the keyword loop. -/
def setupKinds : List Kind :=
  [Kind.pageElement, Kind.pageElementR, Kind.scroll, Kind.log, Kind.sleep, Kind.click,
    Kind.elements, Kind.attr, Kind.visible, Kind.element]

/-- The kinds of the events of the keyword loop of `addProducts`. -/
def loopKinds : List Kind :=
  [Kind.typing, Kind.text, Kind.element, Kind.eval, Kind.log, Kind.scroll, Kind.sleep,
    Kind.click, Kind.elements, Kind.attr, Kind.visible, Kind.marker]

/-- The kinds of the events of the save stage of `addProducts`. -/
def saveKinds : List Kind :=
  [Kind.elementR, Kind.click, Kind.pageHas, Kind.sleep]

/-- The label of a card as the loop of `findProductCard` reads it (lines 139-147): the text
of its `.sku-name` element; `none` when the element or its text cannot be
read. -/
def cardLabel {σ : Type} (R : Remote σ) (card : Elem) : Prog σ (Option String) := do
  match ← Prog.op (R.element card none ".sku-name") (Event.element card none ".sku-name") with
  | .error _ => return none
  | .ok nameElem =>
      match ← Prog.op (R.text nameElem) (Event.text nameElem) with
      | .error _ => return none
      | .ok name => return some name

/-- The card examined in state `s` has a readable label whose lower-cased text contains the
lower-cased keyword (line 149). -/
def cardMatches {σ : Type} (R : Remote σ) (lower : String → String) (lowerKeyword : String)
    (card : Elem) (s : σ) : Bool :=
  match (cardLabel R card s).val with
  | some name => Contains (lower name) lowerKeyword
  | none => false

/-- The state in which the card after the cards `pre` is examined, the labels of `pre`
having been read from state `s` on. -/
def afterCards {σ : Type} (R : Remote σ) (pre : List Elem) (s : σ) : σ :=
  pre.foldl (fun st c => (cardLabel R c st).st) s

/-! ## Concrete pages -/

/-- The state of the concrete pages: the clock in milliseconds, and whether the product
checkbox is checked. -/
structure Page where
  clock : Nat
  checked : Bool
deriving DecidableEq, Repr

/-- The start state of the concrete pages: clock 0, checkbox not checked. -/
def Page.start : Page := ⟨0, false⟩

/-- A page on which no element is found, every other operation succeeds with an empty
answer, the checked-state probe reports the state of the checkbox, and every
sleep advances the clock by its length. -/
def blankPage : Remote Page where
  pageElement _ _ s := (.error (Err.msg "element not found"), s)
  pageElementR _ _ s := (.error (Err.msg "element not found"), s)
  pageHas _ s := (.ok false, s)
  element _ _ _ s := (.error (Err.msg "element not found"), s)
  elements _ _ s := (.ok [], s)
  elementR _ _ _ s := (.error (Err.msg "element not found"), s)
  attr _ _ s := (.ok none, s)
  visible _ s := (.ok true, s)
  text _ s := (.ok "", s)
  eval _ js s := (.ok (js == Script.isChecked && s.checked), s)
  click _ _ s := (none, s)
  scrollIntoView _ s := (none, s)
  sleep d s := { s with clock := s.clock + d }
  now s := s.clock

/-- A page whose elements all carry the inline style `style` and answer the visibility
query with `visible`. -/
def styledPage (style : String) (visible : Except Err Bool) : Remote Page :=
  { blankPage with
    attr := fun _ _ s => (.ok (some style), s)
    visible := fun _ s => (visible, s) }

/-- A card (element 1) with a checkbox input (element 2) that has content, a checkbox
area `.d-checkbox-main` (element 3) and one visible indicator (element 4).
Every click and every script succeeds; none of them changes the checkbox. -/
def stubbornPage : Remote Page :=
  { blankPage with
    element := fun _ _ sel s =>
      if sel = "input[type='checkbox']" then (.ok 2, s)
      else if sel = ".d-checkbox-main" then (.ok 3, s)
      else (.error (Err.msg "element not found"), s)
    elements := fun _ _ s => (.ok [4], s)
    eval := fun _ js s =>
      (.ok (js == Script.hasContent || (js == Script.isChecked && s.checked)), s) }

/-- The page `stubbornPage`, except that a click on an element fails. -/
def clickFailsPage : Remote Page :=
  { stubbornPage with
    click := fun _ _ s => (some (Err.msg "element covered"), s) }

/-- A card whose only child found is the checkbox input (element 2); the input has
content and the synthetic click `this.click()` checks it. -/
def clickablePage : Remote Page :=
  { blankPage with
    element := fun _ _ sel s =>
      if sel = "input[type='checkbox']" then (.ok 2, s)
      else (.error (Err.msg "element not found"), s)
    eval := fun _ js s =>
      if js = Script.click then (.ok false, { s with checked := true })
      else (.ok (js == Script.hasContent || (js == Script.isChecked && s.checked)), s) }

/-- The function `strings.ToLower` on ASCII letters, for the concrete pages. -/
def asciiLower (s : String) : String :=
  ⟨s.data.map Char.toLower⟩

/-- A page on which the whole product attachment goes through for a product named
`Green Tea`: the add button (element 10) opens the modal (element 20) with
its search input (element 21), one visible product card (element 30) whose
label (element 31) reads `Green Tea`, and the save button (element 40);
after the save click the modal is gone.  The checkbox input of the card
(element 32) is a plain `input`: it has no child, so the content probe of
lines 166-178 answers false, and it is not checked. -/
def emptyBoxPage : Remote Page :=
  { blankPage with
    pageElement := fun _ sel s =>
      if sel = "div.multi-good-select-empty-btn button" then (.ok 10, s)
      else if sel = "div.multi-goods-selector-modal" then (.ok 20, s)
      else (.error (Err.msg "element not found"), s)
    element := fun _ _ sel s =>
      if sel = "input[placeholder='搜索商品ID 或 商品名称']" then (.ok 21, s)
      else if sel = ".sku-name" then (.ok 31, s)
      else if sel = "input[type='checkbox']" then (.ok 32, s)
      else (.error (Err.msg "element not found"), s)
    elements := fun _ sel s =>
      if sel = ".good-card-container" then (.ok [30], s) else (.ok [], s)
    elementR := fun _ _ _ s => (.ok 40, s)
    text := fun _ s => (.ok "Green Tea", s) }

/-- The page `emptyBoxPage`, except that the checkbox input has content and the synthetic
click `this.click()` checks it. -/
def shopPage : Remote Page :=
  { emptyBoxPage with eval := clickablePage.eval }

/-- A page on which the modal stays open and the product list stays empty: the presence
probe answers true, no card and no empty-state element is ever found. -/
def frozenPage : Remote Page :=
  { blankPage with pageHas := fun _ s => (.ok true, s) }

/-- A page on which the modal opens and the search input (element 21) is found, but the
product list never shows a card nor an empty state. -/
def slowListPage : Remote Page :=
  { blankPage with
    pageElement := fun _ sel s =>
      if sel = "div.multi-good-select-empty-btn button" then (.ok 10, s)
      else if sel = "div.multi-goods-selector-modal" then (.ok 20, s)
      else (.error (Err.msg "element not found"), s)
    element := fun _ _ sel s =>
      if sel = "input[placeholder='搜索商品ID 或 商品名称']" then (.ok 21, s)
      else (.error (Err.msg "element not found"), s) }

/-- The page `stubbornPage`, except that the script of the forced check (the last strategy)
fails. -/
def forceFailsPage : Remote Page :=
  { stubbornPage with
    eval := fun el js s =>
      if js = Script.forceCheck then (.error (Err.msg "execution context was destroyed"), s)
      else stubbornPage.eval el js s }

/-! ## Browser handlers (`handlers_api.go`) -/

/-- The session manager `browser.GetManager()` as the handlers use it. The package `browser`
is not among the sources at hand: the manager is a parameter, a registry state
`μ` with the methods that `handlers_api.go` calls on it. -/
structure Manager (μ : Type) where
  /-- The method `IsHeadless()`. -/
  IsHeadless : μ → Bool
  /-- The method `SetHeadless(b)`. -/
  SetHeadless : Bool → μ → μ
  /-- The method `GetSessionCount()`, a Go `int`. -/
  GetSessionCount : μ → Int
  /-- The method `CloseBrowser(sessionID)`. -/
  CloseBrowser : String → μ → μ
  /-- The method `CloseAll()`. -/
  CloseAll : μ → μ

/-- The struct `SuccessResponse` that `respondSuccess` fills (lines 34-38); `δ` is the type of
the data. -/
structure SuccessResponse (δ : Type) where
  Success : Bool
  Data : δ
  Message : String
deriving DecidableEq, Repr

/-- The function `respondSuccess` (lines 33-44): the status code and the body handed to
`c.JSON`. -/
def respondSuccess {δ : Type} (data : δ) (message : String) : Nat × SuccessResponse δ :=
  (200, ⟨true, data, message⟩)

/-- The handler `closeAllBrowsersHandler` (lines 319-324): the response written and the
registry left. The data is the map `map[string]int` with the single key
`closed_count`, as its list of entries. -/
def closeAllBrowsersHandler {μ : Type} (M : Manager μ) (manager : μ) :
    (Nat × SuccessResponse (List (String × Int))) × μ :=
  let manager := M.CloseAll manager
  (respondSuccess [("closed_count", M.GetSessionCount manager)] "所有浏览器已关闭", manager)

/-- A registry: the headless flag and the identifiers of the open sessions. -/
structure Registry where
  headless : Bool
  sessions : List String
deriving DecidableEq, Repr

/-- A session manager over `Registry`: closing removes the session from the registry, closing
all empties it, the count is the number of registered sessions. -/
def registryManager : Manager Registry where
  IsHeadless r := r.headless
  SetHeadless b r := ⟨b, r.sessions⟩
  GetSessionCount r := r.sessions.length
  CloseBrowser sid r := ⟨r.headless, r.sessions.filter (fun x => x ≠ sid)⟩
  CloseAll r := ⟨r.headless, []⟩

/-! ## Content generation (`pkg/ai/generator.go`) -/

/-- The function `strings.TrimPrefix(s, p)`: `s` without the leading `p`, or `s` itself. -/
def TrimPrefix (s p : String) : String :=
  if p.data <+: s.data then ⟨s.data.drop p.data.length⟩ else s

/-- The function `strings.TrimSuffix(s, p)`: `s` without the trailing `p`, or `s` itself. -/
def TrimSuffix (s p : String) : String :=
  if p.data <:+ s.data then ⟨s.data.take (s.data.length - p.data.length)⟩ else s

/-- The struct `GenerateRequest` (lines 13-19); `ImageCount` is a Go `int`. -/
structure GenerateRequest where
  Topic : String
  Keywords : List String
  Style : String
  ImageCount : Int
  ContentType : String
deriving DecidableEq, Repr

/-- The struct `GenerateResult` (lines 22-27). -/
structure GenerateResult where
  Title : String
  Content : String
  Tags : List String
  ImageURLs : List String
deriving DecidableEq, Repr

/-- The struct `TextContent` (lines 99-103). -/
structure TextContent where
  Title : String
  Content : String
  Tags : List String
deriving DecidableEq, Repr

/-- The AI client as the generator calls it: `GenerateText(ctx, prompt, systemPrompt)` and
`GenerateImage(ctx, prompt)` send a request to the remote service, whose state
is `ω` (the context and the configuration of the client are part of it), and
return its answer or an error. -/
structure Client (ω : Type) where
  GenerateText : String → String → ω → Except Err String × ω
  GenerateImage : String → ω → Except Err String × ω

/-- The system prompt of `generateTextContent` (lines 107-120). -/
def generateTextContent.systemPrompt : String :=
  "你是一个专业的小红书内容创作助手。你需要根据用户提供的主题和关键词，生成吸引人的小红书笔记内容。\n\n要求：\n1. 标题要吸引眼球，可以使用emoji，长度控制在30字以内\n2. 内容要丰富有价值，适合小红书的风格，可以使用emoji和换行，长度300-800字\n3. 标签要相关且热门，数量3-8个，每个标签前加#号\n4. 输出格式必须是JSON，包含title、content、tags三个字段\n\n示例输出格式：\n\x7b\n  \"title\": \"✨标题内容✨\",\n  \"content\": \"正文内容...\",\n  \"tags\": [\"#标签1\", \"#标签2\", \"#标签3\"]\n\x7d"

/-- The user prompt of `generateTextContent` (lines 122-143). -/
def generateTextContent.userPrompt (req : GenerateRequest) : String :=
  let keywordsStr := String.intercalate "、" req.Keywords
  let keywordsStr := if keywordsStr ≠ "" then "，关键词包括：" ++ keywordsStr else keywordsStr
  let styleStr := if req.Style ≠ "" then "，风格要求：" ++ req.Style else ""
  let contentTypeDesc :=
    if req.ContentType = "tutorial" then "，内容类型为教程类，需要有步骤和指导"
    else if req.ContentType = "review" then "，内容类型为评测类，需要客观评价"
    else if req.ContentType = "experience" then "，内容类型为体验分享类，需要真实感受"
    else ""
  "请为主题「" ++ req.Topic ++ "」生成一篇小红书笔记内容" ++ keywordsStr ++ styleStr ++
    contentTypeDesc ++ "。请直接返回JSON格式，不要添加任何其他说明文字。"

/-- The method `generateTextContent` (lines 106-168). The decoder `json.Unmarshal` into a
`TextContent` is the parameter `unmarshal`; the error of line 164 is given by
its message. -/
def generateTextContent {ω : Type} (C : Client ω) (unmarshal : String → Except Err TextContent)
    (req : GenerateRequest) (w : ω) : Except Err TextContent × ω :=
  match C.GenerateText (generateTextContent.userPrompt req) generateTextContent.systemPrompt w with
  | (.error err, w) => (.error err, w)
  | (.ok response, w) =>
      let response := TrimSpace response
      let response := TrimPrefix response "\x60\x60\x60json"
      let response := TrimPrefix response "\x60\x60\x60"
      let response := TrimSuffix response "\x60\x60\x60"
      let response := TrimSpace response
      match unmarshal response with
      | .error err =>
          (.error (Err.msg ("解析AI生成的内容失败: " ++ err.Error ++ ", 响应内容: " ++ response)), w)
      | .ok textContent => (.ok textContent, w)

/-- The method `buildImagePrompt` (lines 171-213); the title is not used. -/
def buildImagePrompt (req : GenerateRequest) (_title : String) : String :=
  let prompt :=
    "Create a beautiful and eye-catching cover image for a social media post about: " ++ req.Topic
  let prompt :=
    if req.Keywords.length > 0 then
      prompt ++ ". Keywords: " ++ String.intercalate ", " req.Keywords
    else prompt
  let stylePrompt :=
    if req.Style ≠ "" then
      if req.Style = "简约" then ", minimalist style, clean and simple, pastel colors"
      else if req.Style = "时尚" then
        ", fashionable and trendy style, bold colors, magazine quality"
      else if req.Style = "温馨" then ", warm and cozy style, soft colors, inviting atmosphere"
      else if req.Style = "专业" then
        ", professional and business style, corporate colors, high quality"
      else ", " ++ req.Style ++ " style"
    else ", modern and clean style, vibrant colors, professional photography quality"
  let prompt := prompt ++ stylePrompt
  let prompt :=
    if req.ContentType = "tutorial" then
      prompt ++ ", include educational elements, step-by-step visual hints"
    else if req.ContentType = "review" then
      prompt ++ ", include product showcase, comparison elements"
    else if req.ContentType = "experience" then
      prompt ++ ", include lifestyle elements, authentic feel"
    else prompt
  prompt ++ ", suitable for Xiaohongshu (Little Red Book) platform, 1:1 aspect ratio"

/-- The defaults that `GenerateContent` writes into the request (lines 45-51): an image count
of 0 becomes 1, an empty content type becomes `article`. -/
def GenerateContent.defaults (req : GenerateRequest) : GenerateRequest :=
  let req : GenerateRequest :=
    if req.ImageCount = 0 then ⟨req.Topic, req.Keywords, req.Style, 1, req.ContentType⟩ else req
  if req.ContentType = "" then ⟨req.Topic, req.Keywords, req.Style, req.ImageCount, "article"⟩
  else req

/-- The loop `for i := 0; i < req.ImageCount; i++` of `GenerateContent` (lines 65-78) with
`n` rounds to go: a failed generation is passed over (`continue`), the URL of
a successful one is appended. -/
def GenerateContent.images {ω : Type} (C : Client ω) (req : GenerateRequest) (title : String) :
    Nat → List String → ω → List String × ω
  | 0, imageURLs, w => (imageURLs, w)
  | n + 1, imageURLs, w =>
      let imagePrompt := buildImagePrompt req title
      match C.GenerateImage imagePrompt w with
      | (.error _, w) => GenerateContent.images C req title n imageURLs w
      | (.ok imageURL, w) => GenerateContent.images C req title n (imageURLs ++ [imageURL]) w

/-- The method `GenerateContent` (lines 42-96): the result, or the error, and the state of
the service afterwards. The error of line 56 wraps the cause with `%w`. The
calls of the logger are left out. -/
def GenerateContent {ω : Type} (C : Client ω) (unmarshal : String → Except Err TextContent)
    (req : GenerateRequest) (w : ω) : Except Err GenerateResult × ω :=
  let req := GenerateContent.defaults req
  match generateTextContent C unmarshal req w with
  | (.error err, w) => (.error (Err.wrap err "生成文本内容失败"), w)
  | (.ok textContent, w) =>
      let (imageURLs, w) :=
        if req.ImageCount > 0 then
          GenerateContent.images C req textContent.Title req.ImageCount.toNat [] w
        else ([], w)
      (.ok ⟨textContent.Title, textContent.Content, textContent.Tags, imageURLs⟩, w)

/-- The outcomes of `n` successive calls of `GenerateImage` with one prompt, from state `w`
on, in the order of the calls. -/
def imageOutcomes {ω : Type} (C : Client ω) (prompt : String) :
    Nat → ω → List (Except Err String)
  | 0, _ => []
  | n + 1, w =>
      (C.GenerateImage prompt w).1 :: imageOutcomes C prompt n (C.GenerateImage prompt w).2

/-- The URL of a successful image generation. -/
def succeededURL : Except Err String → Option String
  | .ok url => some url
  | .error _ => none

/-- The effective image count of a request: 0 counts as 1, a negative count as none. -/
def effectiveImageCount (req : GenerateRequest) : Nat :=
  if req.ImageCount = 0 then 1 else req.ImageCount.toNat

/-- A client whose text generation answers a fenced JSON text and whose image generation
fails on every second call; the state counts the calls made. -/
def flakyClient : Client Nat where
  GenerateText _ _ w := (.ok "\x60\x60\x60json\n\x7b\x7d\n\x60\x60\x60", w + 1)
  GenerateImage _ w :=
    (if w % 2 = 0 then .error (Err.msg "API返回错误状态码 500: ") else .ok (toString w), w + 1)

/-- A decoder that accepts the text of an empty JSON object only. -/
def decodeEmpty (response : String) : Except Err TextContent :=
  if response = "\x7b\x7d" then .ok ⟨"茶", "正文", ["#茶"]⟩
  else .error (Err.msg "unexpected end of JSON input")

/-! ## Keywords of the product attachment -/

/-- The body of the loop `for _, keyword := range keywords` of `addProducts` for one keyword
(lines 57-70): search, resolve, select; `some none` when all three
succeeded, `some (some err)` with the error `addProducts` returns when one
failed, `none` when the poll loop of `findProductCard` ran out of fuel. -/
def addProducts.step {σ : Type} (R : Remote σ) (lower : String → String) (fuel : Nat)
    (modal searchInput : Elem) (keyword : String) : Prog σ (Option (Option Err)) := do
  match ← inputProductSearchKeyword R searchInput keyword with
  | some err => return some (Wrapf (some err) ("搜索商品失败: " ++ keyword))
  | none =>
      match ← findProductCard R lower fuel modal keyword with
      | none => return none
      | some (.error err) => return some (Wrapf (some err) ("未找到匹配商品: " ++ keyword))
      | some (.ok card) =>
          match ← ensureProductSelected R card with
          | some err => return some (Wrapf (some err) ("选择商品失败: " ++ keyword))
          | none =>
              Prog.log "info" ("已选中商品: " ++ keyword)
              return some none

/-- The keyword that an event types into an input: the argument of `Script.setValue`. -/
def typedKeyword : Event → Option String
  | .eval _ (.setValue v) _ => some v
  | _ => none

/-- The keywords typed in a trace, in the order of the events. -/
def typed (t : List Event) : List String :=
  t.filterMap typedKeyword

/-- The event is an operation of the control protocol on the page (not a sleep, a marker of
the retry loop or a log line). -/
def Event.isOperation : Event → Bool
  | .sleep _ => false
  | .attempt _ => false
  | .strategy _ => false
  | .strategyDone _ _ => false
  | .exhausted _ => false
  | .log _ _ => false
  | _ => true

/-! ## Publication service (`service.go`) -/

/-- The function `strings.HasPrefix(s, p)`. -/
def HasPrefix (s p : String) : Bool :=
  decide (p.data <+: s.data)

/-- The struct `PublishRequest` (lines 25-31). -/
structure PublishRequest where
  Title : String
  Content : String
  Images : List String
  Tags : List String
  Products : List String
deriving DecidableEq, Repr

/-- The struct `PublishResponse` (lines 40-46); `Images` is a Go `int`. -/
structure PublishResponse where
  Title : String
  Content : String
  Images : Int
  Status : String
  PostID : String
deriving DecidableEq, Repr

/-- The struct `xiaohongshu.PublishImageContent`, by the fields that `PublishContent` fills
(lines 127-133). -/
structure PublishImageContent where
  Title : String
  Content : String
  Tags : List String
  Products : List String
  ImagePaths : List String
deriving DecidableEq, Repr

/-- The machine that the service runs on, with state `ω`: the file system, the image
processor of package `downloader` and the browser of packages `browser` and
`xiaohongshu`. None of these packages is among the sources at hand: their
operations are parameters. -/
structure Host (ω : Type) where
  /-- The test `_, err := os.Stat(name); os.IsNotExist(err)`. -/
  statNotExist : String → ω → Bool × ω
  /-- The call `downloader.NewImageProcessor().ProcessImages(images)`. -/
  ProcessImages : List String → ω → Except Err (List String) × ω
  /-- The call `browser.GetManager().IsHeadless()`. -/
  IsHeadless : ω → Bool
  /-- The calls `browser.NewBrowser(headless).NewPage()`. -/
  NewPage : Bool → ω → ω
  /-- The call `page.Close()`. -/
  ClosePage : ω → ω
  /-- The call `xiaohongshu.NewPublishImageAction(page)`: the error, if any. -/
  NewPublishImageAction : ω → Option Err × ω
  /-- The call `action.Publish(ctx, content)`. -/
  Publish : PublishImageContent → ω → Option Err × ω

/-- A call of the service on its host, with what the host answered. -/
inductive Call where
  | stat (name : String) (notExist : Bool)
  | processImages (images : List String) (r : Except Err (List String))
  | newPage (headless : Bool)
  | newPublishImageAction (r : Option Err)
  | publish (content : PublishImageContent) (r : Option Err)
  | closePage
deriving DecidableEq, Repr

/-- The outcome of a function of the service: the value returned, the calls made on the host
and the state of the host afterwards. -/
structure Done (ω α : Type) where
  val : α
  calls : List Call
  st : ω

/-- The body of the loop `for _, img := range req.Images` of `PublishContent` up to line 107:
the flag `isVirtual` of one image. The file system is asked (line 98) only
when the first pattern did not match and the name has no path separator. -/
def PublishContent.isVirtual {ω : Type} (H : Host ω) (img : String) (w : ω) : Done ω Bool :=
  let isVirtual := false
  let isVirtual := if HasPrefix img "image_" && Contains img "_" then true else isVirtual
  if !isVirtual && !Contains img "/" && !Contains img "\\" then
    let notExist := (H.statNotExist img w).1
    let w := (H.statNotExist img w).2
    let isVirtual := if notExist then true else isVirtual
    let isVirtual :=
      if !isVirtual && (HasPrefix img "http://" || HasPrefix img "https://") then false
      else isVirtual
    ⟨isVirtual, [Call.stat img notExist], w⟩
  else
    let isVirtual :=
      if !isVirtual && (HasPrefix img "http://" || HasPrefix img "https://") then false
      else isVirtual
    ⟨isVirtual, [], w⟩

/-- The loop `for _, img := range req.Images` of `PublishContent` (lines 88-111): the virtual
images are appended to `virtualImagePaths`. -/
def PublishContent.virtualImagePaths {ω : Type} (H : Host ω) :
    List String → List String → ω → Done ω (List String)
  | [], virtualImagePaths, w => ⟨virtualImagePaths, [], w⟩
  | img :: rest, virtualImagePaths, w =>
      let r := PublishContent.isVirtual H img w
      let virtualImagePaths := if r.val then virtualImagePaths ++ [img] else virtualImagePaths
      let r2 := PublishContent.virtualImagePaths H rest virtualImagePaths r.st
      ⟨r2.val, r.calls ++ r2.calls, r2.st⟩

/-- The first part of `PublishContent` (lines 81-124): the image paths to publish, or the
error of the image processing. -/
def PublishContent.imagePaths {ω : Type} (H : Host ω) (req : PublishRequest) (w : ω) :
    Done ω (Except Err (List String)) :=
  if req.Images.length = 0 then ⟨.ok [], [], w⟩
  else
    let v := PublishContent.virtualImagePaths H req.Images [] w
    if v.val.length = req.Images.length then ⟨.ok [], v.calls, v.st⟩
    else
      let r := H.ProcessImages req.Images v.st
      ⟨r.1, v.calls ++ [Call.processImages req.Images r.1], r.2⟩

/-- The method `publishContent` (lines 164-191); the page is closed on every return
(`defer page.Close()`). -/
def publishContent {ω : Type} (H : Host ω) (content : PublishImageContent) (w : ω) :
    Done ω (Option Err) :=
  let currentHeadless := H.IsHeadless w
  let w := H.NewPage currentHeadless w
  match H.NewPublishImageAction w with
  | (some err, w) =>
      ⟨some err, [Call.newPage currentHeadless, Call.newPublishImageAction (some err),
        Call.closePage], H.ClosePage w⟩
  | (none, w) =>
      match H.Publish content w with
      | (some err, w) =>
          ⟨some err, [Call.newPage currentHeadless, Call.newPublishImageAction none,
            Call.publish content (some err), Call.closePage], H.ClosePage w⟩
      | (none, w) =>
          ⟨none, [Call.newPage currentHeadless, Call.newPublishImageAction none,
            Call.publish content none, Call.closePage], H.ClosePage w⟩

/-- The method `PublishContent` (lines 78-155). The calls of the logger are left out. -/
def PublishContent {ω : Type} (H : Host ω) (req : PublishRequest) (w : ω) :
    Done ω (Except Err PublishResponse) :=
  let r := PublishContent.imagePaths H req w
  match r.val with
  | .error err => ⟨.error err, r.calls, r.st⟩
  | .ok imagePaths =>
      let content : PublishImageContent :=
        ⟨req.Title, req.Content, req.Tags, req.Products, imagePaths⟩
      let p := publishContent H content r.st
      match p.val with
      | some err => ⟨.error err, r.calls ++ p.calls, p.st⟩
      | none =>
          let status := if imagePaths.length = 0 then "发布完成（纯文本）" else "发布完成"
          ⟨.ok ⟨req.Title, req.Content, imagePaths.length, status, ""⟩, r.calls ++ p.calls, p.st⟩

/-- An image string that starts with `http://` or `https://`. -/
def isURL (img : String) : Bool :=
  HasPrefix img "http://" || HasPrefix img "https://"

/-- The call records the image processing. -/
def Call.isProcessImages : Call → Bool
  | .processImages _ _ => true
  | _ => false

/-- A host with no file at all, whose image processor answers one downloaded path per URL
and fails when no image is a URL; the state counts the paths handed out.
Publishing succeeds. -/
def emptyDiskHost : Host Nat where
  statNotExist _ w := (true, w)
  ProcessImages images w :=
    if (images.filter isURL).length = 0 then (.error (Err.msg "没有有效的图片"), w)
    else (.ok ((images.filter isURL).map (fun _ => "/tmp/img.jpg")),
      w + (images.filter isURL).length)
  IsHeadless _ := true
  NewPage _ w := w
  ClosePage w := w
  NewPublishImageAction w := (none, w)
  Publish _ w := (none, w)

/-! ## Session of a request (`handlers_api.go`) -/

/-- The request as `setSessionFromRequest` reads it: the methods `c.GetHeader(key)` and
`c.Query(key)` of the gin context, which answer the empty string for a
header or a parameter that is absent. -/
structure Request where
  GetHeader : String → String
  Query : String → String

/-- The process environment, with state `ε`: `os.Setenv(key, value)`, whose error the
handlers drop. -/
structure Environ (ε : Type) where
  Setenv : String → String → ε → ε

/-- The function `parseBool` (lines 327-336): the value and the error. -/
def parseBool (s : String) : Bool × Option Err :=
  if s = "true" ∨ s = "1" ∨ s = "yes" ∨ s = "on" then (true, none)
  else if s = "false" ∨ s = "0" ∨ s = "no" ∨ s = "off" then (false, none)
  else (false, none)

/-- The function `setSessionFromRequest` (lines 47-66): the process environment and the
registry of the session manager afterwards. -/
def setSessionFromRequest {ε μ : Type} (E : Environ ε) (M : Manager μ) (c : Request)
    (env : ε) (manager : μ) : ε × μ :=
  let env :=
    if c.GetHeader "Mcp-Session-Id" ≠ "" then
      E.Setenv "MCP_SESSION_ID" (c.GetHeader "Mcp-Session-Id") env
    else env
  let env :=
    if c.Query "session_id" ≠ "" then E.Setenv "MCP_SESSION_ID" (c.Query "session_id") env
    else env
  if c.GetHeader "Mcp-Headless" ≠ "" then
    let hv := c.GetHeader "Mcp-Headless"
    let env := E.Setenv "MCP_HEADLESS" hv env
    match parseBool hv with
    | (b, none) => (env, M.SetHeadless b manager)
    | (_, some _) => (env, manager)
  else (env, manager)

/-- A process environment as the list of its assignments, the latest first. -/
def listEnviron : Environ (List (String × String)) where
  Setenv key value env := (key, value) :: env

/-- A request with the single header `Mcp-Headless: hv` and no query parameter. -/
def headlessRequest (hv : String) : Request where
  GetHeader key := if key = "Mcp-Headless" then hv else ""
  Query _ := ""

/-! ## Theorems -/

section ProgLemmas

variable {σ α β : Type}

@[simp] theorem Prog.pure_run (a : α) (s : σ) : (Pure.pure a : Prog σ α) s = ⟨a, [], s⟩ := rfl

@[simp] theorem Prog.pure_run2 (a : α) (s : σ) : (Prog.pure a : Prog σ α) s = ⟨a, [], s⟩ := rfl

@[simp] theorem Prog.bind_run (m : Prog σ α) (f : α → Prog σ β) (s : σ) :
    (m >>= f) s = ⟨(f (m s).val (m s).st).val, (m s).trace ++ (f (m s).val (m s).st).trace,
      (f (m s).val (m s).st).st⟩ := rfl

@[simp] theorem Prog.op_run (f : σ → α × σ) (ev : α → Event) (s : σ) :
    Prog.op f ev s = ⟨(f s).1, [ev (f s).1], (f s).2⟩ := rfl

@[simp] theorem Prog.emit_run (ev : Event) (s : σ) :
    (Prog.emit ev : Prog σ Unit) s = ⟨(), [ev], s⟩ := rfl

@[simp] theorem Prog.log_run (level message : String) (s : σ) :
    (Prog.log level message : Prog σ Unit) s = ⟨(), [Event.log level message], s⟩ := rfl

@[simp] theorem Prog.sleep_run (R : Remote σ) (ms : Nat) (s : σ) :
    Prog.sleep R ms s = ⟨(), [Event.sleep ms], R.sleep ms s⟩ := rfl

@[simp] theorem Prog.now_run (R : Remote σ) (s : σ) :
    Prog.now R s = ⟨R.now s, [], s⟩ := rfl

end ProgLemmas

/-! ### Traces of the retry engine -/

theorem After.nil (sel : Event → Bool) (Q : List Event → Prop) : After sel Q [] := by
  intro pre ev post h
  simp at h

theorem After.cons_iff (sel : Event → Bool) (Q : List Event → Prop) (e : Event) (t : List Event) :
    After sel Q (e :: t) ↔ (sel e = true → Q t) ∧ After sel Q t := by
  constructor
  · intro h
    refine ⟨fun he => h [] e t rfl he, ?_⟩
    intro pre ev post ht hev
    exact h (e :: pre) ev post (by simp [ht]) hev
  · rintro ⟨h1, h2⟩ pre ev post ht hev
    cases pre with
    | nil =>
        simp at ht
        obtain ⟨rfl, rfl⟩ := ht
        exact h1 hev
    | cons p pre =>
        simp at ht
        exact h2 pre ev post ht.2 hev

theorem After.append_of_not (sel : Event → Bool) (Q : List Event → Prop) (t1 t2 : List Event)
    (h1 : ∀ ev ∈ t1, sel ev = false) (h2 : After sel Q t2) : After sel Q (t1 ++ t2) := by
  induction t1 with
  | nil => simpa using h2
  | cons e t1 ih =>
      rw [List.cons_append, After.cons_iff]
      refine ⟨fun he => ?_, ih (fun ev hev => h1 ev (List.mem_cons_of_mem _ hev))⟩
      rw [h1 e (List.mem_cons_self _ _)] at he
      cases he

theorem strategyCalls_append (t1 t2 : List Event) :
    strategyCalls (t1 ++ t2) = strategyCalls t1 ++ strategyCalls t2 := by
  simp [strategyCalls]

theorem strategyCalls_plain (t : List Event) (h : ∀ ev ∈ t, isPlain ev = true) :
    strategyCalls t = [] := by
  induction t with
  | nil => rfl
  | cons e t ih =>
      have he := h e (List.mem_cons_self _ _)
      have := ih (fun ev hev => h ev (List.mem_cons_of_mem _ hev))
      cases e <;> first | exact this | cases he

theorem attemptsOf_append (t1 t2 : List Event) :
    attemptsOf (t1 ++ t2) = attemptsOf t1 ++ attemptsOf t2 := by
  simp [attemptsOf]

theorem attemptsOf_plain (t : List Event) (h : ∀ ev ∈ t, isPlain ev = true) :
    attemptsOf t = [] := by
  induction t with
  | nil => rfl
  | cons e t ih =>
      have he := h e (List.mem_cons_self _ _)
      have := ih (fun ev hev => h ev (List.mem_cons_of_mem _ hev))
      cases e <;> first | exact this | cases he

theorem isElementVisible_plain {σ : Type} (R : Remote σ) (elem : Elem) :
    Plain (isElementVisible R elem) := by
  intro s ev hev
  cases hs : styleRejects (R.attr elem "style" s).1
  · cases hv : (R.visible elem (R.attr elem "style" s).2).1 <;>
      simp [isElementVisible, hs, hv] at hev <;>
      rcases hev with rfl | rfl | rfl <;> rfl
  · simp [isElementVisible, hs] at hev
    subst hev; rfl

theorem findVisibleElement_plain {σ : Type} (R : Remote σ) (elems : List Elem) :
    Plain (findVisibleElement R elems) := by
  induction elems with
  | nil => intro s ev hev; simp [findVisibleElement] at hev
  | cons e rest ih =>
      intro s ev hev
      cases hv : (isElementVisible R e s).val <;>
        simp [findVisibleElement, hv] at hev
      · rcases hev with h | h
        · exact isElementVisible_plain R e s ev h
        · exact ih _ ev h
      · exact isElementVisible_plain R e s ev hev

section Loop
variable {σ : Type} (R : Remote σ) (inp : Elem)

theorem strategyLoop_err (p : Prog σ (Option Err)) (rest : List (Prog σ (Option Err)))
    (i : Nat) (l : Option Err) (s : σ) (e : Err) (hp : (p s).val = some e) :
    (strategyLoop R inp (p :: rest) i l s).val
      = (strategyLoop R inp rest (i + 1) (some e) (p s).st).val ∧
    (strategyLoop R inp (p :: rest) i l s).trace
      = Event.strategy i :: ((p s).trace ++ (Event.strategyDone i (some e) ::
          Event.log "debug" ("尝试切换商品勾选状态失败: " ++ e.Error) ::
          (strategyLoop R inp rest (i + 1) (some e) (p s).st).trace)) := by
  simp [strategyLoop, hp]

theorem strategyLoop_hit (p : Prog σ (Option Err)) (rest : List (Prog σ (Option Err)))
    (i : Nat) (l : Option Err) (s : σ) (hp : (p s).val = none)
    (hc : checkedOk (R.eval inp Script.isChecked (R.sleep 200 (p s).st)).1 = true) :
    (strategyLoop R inp (p :: rest) i l s).val = Flow.ret none ∧
    (strategyLoop R inp (p :: rest) i l s).trace
      = Event.strategy i :: ((p s).trace ++ [Event.strategyDone i none, Event.sleep 200,
          Event.eval inp Script.isChecked (R.eval inp Script.isChecked (R.sleep 200 (p s).st)).1]) := by
  simp [strategyLoop, hp, probeChecked, hc]

theorem strategyLoop_miss (p : Prog σ (Option Err)) (rest : List (Prog σ (Option Err)))
    (i : Nat) (l : Option Err) (s : σ) (hp : (p s).val = none)
    (hc : checkedOk (R.eval inp Script.isChecked (R.sleep 200 (p s).st)).1 = false) :
    (strategyLoop R inp (p :: rest) i l s).val
      = (strategyLoop R inp rest (i + 1) l
          (R.eval inp Script.isChecked (R.sleep 200 (p s).st)).2).val ∧
    (strategyLoop R inp (p :: rest) i l s).trace
      = Event.strategy i :: ((p s).trace ++ (Event.strategyDone i none :: Event.sleep 200 ::
          Event.eval inp Script.isChecked (R.eval inp Script.isChecked (R.sleep 200 (p s).st)).1 ::
          (strategyLoop R inp rest (i + 1) l
            (R.eval inp Script.isChecked (R.sleep 200 (p s).st)).2).trace)) := by
  simp [strategyLoop, hp, probeChecked, hc]

theorem isCheckedTrue_eval_iff (e : Elem) (r : Except Err Bool) :
    isCheckedTrue (Event.eval e Script.isChecked r) = checkedOk r := by
  rcases r with _ | b
  · rfl
  · cases b <;> rfl

end Loop

theorem strategyLoop_run {σ : Type} (R : Remote σ) (inp : Elem)
    (strats : List (Prog σ (Option Err))) (hplain : ∀ p ∈ strats, Plain p) :
    ∀ (i : Nat) (l : Option Err) (s : σ),
      LoopRun inp strats.length i l (strategyLoop R inp strats i l s).val
        (strategyLoop R inp strats i l s).trace := by
  induction strats with
  | nil => intro i l s; exact LoopRun.done i l
  | cons p rest ih =>
      intro i l s
      have hp : ∀ ev ∈ (p s).trace, isPlain ev = true := hplain p (List.mem_cons_self _ _) s
      have ih2 := ih (fun q hq => hplain q (List.mem_cons_of_mem _ hq))
      cases hv : (p s).val with
      | some e =>
          obtain ⟨h1, h2⟩ := strategyLoop_err R inp p rest i l s e hv
          rw [h1, h2]
          exact LoopRun.err _ i l _ e _ _ hp (ih2 _ _ _)
      | none =>
          cases hc : checkedOk (R.eval inp Script.isChecked (R.sleep 200 (p s).st)).1 with
          | true =>
              obtain ⟨h1, h2⟩ := strategyLoop_hit R inp p rest i l s hv hc
              rw [h1, h2]
              exact LoopRun.hit _ i l _ _ hp hc
          | false =>
              obtain ⟨h1, h2⟩ := strategyLoop_miss R inp p rest i l s hv hc
              rw [h1, h2]
              exact LoopRun.miss _ i l _ _ _ _ hp hc (ih2 _ _ _)

theorem attemptLoop_run {σ : Type} (R : Remote σ) (inp : Elem)
    (strats : List (Prog σ (Option Err))) (hplain : ∀ p ∈ strats, Plain p) :
    ∀ (k a : Nat) (l : Option Err) (s : σ),
      AttemptRun inp strats.length k a l (attemptLoop R inp strats k a l s).val
        (attemptLoop R inp strats k a l s).trace := by
  intro k
  induction k with
  | zero => intro a l s; exact AttemptRun.exhausted a l
  | succ k ih =>
      intro a l s
      cases hc : checkedOk (R.eval inp Script.isChecked s).1 with
      | true =>
          have h1 : (attemptLoop R inp strats (k + 1) a l s).val = none := by
            simp [attemptLoop, probeChecked, hc]
          have h2 : (attemptLoop R inp strats (k + 1) a l s).trace
              = [Event.attempt a, Event.eval inp Script.isChecked (R.eval inp Script.isChecked s).1] := by
            simp [attemptLoop, probeChecked, hc]
          rw [h1, h2]
          exact AttemptRun.checked k a l _ hc
      | false =>
          have hloop := strategyLoop_run R inp strats hplain 0 l (R.eval inp Script.isChecked s).2
          cases hv : (strategyLoop R inp strats 0 l (R.eval inp Script.isChecked s).2).val with
          | ret e =>
              have h1 : (attemptLoop R inp strats (k + 1) a l s).val = e := by
                simp [attemptLoop, probeChecked, hc, hv]
              have h2 : (attemptLoop R inp strats (k + 1) a l s).trace
                  = Event.attempt a :: Event.eval inp Script.isChecked (R.eval inp Script.isChecked s).1 ::
                    (strategyLoop R inp strats 0 l (R.eval inp Script.isChecked s).2).trace := by
                simp [attemptLoop, probeChecked, hc, hv]
              rw [h1, h2]
              rw [hv] at hloop
              exact AttemptRun.ret k a l _ e _ hc hloop
          | go l2 =>
              have h1 : (attemptLoop R inp strats (k + 1) a l s).val
                  = (attemptLoop R inp strats k (a + 1) l2 (R.sleep 300
                      (strategyLoop R inp strats 0 l (R.eval inp Script.isChecked s).2).st)).val := by
                simp [attemptLoop, probeChecked, hc, hv]
              have h2 : (attemptLoop R inp strats (k + 1) a l s).trace
                  = Event.attempt a :: Event.eval inp Script.isChecked (R.eval inp Script.isChecked s).1 ::
                    ((strategyLoop R inp strats 0 l (R.eval inp Script.isChecked s).2).trace ++
                      Event.sleep 300 :: (attemptLoop R inp strats k (a + 1) l2 (R.sleep 300
                      (strategyLoop R inp strats 0 l (R.eval inp Script.isChecked s).2).st)).trace) := by
                simp [attemptLoop, probeChecked, hc, hv]
              rw [h1, h2]
              rw [hv] at hloop
              exact AttemptRun.next k a l _ l2 _ _ _ hc hloop (ih _ _ _)

theorem clickCheckboxArea_plain {σ : Type} (R : Remote σ) (area : Option Elem) :
    Plain (clickCheckboxArea R area) := by
  intro s ev hev
  cases area <;> simp [clickCheckboxArea] at hev
  subst hev; rfl

theorem clickInput_plain {σ : Type} (R : Remote σ) (inp : Elem) : Plain (clickInput R inp) := by
  intro s ev hev
  cases h : (R.eval inp Script.click s).1 <;> simp [clickInput, h] at hev <;> subst hev <;> rfl

theorem forceChecked_plain {σ : Type} (R : Remote σ) (inp : Elem) : Plain (forceChecked R inp) := by
  intro s ev hev
  cases h : (R.eval inp Script.forceCheck s).1 <;> simp [forceChecked, h] at hev <;>
    subst hev <;> rfl

theorem clickVisibleIndicator_plain {σ : Type} (R : Remote σ) (card : Elem) :
    Plain (clickVisibleIndicator R card) := by
  intro s ev hev
  rcases h : (R.elements card ".d-checkbox-indicator" s).1 with e | inds
  · simp [clickVisibleIndicator, h] at hev
    subst hev; rfl
  · cases inds with
    | nil =>
        simp [clickVisibleIndicator, h] at hev
        subst hev; rfl
    | cons i is =>
        have hf := findVisibleElement_plain R (i :: is)
          (R.elements card ".d-checkbox-indicator" s).2
        rcases hv : (findVisibleElement R (i :: is)
          (R.elements card ".d-checkbox-indicator" s).2).val with ⟨_ | v, _ | e2⟩
        · simp [clickVisibleIndicator, h, hv] at hev
          rcases hev with rfl | hev
          · rfl
          · exact hf ev hev
        · simp [clickVisibleIndicator, h, hv] at hev
          rcases hev with rfl | hev
          · rfl
          · exact hf ev hev
        · cases hc : (R.eval v Script.click (findVisibleElement R (i :: is)
              (R.elements card ".d-checkbox-indicator" s).2).st).1 <;>
            simp [clickVisibleIndicator, h, hv, hc] at hev <;>
            rcases hev with rfl | hev | rfl <;> first | rfl | exact hf ev hev
        · simp [clickVisibleIndicator, h, hv] at hev
          rcases hev with rfl | hev
          · rfl
          · exact hf ev hev

theorem strategies_plain {σ : Type} (R : Remote σ) (card inp : Elem) (area : Option Elem) :
    ∀ p ∈ strategies R card inp area, Plain p := by
  intro p hp
  simp only [strategies, List.mem_cons, List.mem_singleton, List.not_mem_nil, or_false] at hp
  rcases hp with rfl | rfl | rfl | rfl
  · exact clickCheckboxArea_plain R area
  · exact clickInput_plain R inp
  · exact clickVisibleIndicator_plain R card
  · exact forceChecked_plain R inp

theorem findCheckboxArea_loop_plain {σ : Type} (R : Remote σ) (card : Elem) (sels : List String) :
    Plain (findCheckboxArea.loop R card sels) := by
  induction sels with
  | nil => intro s ev hev; simp [findCheckboxArea.loop] at hev
  | cons sel rest ih =>
      intro s ev hev
      cases h : (R.element card none sel s).1 <;> simp [findCheckboxArea.loop, h] at hev
      · rcases hev with rfl | hev
        · rfl
        · exact ih _ ev hev
      · subst hev; rfl

theorem ensureProductSelected_retry_run {σ : Type} (R : Remote σ) (card inp : Elem) (s : σ) :
    ∃ mid t, (∀ ev ∈ mid, isPlain ev = true) ∧
      AttemptRun inp 4 3 0 none (ensureProductSelected.retry R card inp s).val t ∧
      (ensureProductSelected.retry R card inp s).trace = mid ++ t := by
  have hfp := findCheckboxArea_loop_plain R card findCheckboxArea.selectors
  rcases hs : (R.scrollIntoView card s).1 with _ | e
  · rcases hf : (findCheckboxArea R card (R.sleep 100 (R.scrollIntoView card s).2)).val
      with ⟨area, _ | e2⟩
    · have hv : (ensureProductSelected.retry R card inp s).val
          = (attemptLoop R inp (strategies R card inp area) 3 0 none (findCheckboxArea R card (R.sleep 100 (R.scrollIntoView card s).2)).st).val := by
        simp [ensureProductSelected.retry, hs, hf]
      rw [hv]
      refine ⟨Event.scrollIntoView card none :: Event.sleep 100 ::
          (findCheckboxArea R card (R.sleep 100 (R.scrollIntoView card s).2)).trace, _, ?_,
        attemptLoop_run R inp (strategies R card inp area) (strategies_plain R card inp area) 3 0
          none (findCheckboxArea R card (R.sleep 100 (R.scrollIntoView card s).2)).st, ?_⟩
      · intro ev hev
        simp only [List.mem_cons, List.mem_append, List.mem_singleton, List.not_mem_nil, or_false] at hev
        rcases hev with rfl | rfl | hev
        · rfl
        · rfl
        · exact hfp _ ev hev
      · simp [ensureProductSelected.retry, hs, hf]
    · have hv : (ensureProductSelected.retry R card inp s).val
          = (attemptLoop R inp (strategies R card inp area) 3 0 none (findCheckboxArea R card (R.sleep 100 (R.scrollIntoView card s).2)).st).val := by
        simp [ensureProductSelected.retry, hs, hf]
      rw [hv]
      refine ⟨Event.scrollIntoView card none :: Event.sleep 100 ::
          ((findCheckboxArea R card (R.sleep 100 (R.scrollIntoView card s).2)).trace ++
            [Event.log "warn" ("未找到商品选择区域: " ++ e2.Error)]), _, ?_,
        attemptLoop_run R inp (strategies R card inp area) (strategies_plain R card inp area) 3 0
          none (findCheckboxArea R card (R.sleep 100 (R.scrollIntoView card s).2)).st, ?_⟩
      · intro ev hev
        simp only [List.mem_cons, List.mem_append, List.mem_singleton, List.not_mem_nil, or_false] at hev
        rcases hev with rfl | rfl | hev | rfl
        · rfl
        · rfl
        · exact hfp _ ev hev
        · rfl
      · simp [ensureProductSelected.retry, hs, hf]
  · rcases hf : (findCheckboxArea R card (R.sleep 100 (R.scrollIntoView card s).2)).val
      with ⟨area, _ | e2⟩
    · have hv : (ensureProductSelected.retry R card inp s).val
          = (attemptLoop R inp (strategies R card inp area) 3 0 none (findCheckboxArea R card (R.sleep 100 (R.scrollIntoView card s).2)).st).val := by
        simp [ensureProductSelected.retry, hs, hf]
      rw [hv]
      refine ⟨Event.scrollIntoView card (some e) ::
          Event.log "debug" ("滚动商品卡片失败: " ++ e.Error) :: Event.sleep 100 ::
          (findCheckboxArea R card (R.sleep 100 (R.scrollIntoView card s).2)).trace, _, ?_,
        attemptLoop_run R inp (strategies R card inp area) (strategies_plain R card inp area) 3 0
          none (findCheckboxArea R card (R.sleep 100 (R.scrollIntoView card s).2)).st, ?_⟩
      · intro ev hev
        simp only [List.mem_cons, List.mem_append, List.mem_singleton, List.not_mem_nil, or_false] at hev
        rcases hev with rfl | rfl | rfl | hev
        · rfl
        · rfl
        · rfl
        · exact hfp _ ev hev
      · simp [ensureProductSelected.retry, hs, hf]
    · have hv : (ensureProductSelected.retry R card inp s).val
          = (attemptLoop R inp (strategies R card inp area) 3 0 none (findCheckboxArea R card (R.sleep 100 (R.scrollIntoView card s).2)).st).val := by
        simp [ensureProductSelected.retry, hs, hf]
      rw [hv]
      refine ⟨Event.scrollIntoView card (some e) ::
          Event.log "debug" ("滚动商品卡片失败: " ++ e.Error) :: Event.sleep 100 ::
          ((findCheckboxArea R card (R.sleep 100 (R.scrollIntoView card s).2)).trace ++
            [Event.log "warn" ("未找到商品选择区域: " ++ e2.Error)]), _, ?_,
        attemptLoop_run R inp (strategies R card inp area) (strategies_plain R card inp area) 3 0
          none (findCheckboxArea R card (R.sleep 100 (R.scrollIntoView card s).2)).st, ?_⟩
      · intro ev hev
        simp only [List.mem_cons, List.mem_append, List.mem_singleton, List.not_mem_nil, or_false] at hev
        rcases hev with rfl | rfl | rfl | hev | rfl
        · rfl
        · rfl
        · rfl
        · exact hfp _ ev hev
        · rfl
      · simp [ensureProductSelected.retry, hs, hf]

theorem ensureProductSelected_run {σ : Type} (R : Remote σ) (card : Elem) (s : σ) :
    SelectRun card (ensureProductSelected R card s).val (ensureProductSelected R card s).trace := by
  rcases h0 : (R.element card none "input[type='checkbox']" s).1 with e | inp
  · have h1 : (ensureProductSelected R card s).val = Wrap (some e) "未找到商品选择框" := by
      simp [ensureProductSelected, h0]
    have h2 : (ensureProductSelected R card s).trace
        = [Event.element card none "input[type='checkbox']" (.error e)] := by
      simp [ensureProductSelected, h0]
    rw [h1, h2]
    exact SelectRun.notFound e
  · by_cases h1 : (R.eval inp Script.hasContent
        (R.element card none "input[type='checkbox']" s).2).1 = .ok false
    · have hv : (ensureProductSelected R card s).val = none := by
        simp [ensureProductSelected, h0, h1]
      have ht : (ensureProductSelected R card s).trace
          = [Event.element card none "input[type='checkbox']" (.ok inp),
              Event.eval inp Script.hasContent (.ok false),
              Event.log "warn" "检测到空的选择框元素，跳过此商品"] := by
        simp [ensureProductSelected, h0, h1]
      rw [hv, ht]
      exact SelectRun.skipped inp
    · cases hc : checkedOk (R.eval inp Script.isChecked (R.eval inp Script.hasContent
          (R.element card none "input[type='checkbox']" s).2).2).1 with
      | true =>
          have hv : (ensureProductSelected R card s).val = none := by
            simp [ensureProductSelected, h0, h1, probeChecked, hc]
          have ht : (ensureProductSelected R card s).trace
              = [Event.element card none "input[type='checkbox']" (.ok inp),
                  Event.eval inp Script.hasContent (R.eval inp Script.hasContent
                    (R.element card none "input[type='checkbox']" s).2).1,
                  Event.eval inp Script.isChecked (R.eval inp Script.isChecked
                    (R.eval inp Script.hasContent
                      (R.element card none "input[type='checkbox']" s).2).2).1] := by
            simp [ensureProductSelected, h0, h1, probeChecked, hc]
          rw [hv, ht]
          exact SelectRun.already inp _ _ h1 hc
      | false =>
          obtain ⟨mid, t, hmid, hrun, ht⟩ := ensureProductSelected_retry_run R card inp
            (R.eval inp Script.isChecked (R.eval inp Script.hasContent
              (R.element card none "input[type='checkbox']" s).2).2).2
          have hv : (ensureProductSelected R card s).val
              = (ensureProductSelected.retry R card inp (R.eval inp Script.isChecked
                  (R.eval inp Script.hasContent
                    (R.element card none "input[type='checkbox']" s).2).2).2).val := by
            simp [ensureProductSelected, h0, h1, probeChecked, hc]
          have htr : (ensureProductSelected R card s).trace
              = Event.element card none "input[type='checkbox']" (.ok inp) ::
                  Event.eval inp Script.hasContent (R.eval inp Script.hasContent
                    (R.element card none "input[type='checkbox']" s).2).1 ::
                  Event.eval inp Script.isChecked (R.eval inp Script.isChecked
                    (R.eval inp Script.hasContent
                      (R.element card none "input[type='checkbox']" s).2).2).1 :: (mid ++ t) := by
            rw [← ht]
            simp [ensureProductSelected, h0, h1, probeChecked, hc]
          rw [hv, htr]
          exact SelectRun.retried inp _ _ mid _ t h1 hc hmid hrun

theorem strategyCalls_cons_strategy (i : Nat) (t : List Event) :
    strategyCalls (Event.strategy i :: t) = i :: strategyCalls t := rfl

theorem LoopRun.loop_calls {inp : Elem} {n i : Nat} {l : Option Err} {v : Flow} {t : List Event}
    (h : LoopRun inp n i l v t) :
    strategyCalls t <+: List.range' i n ∧
      (∀ l2, v = Flow.go l2 → strategyCalls t = List.range' i n) ∧ attemptsOf t = [] := by
  induction h with
  | done i l => exact ⟨List.nil_prefix, fun _ _ => rfl, rfl⟩
  | err n i l tp e v t hp _ ih =>
      have hc : strategyCalls (Event.strategy i :: (tp ++ (Event.strategyDone i (some e) ::
          Event.log "debug" ("尝试切换商品勾选状态失败: " ++ e.Error) :: t)))
          = i :: strategyCalls t := by
        rw [strategyCalls_cons_strategy, strategyCalls_append, strategyCalls_plain tp hp]
        rfl
      have ha : attemptsOf (Event.strategy i :: (tp ++ (Event.strategyDone i (some e) ::
          Event.log "debug" ("尝试切换商品勾选状态失败: " ++ e.Error) :: t)))
          = attemptsOf t := by
        show attemptsOf (tp ++ _) = _
        rw [attemptsOf_append, attemptsOf_plain tp hp]
        rfl
      rw [hc, ha, List.range'_succ]
      exact ⟨List.cons_prefix_cons.2 ⟨rfl, ih.1⟩, fun l2 hl => by rw [ih.2.1 l2 hl], ih.2.2⟩
  | hit n i l tp r hp hr =>
      have hc : strategyCalls (Event.strategy i :: (tp ++ [Event.strategyDone i none,
          Event.sleep 200, Event.eval inp Script.isChecked r])) = [i] := by
        rw [strategyCalls_cons_strategy, strategyCalls_append, strategyCalls_plain tp hp]
        rfl
      have ha : attemptsOf (Event.strategy i :: (tp ++ [Event.strategyDone i none,
          Event.sleep 200, Event.eval inp Script.isChecked r])) = [] := by
        show attemptsOf (tp ++ _) = _
        rw [attemptsOf_append, attemptsOf_plain tp hp]
        rfl
      rw [hc, ha, List.range'_succ]
      exact ⟨List.cons_prefix_cons.2 ⟨rfl, List.nil_prefix⟩, fun l2 hl => Flow.noConfusion hl, rfl⟩
  | miss n i l tp r v t hp hr _ ih =>
      have hc : strategyCalls (Event.strategy i :: (tp ++ (Event.strategyDone i none ::
          Event.sleep 200 :: Event.eval inp Script.isChecked r :: t))) = i :: strategyCalls t := by
        rw [strategyCalls_cons_strategy, strategyCalls_append, strategyCalls_plain tp hp]
        rfl
      have ha : attemptsOf (Event.strategy i :: (tp ++ (Event.strategyDone i none ::
          Event.sleep 200 :: Event.eval inp Script.isChecked r :: t))) = attemptsOf t := by
        show attemptsOf (tp ++ _) = _
        rw [attemptsOf_append, attemptsOf_plain tp hp]
        rfl
      rw [hc, ha, List.range'_succ]
      exact ⟨List.cons_prefix_cons.2 ⟨rfl, ih.1⟩, fun l2 hl => by rw [ih.2.1 l2 hl], ih.2.2⟩

theorem AttemptRun.attempt_calls {inp : Elem} {n k a : Nat} {l v : Option Err} {t : List Event}
    (h : AttemptRun inp n k a l v t) :
    strategyCalls t <+: (List.replicate k (List.range' 0 n)).flatten ∧
      attemptsOf t <+: List.range' a k := by
  induction h with
  | exhausted a l => exact ⟨List.nil_prefix, List.nil_prefix⟩
  | checked k a l r hr =>
      refine ⟨List.nil_prefix, ?_⟩
      rw [List.range'_succ]
      exact List.cons_prefix_cons.2 ⟨rfl, List.nil_prefix⟩
  | ret k a l r e t hr hloop =>
      have hc := hloop.loop_calls
      refine ⟨?_, ?_⟩
      · show strategyCalls t <+: _
        rw [List.replicate_succ, List.flatten_cons]
        exact hc.1.trans (List.prefix_append _ _)
      · show a :: attemptsOf t <+: _
        rw [hc.2.2, List.range'_succ]
        exact List.cons_prefix_cons.2 ⟨rfl, List.nil_prefix⟩
  | next k a l r l2 t v t2 hr hloop _ ih =>
      have hc := hloop.loop_calls
      refine ⟨?_, ?_⟩
      · show strategyCalls (t ++ Event.sleep 300 :: t2) <+: _
        rw [strategyCalls_append, hc.2.1 l2 rfl, List.replicate_succ, List.flatten_cons]
        exact (List.prefix_append_right_inj _).2 ih.1
      · show a :: attemptsOf (t ++ Event.sleep 300 :: t2) <+: _
        rw [attemptsOf_append, hc.2.2, List.range'_succ]
        exact List.cons_prefix_cons.2 ⟨rfl, ih.2⟩

theorem SelectRun.select_calls {card : Elem} {v : Option Err} {t : List Event} (h : SelectRun card v t) :
    strategyCalls t <+: [0, 1, 2, 3, 0, 1, 2, 3, 0, 1, 2, 3] ∧ attemptsOf t <+: [0, 1, 2] := by
  cases h with
  | notFound e => exact ⟨List.nil_prefix, List.nil_prefix⟩
  | skipped inp => exact ⟨List.nil_prefix, List.nil_prefix⟩
  | already inp r1 r h1 hr => exact ⟨List.nil_prefix, List.nil_prefix⟩
  | retried inp r1 r mid v t h1 hr hmid hrun =>
      have hc := hrun.attempt_calls
      refine ⟨?_, ?_⟩
      · show strategyCalls (mid ++ t) <+: _
        rw [strategyCalls_append, strategyCalls_plain mid hmid]
        exact hc.1
      · show attemptsOf (mid ++ t) <+: _
        rw [attemptsOf_append, attemptsOf_plain mid hmid]
        exact hc.2

theorem isCheckedTrue_of_plain {ev : Event} (h : isPlain ev = true) : isCheckedTrue ev = false := by
  cases ev <;> first | rfl | cases h | skip
  case eval el js r => cases js <;> first | rfl | cases h

theorem isDoneOk_of_plain {ev : Event} (h : isPlain ev = true) : isDoneOk ev = false := by
  cases ev <;> first | rfl | cases h

theorem After.cons_of_not {sel : Event → Bool} {Q : List Event → Prop} {e : Event}
    {t : List Event} (h : sel e = false) (h2 : After sel Q t) : After sel Q (e :: t) := by
  rw [After.cons_iff]
  refine ⟨fun he => ?_, h2⟩
  rw [h] at he
  cases he

theorem After.cons_of {sel : Event → Bool} {Q : List Event → Prop} {e : Event}
    {t : List Event} (h : Q t) (h2 : After sel Q t) : After sel Q (e :: t) := by
  rw [After.cons_iff]
  exact ⟨fun _ => h, h2⟩

theorem LoopRun.loop_stops {inp : Elem} {n i : Nat} {l : Option Err} {v : Flow} {t : List Event}
    (h : LoopRun inp n i l v t) :
    (∀ l2, v = Flow.go l2 → ∀ ev ∈ t, isCheckedTrue ev = false) ∧
      After isCheckedTrue (fun post => post = []) t ∧
      (∀ e, v = Flow.ret e → e = none ∧
        ∃ r, checkedOk r = true ∧ Event.eval inp Script.isChecked r ∈ t) := by
  induction h with
  | done i l =>
      exact ⟨fun _ _ ev hev => (List.not_mem_nil ev hev).elim, After.nil _ _,
        fun e he => Flow.noConfusion he⟩
  | err n i l tp e v t hp _ ih =>
      refine ⟨?_, ?_, ?_⟩
      · intro l2 hl ev hev
        simp only [List.mem_cons, List.mem_append] at hev
        rcases hev with rfl | hev | rfl | rfl | hev
        · rfl
        · exact isCheckedTrue_of_plain (hp ev hev)
        · rfl
        · rfl
        · exact ih.1 l2 hl ev hev
      · refine After.cons_of_not (by rfl) ?_
        refine After.append_of_not _ _ _ _ (fun ev hev => isCheckedTrue_of_plain (hp ev hev)) ?_
        exact After.cons_of_not (by rfl) (After.cons_of_not (by rfl) ih.2.1)
      · intro e2 he
        obtain ⟨h1, r, hr, hmem⟩ := ih.2.2 e2 he
        refine ⟨h1, r, hr, ?_⟩
        simp only [List.mem_cons, List.mem_append]
        exact Or.inr (Or.inr (Or.inr (Or.inr hmem)))
  | hit n i l tp r hp hr =>
      refine ⟨fun l2 hl => Flow.noConfusion hl, ?_, ?_⟩
      · refine After.cons_of_not (by rfl) ?_
        refine After.append_of_not _ _ _ _ (fun ev hev => isCheckedTrue_of_plain (hp ev hev)) ?_
        exact After.cons_of_not (by rfl) (After.cons_of_not (by rfl) (After.cons_of (by rfl) (After.nil _ _)))
      · intro e he
        cases he
        refine ⟨rfl, r, hr, ?_⟩
        simp
  | miss n i l tp r v t hp hr _ ih =>
      have hrf : isCheckedTrue (Event.eval inp Script.isChecked r) = false := by
        rw [isCheckedTrue_eval_iff]; exact hr
      refine ⟨?_, ?_, ?_⟩
      · intro l2 hl ev hev
        simp only [List.mem_cons, List.mem_append] at hev
        rcases hev with rfl | hev | rfl | rfl | rfl | hev
        · rfl
        · exact isCheckedTrue_of_plain (hp ev hev)
        · rfl
        · rfl
        · exact hrf
        · exact ih.1 l2 hl ev hev
      · refine After.cons_of_not (by rfl) ?_
        refine After.append_of_not _ _ _ _ (fun ev hev => isCheckedTrue_of_plain (hp ev hev)) ?_
        exact After.cons_of_not (by rfl) (After.cons_of_not (by rfl) (After.cons_of_not hrf ih.2.1))
      · intro e2 he
        obtain ⟨h1, r2, hr2, hmem⟩ := ih.2.2 e2 he
        refine ⟨h1, r2, hr2, ?_⟩
        simp only [List.mem_cons, List.mem_append]
        exact Or.inr (Or.inr (Or.inr (Or.inr (Or.inr hmem))))

theorem Wrapf_eq_none {l : Option Err} {m : String} (h : Wrapf l m = none) : l = none := by
  cases l with
  | none => rfl
  | some e => cases h

theorem AttemptRun.attempt_stops {inp : Elem} {n k a : Nat} {l v : Option Err} {t : List Event}
    (h : AttemptRun inp n k a l v t) :
    After isCheckedTrue (fun post => post = []) t ∧
      ((∃ ev ∈ t, isCheckedTrue ev = true) → v = none) ∧
      (v = none → Event.exhausted none ∈ t ∨
        ∃ r, checkedOk r = true ∧ Event.eval inp Script.isChecked r ∈ t) := by
  induction h with
  | exhausted a l =>
      refine ⟨After.cons_of_not (by rfl) (After.nil _ _), ?_, ?_⟩
      · rintro ⟨ev, hev, h⟩
        simp only [List.mem_singleton] at hev
        subst hev
        cases h
      · intro hv
        rw [Wrapf_eq_none hv]
        exact Or.inl (List.mem_singleton.2 rfl)
  | checked k a l r hr =>
      refine ⟨After.cons_of_not (by rfl) (After.cons_of (by rfl) (After.nil _ _)),
        fun _ => rfl, fun _ => Or.inr ⟨r, hr, ?_⟩⟩
      simp
  | ret k a l r e t hr hloop =>
      have hs := hloop.loop_stops
      have hrf : isCheckedTrue (Event.eval inp Script.isChecked r) = false := by
        rw [isCheckedTrue_eval_iff]; exact hr
      obtain ⟨he, r2, hr2, hmem⟩ := hs.2.2 e rfl
      refine ⟨After.cons_of_not (by rfl) (After.cons_of_not hrf hs.2.1), fun _ => he,
        fun _ => Or.inr ⟨r2, hr2, ?_⟩⟩
      exact List.mem_cons_of_mem _ (List.mem_cons_of_mem _ hmem)
  | next k a l r l2 t v t2 hr hloop _ ih =>
      have hs := hloop.loop_stops
      have hrf : isCheckedTrue (Event.eval inp Script.isChecked r) = false := by
        rw [isCheckedTrue_eval_iff]; exact hr
      refine ⟨After.cons_of_not (by rfl) (After.cons_of_not hrf
        (After.append_of_not _ _ _ _ (hs.1 l2 rfl) (After.cons_of_not (by rfl) ih.1))), ?_, ?_⟩
      · rintro ⟨ev, hev, h⟩
        simp only [List.mem_cons, List.mem_append] at hev
        rcases hev with rfl | rfl | hev | rfl | hev
        · cases h
        · rw [hrf] at h; cases h
        · rw [hs.1 l2 rfl ev hev] at h; cases h
        · cases h
        · exact ih.2.1 ⟨ev, hev, h⟩
      · intro hv
        rcases ih.2.2 hv with hx | ⟨r2, hr2, hmem⟩
        · left
          simp only [List.mem_cons, List.mem_append]
          exact Or.inr (Or.inr (Or.inr (Or.inr hx)))
        · right
          refine ⟨r2, hr2, ?_⟩
          simp only [List.mem_cons, List.mem_append]
          exact Or.inr (Or.inr (Or.inr (Or.inr hmem)))

theorem SelectRun.select_stops {card : Elem} {v : Option Err} {t : List Event} (h : SelectRun card v t) :
    After isCheckedTrue (fun post => post = []) t ∧
      ((∃ ev ∈ t, isCheckedTrue ev = true) → v = none) := by
  cases h with
  | notFound e =>
      refine ⟨After.cons_of_not (by rfl) (After.nil _ _), ?_⟩
      rintro ⟨ev, hev, h⟩
      simp only [List.mem_singleton] at hev
      subst hev
      cases h
  | skipped inp =>
      exact ⟨After.cons_of_not (by rfl) (After.cons_of_not (by rfl)
        (After.cons_of_not (by rfl) (After.nil _ _))), fun _ => rfl⟩
  | already inp r1 r h1 hr =>
      exact ⟨After.cons_of_not (by rfl) (After.cons_of_not (by rfl)
        (After.cons_of (by rfl) (After.nil _ _))), fun _ => rfl⟩
  | retried inp r1 r mid v t h1 hr hmid hrun =>
      have hs := hrun.attempt_stops
      have hrf : isCheckedTrue (Event.eval inp Script.isChecked r) = false := by
        rw [isCheckedTrue_eval_iff]; exact hr
      refine ⟨After.cons_of_not (by rfl) (After.cons_of_not (by rfl) (After.cons_of_not hrf
        (After.append_of_not _ _ _ _ (fun ev hev => isCheckedTrue_of_plain (hmid ev hev)) hs.1))),
        ?_⟩
      rintro ⟨ev, hev, h⟩
      simp only [List.mem_cons, List.mem_append] at hev
      rcases hev with rfl | rfl | rfl | hev | hev
      · cases h
      · cases h
      · rw [hrf] at h; cases h
      · rw [isCheckedTrue_of_plain (hmid ev hev)] at h; cases h
      · exact hs.2.1 ⟨ev, hev, h⟩

theorem LoopRun.loop_rechecks {inp : Elem} {n i : Nat} {l : Option Err} {v : Flow} {t : List Event}
    (h : LoopRun inp n i l v t) : After isDoneOk Rechecked t := by
  induction h with
  | done i l => exact After.nil _ _
  | err n i l tp e v t hp _ ih =>
      exact After.cons_of_not (by rfl) (After.append_of_not _ _ _ _
        (fun ev hev => isDoneOk_of_plain (hp ev hev))
        (After.cons_of_not (by rfl) (After.cons_of_not (by rfl) ih)))
  | hit n i l tp r hp hr =>
      exact After.cons_of_not (by rfl) (After.append_of_not _ _ _ _
        (fun ev hev => isDoneOk_of_plain (hp ev hev))
        (After.cons_of ⟨inp, r, [], rfl⟩ (After.cons_of_not (by rfl)
          (After.cons_of_not (by rfl) (After.nil _ _)))))
  | miss n i l tp r v t hp hr _ ih =>
      exact After.cons_of_not (by rfl) (After.append_of_not _ _ _ _
        (fun ev hev => isDoneOk_of_plain (hp ev hev))
        (After.cons_of ⟨inp, r, t, rfl⟩ (After.cons_of_not (by rfl)
          (After.cons_of_not (by rfl) ih))))

theorem After.append_closed {sel : Event → Bool} {Q : List Event → Prop}
    (hQ : ∀ post x, Q post → Q (post ++ x)) {t1 t2 : List Event}
    (h1 : After sel Q t1) (h2 : After sel Q t2) : After sel Q (t1 ++ t2) := by
  induction t1 with
  | nil => simpa using h2
  | cons e t1 ih =>
      rw [After.cons_iff] at h1
      rw [List.cons_append, After.cons_iff]
      exact ⟨fun he => hQ _ _ (h1.1 he), ih h1.2⟩

theorem Rechecked.append_right (post x : List Event) (h : Rechecked post) : Rechecked (post ++ x) := by
  obtain ⟨el, r, rest, rfl⟩ := h
  exact ⟨el, r, rest ++ x, rfl⟩

theorem AttemptRun.attempt_rechecks {inp : Elem} {n k a : Nat} {l v : Option Err} {t : List Event}
    (h : AttemptRun inp n k a l v t) : After isDoneOk Rechecked t := by
  induction h with
  | exhausted a l => exact After.cons_of_not (by rfl) (After.nil _ _)
  | checked k a l r hr =>
      exact After.cons_of_not (by rfl) (After.cons_of_not (by rfl) (After.nil _ _))
  | ret k a l r e t hr hloop =>
      exact After.cons_of_not (by rfl) (After.cons_of_not (by rfl) hloop.loop_rechecks)
  | next k a l r l2 t v t2 hr hloop _ ih =>
      exact After.cons_of_not (by rfl) (After.cons_of_not (by rfl)
        (After.append_closed Rechecked.append_right hloop.loop_rechecks (After.cons_of_not (by rfl) ih)))

theorem SelectRun.select_rechecks {card : Elem} {v : Option Err} {t : List Event}
    (h : SelectRun card v t) : After isDoneOk Rechecked t := by
  cases h with
  | notFound e => exact After.cons_of_not (by rfl) (After.nil _ _)
  | skipped inp =>
      exact After.cons_of_not (by rfl) (After.cons_of_not (by rfl)
        (After.cons_of_not (by rfl) (After.nil _ _)))
  | already inp r1 r h1 hr =>
      exact After.cons_of_not (by rfl) (After.cons_of_not (by rfl)
        (After.cons_of_not (by rfl) (After.nil _ _)))
  | retried inp r1 r mid v t h1 hr hmid hrun =>
      exact After.cons_of_not (by rfl) (After.cons_of_not (by rfl) (After.cons_of_not (by rfl)
        (After.append_of_not _ _ _ _ (fun ev hev => isDoneOk_of_plain (hmid ev hev))
          hrun.attempt_rechecks)))


theorem After.imp_after {sel : Event → Bool} {Q Q2 : List Event → Prop} {t : List Event}
    (hQ : ∀ post, Q post → Q2 post) (h : After sel Q t) : After sel Q2 t :=
  fun pre ev post ht hev => hQ _ (h pre ev post ht hev)

theorem After.append_map {sel : Event → Bool} {Q Q2 : List Event → Prop} {t1 t2 : List Event}
    (hQ : ∀ post, Q post → Q2 (post ++ t2))
    (h1 : After sel Q t1) (h2 : After sel Q2 t2) : After sel Q2 (t1 ++ t2) := by
  induction t1 with
  | nil => simpa using h2
  | cons e t1 ih =>
      rw [After.cons_iff] at h1
      rw [List.cons_append, After.cons_iff]
      exact ⟨fun he => hQ _ (h1.1 he), ih h1.2⟩

theorem LoopRun.loop_head {inp : Elem} {n i : Nat} {l : Option Err} {v : Flow} {t : List Event}
    (h : LoopRun inp n i l v t) :
    (n = 0 ∧ t = [] ∧ v = Flow.go l) ∨ ∃ rest, t = Event.strategy i :: rest := by
  cases h with
  | done i l => exact Or.inl ⟨rfl, rfl, rfl⟩
  | err n i l tp e v t hp hrest => exact Or.inr ⟨_, rfl⟩
  | hit n i l tp r hp hr => exact Or.inr ⟨_, rfl⟩
  | miss n i l tp r v t hp hr hrest => exact Or.inr ⟨_, rfl⟩

theorem AttemptRun.attempt_head {inp : Elem} {n k a : Nat} {l v : Option Err} {t : List Event}
    (h : AttemptRun inp n k a l v t) :
    t = [Event.exhausted l] ∨
      ∃ r rest, t = Event.attempt a :: Event.eval inp Script.isChecked r :: rest := by
  cases h with
  | exhausted a l => exact Or.inl rfl
  | checked k a l r hr => exact Or.inr ⟨r, [], rfl⟩
  | ret k a l r e t hr hloop => exact Or.inr ⟨r, _, rfl⟩
  | next k a l r l2 t v t2 hr hloop hrest => exact Or.inr ⟨r, _, rfl⟩

theorem isFailed_of_plain {i : Nat} {e : Err} {ev : Event} (h : isPlain ev = true) :
    decide (ev = Event.strategyDone i (some e)) = false := by
  rw [decide_eq_false_iff_not]
  rintro rfl
  cases h

theorem LoopRun.loop_skips {inp : Elem} {n j : Nat} {l : Option Err} {v : Flow} {t : List Event}
    (h : LoopRun inp n j l v t) (i : Nat) (e : Err) :
    After (fun ev => decide (ev = Event.strategyDone i (some e)))
      (fun post => ∃ rest,
        post = Event.log "debug" ("尝试切换商品勾选状态失败: " ++ e.Error) :: rest ∧
        ((∃ rest2, rest = Event.strategy (i + 1) :: rest2) ∨
          (rest = [] ∧ i + 1 = j + n ∧ v = Flow.go (some e)))) t := by
  induction h with
  | done j l => exact After.nil _ _
  | err n j l tp e0 v t hp hrest ih =>
      refine After.cons_of_not (by simp) (After.append_of_not _ _ _ _
        (fun ev hev => isFailed_of_plain (hp ev hev)) ?_)
      rw [After.cons_iff]
      constructor
      · intro hsel
        simp only [decide_eq_true_eq, Event.strategyDone.injEq, Option.some.injEq] at hsel
        obtain ⟨rfl, rfl⟩ := hsel
        refine ⟨t, rfl, ?_⟩
        rcases hrest.loop_head with ⟨rfl, rfl, rfl⟩ | ⟨rest, rfl⟩
        · exact Or.inr ⟨rfl, rfl, rfl⟩
        · exact Or.inl ⟨rest, rfl⟩
      · refine After.cons_of_not (by simp) (After.imp_after ?_ ih)
        rintro post ⟨rest, h1, h2⟩
        refine ⟨rest, h1, ?_⟩
        rcases h2 with h2 | ⟨h2, h3, h4⟩
        · exact Or.inl h2
        · exact Or.inr ⟨h2, by omega, h4⟩
  | hit n j l tp r hp hr =>
      exact After.cons_of_not (by simp) (After.append_of_not _ _ _ _
        (fun ev hev => isFailed_of_plain (hp ev hev))
        (After.cons_of_not (by simp) (After.cons_of_not (by simp)
          (After.cons_of_not (by simp) (After.nil _ _)))))
  | miss n j l tp r v t hp hr hrest ih =>
      refine After.cons_of_not (by simp) (After.append_of_not _ _ _ _
        (fun ev hev => isFailed_of_plain (hp ev hev))
        (After.cons_of_not (by simp) (After.cons_of_not (by simp)
          (After.cons_of_not (by simp) (After.imp_after ?_ ih)))))
      rintro post ⟨rest, h1, h2⟩
      refine ⟨rest, h1, ?_⟩
      rcases h2 with h2 | ⟨h2, h3, h4⟩
      · exact Or.inl h2
      · exact Or.inr ⟨h2, by omega, h4⟩

theorem AttemptRun.attempt_skips {inp : Elem} {n k a : Nat} {l v : Option Err} {t : List Event}
    (h : AttemptRun inp n k a l v t) (i : Nat) (e : Err) :
    After (fun ev => decide (ev = Event.strategyDone i (some e)))
      (fun post => ∃ rest,
        post = Event.log "debug" ("尝试切换商品勾选状态失败: " ++ e.Error) :: rest ∧
        ((∃ rest2, rest = Event.strategy (i + 1) :: rest2) ∨
          (i + 1 = n ∧ ∃ rest2, rest = Event.sleep 300 :: rest2 ∧
            (rest2 = [Event.exhausted (some e)] ∨
              ∃ a2 el r rest3,
                rest2 = Event.attempt a2 :: Event.eval el Script.isChecked r :: rest3)))) t := by
  induction h with
  | exhausted a l => exact After.cons_of_not (by simp) (After.nil _ _)
  | checked k a l r hr =>
      exact After.cons_of_not (by simp) (After.cons_of_not (by simp) (After.nil _ _))
  | ret k a l r e0 t hr hloop =>
      refine After.cons_of_not (by simp) (After.cons_of_not (by simp)
        (After.imp_after ?_ (hloop.loop_skips i e)))
      rintro post ⟨rest, h1, h2⟩
      refine ⟨rest, h1, ?_⟩
      rcases h2 with h2 | ⟨-, -, h4⟩
      · exact Or.inl h2
      · cases h4
  | next k a l r l2 t v t2 hr hloop hrest ih =>
      refine After.cons_of_not (by simp) (After.cons_of_not (by simp)
        (After.append_map ?_ (hloop.loop_skips i e) (After.cons_of_not (by simp) ih)))
      rintro post ⟨rest, h1, h2⟩
      rcases h2 with ⟨rest2, h2⟩ | ⟨h2, h3, h4⟩
      · exact ⟨rest ++ Event.sleep 300 :: t2, by rw [h1]; rfl,
          Or.inl ⟨rest2 ++ Event.sleep 300 :: t2, by rw [h2]; rfl⟩⟩
      · simp only [Flow.go.injEq] at h4
        subst h4
        refine ⟨Event.sleep 300 :: t2, by rw [h1, h2]; rfl, Or.inr ⟨by omega, t2, rfl, ?_⟩⟩
        rcases hrest.attempt_head with h5 | ⟨r2, rest3, h5⟩
        · exact Or.inl h5
        · exact Or.inr ⟨_, inp, r2, rest3, h5⟩

theorem SelectRun.select_skips {card : Elem} {v : Option Err} {t : List Event}
    (h : SelectRun card v t) (i : Nat) (e : Err) :
    After (fun ev => decide (ev = Event.strategyDone i (some e)))
      (fun post => ∃ rest,
        post = Event.log "debug" ("尝试切换商品勾选状态失败: " ++ e.Error) :: rest ∧
        ((∃ rest2, rest = Event.strategy (i + 1) :: rest2) ∨
          (i + 1 = 4 ∧ ∃ rest2, rest = Event.sleep 300 :: rest2 ∧
            (rest2 = [Event.exhausted (some e)] ∨
              ∃ a2 el r rest3,
                rest2 = Event.attempt a2 :: Event.eval el Script.isChecked r :: rest3)))) t := by
  cases h with
  | notFound e0 => exact After.cons_of_not (by simp) (After.nil _ _)
  | skipped inp =>
      exact After.cons_of_not (by simp) (After.cons_of_not (by simp)
        (After.cons_of_not (by simp) (After.nil _ _)))
  | already inp r1 r h1 hr =>
      exact After.cons_of_not (by simp) (After.cons_of_not (by simp)
        (After.cons_of_not (by simp) (After.nil _ _)))
  | retried inp r1 r mid v t h1 hr hmid hrun =>
      exact After.cons_of_not (by simp) (After.cons_of_not (by simp) (After.cons_of_not (by simp)
        (After.append_of_not _ _ _ _ (fun ev hev => isFailed_of_plain (hmid ev hev))
          (hrun.attempt_skips i e))))

/-! ### Traces of the product attachment -/

theorem checkedOk_eq_true {r : Except Err Bool} (h : checkedOk r = true) : r = .ok true := by
  rcases r with e | b
  · cases h
  · cases b
    · cases h
    · rfl

theorem CardResolved.mono_resolved {lower : String → String} {t t2 : List Event} {k : String}
    {card : Elem} (hsub : ∀ ev ∈ t, ev ∈ t2) (h : CardResolved lower t k card) :
    CardResolved lower t2 k card := by
  obtain ⟨n, name, h1, h2, h3⟩ := h
  exact ⟨n, name, hsub _ h1, hsub _ h2, h3⟩

theorem CheckedObserved.mono_checked {t t2 : List Event} {card : Elem} (hsub : ∀ ev ∈ t, ev ∈ t2)
    (h : CheckedObserved t card) : CheckedObserved t2 card := by
  obtain ⟨inp, h1, h2⟩ := h
  exact ⟨inp, hsub _ h1, hsub _ h2⟩

theorem SkippedEmpty.mono_skipped {t t2 : List Event} {card : Elem} (hsub : ∀ ev ∈ t, ev ∈ t2)
    (h : SkippedEmpty t card) : SkippedEmpty t2 card := by
  obtain ⟨inp, h1, h2, h3⟩ := h
  exact ⟨inp, hsub _ h1, hsub _ h2, hsub _ h3⟩

theorem SelectRun.select_outcome {card : Elem} {t : List Event} (h : SelectRun card none t)
    (hx : Event.exhausted none ∉ t) : CheckedObserved t card ∨ SkippedEmpty t card := by
  generalize hv : (none : Option Err) = v at h
  cases h with
  | notFound e => cases hv
  | skipped inp => exact Or.inr ⟨inp, by simp, by simp, by simp⟩
  | already inp r1 r h1 hr =>
      rw [checkedOk_eq_true hr]
      exact Or.inl ⟨inp, by simp, by simp⟩
  | retried inp r1 r mid v t h1 hr hmid hrun =>
      rcases hrun.attempt_stops.2.2 hv.symm with hex | ⟨r2, hr2, hmem⟩
      · exact absurd (by simp [hex]) hx
      · rw [checkedOk_eq_true hr2] at hmem
        exact Or.inl ⟨inp, by simp, by simp [hmem]⟩

theorem findProductCard_scan_resolved {σ : Type} (R : Remote σ) (lower : String → String)
    (lk : String) (cards : List Elem) :
    ∀ (s : σ) (card : Elem), (findProductCard.scan R lower lk cards s).val = some card →
      ∃ nameElem name,
        Event.element card none ".sku-name" (.ok nameElem)
          ∈ (findProductCard.scan R lower lk cards s).trace ∧
        Event.text nameElem (.ok name) ∈ (findProductCard.scan R lower lk cards s).trace ∧
        Contains (lower name) lk = true := by
  induction cards with
  | nil => intro s card h; simp [findProductCard.scan] at h
  | cons c rest ih =>
      intro s card h
      rcases h0 : (R.element c none ".sku-name" s).1 with e | nameElem
      · simp only [findProductCard.scan, Prog.bind_run, Prog.op_run, h0] at h ⊢
        obtain ⟨n, name, h1, h2, h3⟩ := ih _ card h
        exact ⟨n, name, by simp [h1], by simp [h2], h3⟩
      · rcases h1 : (R.text nameElem (R.element c none ".sku-name" s).2).1 with e | name
        · simp only [findProductCard.scan, Prog.bind_run, Prog.op_run, h0, h1] at h ⊢
          obtain ⟨n, name, h1, h2, h3⟩ := ih _ card h
          exact ⟨n, name, by simp [h1], by simp [h2], h3⟩
        · cases hc : Contains (lower name) lk
          · simp only [findProductCard.scan, Prog.bind_run, Prog.op_run, h0, h1, hc] at h ⊢
            obtain ⟨n, name, h1, h2, h3⟩ := ih _ card h
            exact ⟨n, name, by simp [h1], by simp [h2], h3⟩
          · have hv : (findProductCard.scan R lower lk (c :: rest) s).val = some c := by
              simp [findProductCard.scan, h0, h1, hc]
            have ht : (findProductCard.scan R lower lk (c :: rest) s).trace
                = [Event.element c none ".sku-name" (.ok nameElem),
                    Event.text nameElem (.ok name)] := by
              simp [findProductCard.scan, h0, h1, hc]
            rw [hv] at h
            cases h
            rw [ht]
            exact ⟨nameElem, name, by simp, by simp, hc⟩

theorem findProductCard_poll_resolved {σ : Type} (R : Remote σ) (lower : String → String)
    (modal : Elem) (keyword lk : String) (deadline : Nat) (fuel : Nat) :
    ∀ (s : σ) (card : Elem),
      (findProductCard.poll R lower modal keyword lk deadline fuel s).val = some (.ok card) →
      ∃ nameElem name,
        Event.element card none ".sku-name" (.ok nameElem)
          ∈ (findProductCard.poll R lower modal keyword lk deadline fuel s).trace ∧
        Event.text nameElem (.ok name)
          ∈ (findProductCard.poll R lower modal keyword lk deadline fuel s).trace ∧
        Contains (lower name) lk = true := by
  induction fuel with
  | zero => intro s card h; simp [findProductCard.poll] at h
  | succ fuel ih =>
      intro s card h
      by_cases hd : R.now s < deadline
      · rcases h0 : (R.elements modal ".good-card-container" s).1 with e | cards
        · simp only [findProductCard.poll, Prog.bind_run, Prog.now_run, Prog.op_run, hd,
            if_true, h0, Prog.sleep_run] at h ⊢
          obtain ⟨n, name, h1, h2, h3⟩ := ih _ card h
          exact ⟨n, name, by simp [h1], by simp [h2], h3⟩
        · cases cards with
          | nil =>
              simp only [findProductCard.poll, Prog.bind_run, Prog.now_run, Prog.op_run, hd,
                if_true, h0, Prog.sleep_run] at h ⊢
              obtain ⟨n, name, h1, h2, h3⟩ := ih _ card h
              exact ⟨n, name, by simp [h1], by simp [h2], h3⟩
          | cons c cs =>
              rcases hs : (findProductCard.scan R lower lk (c :: cs)
                  (R.elements modal ".good-card-container" s).2).val with _ | found
              · simp only [findProductCard.poll, Prog.bind_run, Prog.now_run, Prog.op_run, hd,
                  if_true, h0, hs, Prog.sleep_run] at h ⊢
                obtain ⟨n, name, h1, h2, h3⟩ := ih _ card h
                exact ⟨n, name, by simp [h1], by simp [h2], h3⟩
              · have hv : (findProductCard.poll R lower modal keyword lk deadline (fuel + 1) s).val
                    = some (.ok found) := by
                  simp [findProductCard.poll, hd, h0, hs]
                have ht : (findProductCard.poll R lower modal keyword lk deadline (fuel + 1) s).trace
                    = Event.elements modal ".good-card-container" (.ok (c :: cs)) ::
                      (findProductCard.scan R lower lk (c :: cs)
                        (R.elements modal ".good-card-container" s).2).trace := by
                  simp [findProductCard.poll, hd, h0, hs]
                rw [hv] at h
                cases h
                rw [ht]
                obtain ⟨n, name, h1, h2, h3⟩ := findProductCard_scan_resolved R lower lk (c :: cs)
                  _ card hs
                exact ⟨n, name, List.mem_cons_of_mem _ h1, List.mem_cons_of_mem _ h2, h3⟩
      · simp [findProductCard.poll, hd] at h

theorem findProductCard_resolved {σ : Type} (R : Remote σ) (lower : String → String)
    (fuel : Nat) (modal : Elem) (keyword : String) (s : σ) (card : Elem)
    (h : (findProductCard R lower fuel modal keyword s).val = some (.ok card)) :
    CardResolved lower (findProductCard R lower fuel modal keyword s).trace keyword card := by
  simp only [findProductCard, Prog.bind_run, Prog.now_run, List.nil_append] at h ⊢
  exact findProductCard_poll_resolved R lower modal keyword (lower keyword) _ fuel s card h

theorem addProducts_loop_selected {σ : Type} (R : Remote σ) (lower : String → String)
    (fuel : Nat) (modal searchInput : Elem) (kws : List String) :
    ∀ (s : σ), (addProducts.loop R lower fuel modal searchInput kws s).val = some none →
      Event.exhausted none ∉ (addProducts.loop R lower fuel modal searchInput kws s).trace →
      ∀ k ∈ kws, ∃ card,
        CardResolved lower (addProducts.loop R lower fuel modal searchInput kws s).trace k card ∧
        (CheckedObserved (addProducts.loop R lower fuel modal searchInput kws s).trace card ∨
          SkippedEmpty (addProducts.loop R lower fuel modal searchInput kws s).trace card) := by
  induction kws with
  | nil => intro s _ _ k hk; cases hk
  | cons kw rest ih =>
      intro s hret hx k hk
      rcases h1 : (inputProductSearchKeyword R searchInput kw s).val with _ | e1
      · rcases h2 : (findProductCard R lower fuel modal kw
            (inputProductSearchKeyword R searchInput kw s).st).val with _ | (e2 | card)
        · simp [addProducts.loop, h1, h2] at hret
        · simp [addProducts.loop, h1, h2, Wrapf] at hret
        · rcases h3 : (ensureProductSelected R card (findProductCard R lower fuel modal kw
              (inputProductSearchKeyword R searchInput kw s).st).st).val with _ | e3
          · have hv : (addProducts.loop R lower fuel modal searchInput (kw :: rest) s).val
                = (addProducts.loop R lower fuel modal searchInput rest
                    (ensureProductSelected R card (findProductCard R lower fuel modal kw
                      (inputProductSearchKeyword R searchInput kw s).st).st).st).val := by
              simp [addProducts.loop, h1, h2, h3]
            have ht : (addProducts.loop R lower fuel modal searchInput (kw :: rest) s).trace
                = (inputProductSearchKeyword R searchInput kw s).trace ++
                  ((findProductCard R lower fuel modal kw
                      (inputProductSearchKeyword R searchInput kw s).st).trace ++
                  ((ensureProductSelected R card (findProductCard R lower fuel modal kw
                      (inputProductSearchKeyword R searchInput kw s).st).st).trace ++
                  (Event.log "info" ("已选中商品: " ++ kw) ::
                    (addProducts.loop R lower fuel modal searchInput rest
                      (ensureProductSelected R card (findProductCard R lower fuel modal kw
                        (inputProductSearchKeyword R searchInput kw s).st).st).st).trace))) := by
              simp [addProducts.loop, h1, h2, h3]
            rw [hv] at hret
            rw [ht] at hx ⊢
            simp only [List.mem_append, List.mem_cons, not_or] at hx
            rcases List.mem_cons.1 hk with rfl | hk
            · have hres := findProductCard_resolved R lower fuel modal k _ card h2
              have hrun := ensureProductSelected_run R card (findProductCard R lower fuel modal k
                (inputProductSearchKeyword R searchInput k s).st).st
              rw [h3] at hrun
              have hout := hrun.select_outcome hx.2.2.1
              refine ⟨card, hres.mono_resolved (fun ev hev => ?_), ?_⟩
              · simp only [List.mem_append, List.mem_cons]
                exact Or.inr (Or.inl hev)
              · rcases hout with ho | ho
                · refine Or.inl (ho.mono_checked (fun ev hev => ?_))
                  simp only [List.mem_append, List.mem_cons]
                  exact Or.inr (Or.inr (Or.inl hev))
                · refine Or.inr (ho.mono_skipped (fun ev hev => ?_))
                  simp only [List.mem_append, List.mem_cons]
                  exact Or.inr (Or.inr (Or.inl hev))
            · obtain ⟨c, hc1, hc2⟩ := ih _ hret hx.2.2.2.2 k hk
              have hsub : ∀ ev ∈ (addProducts.loop R lower fuel modal searchInput rest
                  (ensureProductSelected R card (findProductCard R lower fuel modal kw
                    (inputProductSearchKeyword R searchInput kw s).st).st).st).trace,
                  ev ∈ (inputProductSearchKeyword R searchInput kw s).trace ++
                  ((findProductCard R lower fuel modal kw
                      (inputProductSearchKeyword R searchInput kw s).st).trace ++
                  ((ensureProductSelected R card (findProductCard R lower fuel modal kw
                      (inputProductSearchKeyword R searchInput kw s).st).st).trace ++
                  (Event.log "info" ("已选中商品: " ++ kw) ::
                    (addProducts.loop R lower fuel modal searchInput rest
                      (ensureProductSelected R card (findProductCard R lower fuel modal kw
                        (inputProductSearchKeyword R searchInput kw s).st).st).st).trace))) := by
                intro ev hev
                simp only [List.mem_append, List.mem_cons]
                exact Or.inr (Or.inr (Or.inr (Or.inr hev)))
              exact ⟨c, hc1.mono_resolved hsub, hc2.elim (fun h => Or.inl (h.mono_checked hsub))
                (fun h => Or.inr (h.mono_skipped hsub))⟩
          · simp [addProducts.loop, h1, h2, h3, Wrapf] at hret
      · simp [addProducts.loop, h1, Wrapf] at hret

theorem addProducts_loop_sub {σ : Type} (R : Remote σ) (lower : String → String) (fuel : Nat)
    (kws : List String) (s : σ) (hk : ¬ (addProducts.keywords kws).length = 0)
    (hret : (addProducts R lower fuel kws s).val = some none) :
    ∃ modal searchInput s2,
      (addProducts.loop R lower fuel modal searchInput (addProducts.keywords kws) s2).val
        = some none ∧
      ∀ ev ∈ (addProducts.loop R lower fuel modal searchInput (addProducts.keywords kws) s2).trace,
        ev ∈ (addProducts R lower fuel kws s).trace := by
  rcases hB : (findAddProductButton R s).val with e | addButton
  · simp [addProducts, hk, hB, Wrap] at hret
  · rcases hSC : (R.scrollIntoView addButton (findAddProductButton R s).st).1 with _ | e
    · rcases hCL : (R.click addButton none (R.sleep 100 (R.scrollIntoView addButton (findAddProductButton R s).st).2)).1 with _ | e
      · rcases hM : (R.pageElement (some 15000) "div.multi-goods-selector-modal" (R.sleep 500 (R.click addButton none (R.sleep 100 (R.scrollIntoView addButton (findAddProductButton R s).st).2)).2)).1 with e | modal
        · simp [addProducts, hk, hB, hSC, hCL, hM, Wrap] at hret
        · rcases hW : (waitForProductListLoad R fuel modal (R.pageElement (some 15000) "div.multi-goods-selector-modal" (R.sleep 500 (R.click addButton none (R.sleep 100 (R.scrollIntoView addButton (findAddProductButton R s).st).2)).2)).2).val with _ | (_ | e)
          · simp [addProducts, hk, hB, hSC, hCL, hM, hW] at hret
          · rcases hSI : (R.element modal (some 10000) "input[placeholder='搜索商品ID 或 商品名称']" (waitForProductListLoad R fuel modal (R.pageElement (some 15000) "div.multi-goods-selector-modal" (R.sleep 500 (R.click addButton none (R.sleep 100 (R.scrollIntoView addButton (findAddProductButton R s).st).2)).2)).2).st).1 with e | searchInput
            · simp [addProducts, hk, hB, hSC, hCL, hM, hW, hSI, Wrap] at hret
            · rcases hL : (addProducts.loop R lower fuel modal searchInput (addProducts.keywords kws) (R.element modal (some 10000) "input[placeholder='搜索商品ID 或 商品名称']" (waitForProductListLoad R fuel modal (R.pageElement (some 15000) "div.multi-goods-selector-modal" (R.sleep 500 (R.click addButton none (R.sleep 100 (R.scrollIntoView addButton (findAddProductButton R s).st).2)).2)).2).st).2).val with _ | (_ | e)
              · simp [addProducts, hk, hB, hSC, hCL, hM, hW, hSI, hL] at hret
              · refine ⟨modal, searchInput, _, hL, fun ev hev => ?_⟩
                simp [addProducts, hk, hB, hSC, hCL, hM, hW, hSI, hL, hev]
              · simp [addProducts, hk, hB, hSC, hCL, hM, hW, hSI, hL] at hret
          · rcases hSI : (R.element modal (some 10000) "input[placeholder='搜索商品ID 或 商品名称']" (waitForProductListLoad R fuel modal (R.pageElement (some 15000) "div.multi-goods-selector-modal" (R.sleep 500 (R.click addButton none (R.sleep 100 (R.scrollIntoView addButton (findAddProductButton R s).st).2)).2)).2).st).1 with e | searchInput
            · simp [addProducts, hk, hB, hSC, hCL, hM, hW, hSI, Wrap] at hret
            · rcases hL : (addProducts.loop R lower fuel modal searchInput (addProducts.keywords kws) (R.element modal (some 10000) "input[placeholder='搜索商品ID 或 商品名称']" (waitForProductListLoad R fuel modal (R.pageElement (some 15000) "div.multi-goods-selector-modal" (R.sleep 500 (R.click addButton none (R.sleep 100 (R.scrollIntoView addButton (findAddProductButton R s).st).2)).2)).2).st).2).val with _ | (_ | e)
              · simp [addProducts, hk, hB, hSC, hCL, hM, hW, hSI, hL] at hret
              · refine ⟨modal, searchInput, _, hL, fun ev hev => ?_⟩
                simp [addProducts, hk, hB, hSC, hCL, hM, hW, hSI, hL, hev]
              · simp [addProducts, hk, hB, hSC, hCL, hM, hW, hSI, hL] at hret
      · simp [addProducts, hk, hB, hSC, hCL, Wrap] at hret
    · rcases hCL : (R.click addButton none (R.sleep 100 (R.scrollIntoView addButton (findAddProductButton R s).st).2)).1 with _ | e
      · rcases hM : (R.pageElement (some 15000) "div.multi-goods-selector-modal" (R.sleep 500 (R.click addButton none (R.sleep 100 (R.scrollIntoView addButton (findAddProductButton R s).st).2)).2)).1 with e | modal
        · simp [addProducts, hk, hB, hSC, hCL, hM, Wrap] at hret
        · rcases hW : (waitForProductListLoad R fuel modal (R.pageElement (some 15000) "div.multi-goods-selector-modal" (R.sleep 500 (R.click addButton none (R.sleep 100 (R.scrollIntoView addButton (findAddProductButton R s).st).2)).2)).2).val with _ | (_ | e)
          · simp [addProducts, hk, hB, hSC, hCL, hM, hW] at hret
          · rcases hSI : (R.element modal (some 10000) "input[placeholder='搜索商品ID 或 商品名称']" (waitForProductListLoad R fuel modal (R.pageElement (some 15000) "div.multi-goods-selector-modal" (R.sleep 500 (R.click addButton none (R.sleep 100 (R.scrollIntoView addButton (findAddProductButton R s).st).2)).2)).2).st).1 with e | searchInput
            · simp [addProducts, hk, hB, hSC, hCL, hM, hW, hSI, Wrap] at hret
            · rcases hL : (addProducts.loop R lower fuel modal searchInput (addProducts.keywords kws) (R.element modal (some 10000) "input[placeholder='搜索商品ID 或 商品名称']" (waitForProductListLoad R fuel modal (R.pageElement (some 15000) "div.multi-goods-selector-modal" (R.sleep 500 (R.click addButton none (R.sleep 100 (R.scrollIntoView addButton (findAddProductButton R s).st).2)).2)).2).st).2).val with _ | (_ | e)
              · simp [addProducts, hk, hB, hSC, hCL, hM, hW, hSI, hL] at hret
              · refine ⟨modal, searchInput, _, hL, fun ev hev => ?_⟩
                simp [addProducts, hk, hB, hSC, hCL, hM, hW, hSI, hL, hev]
              · simp [addProducts, hk, hB, hSC, hCL, hM, hW, hSI, hL] at hret
          · rcases hSI : (R.element modal (some 10000) "input[placeholder='搜索商品ID 或 商品名称']" (waitForProductListLoad R fuel modal (R.pageElement (some 15000) "div.multi-goods-selector-modal" (R.sleep 500 (R.click addButton none (R.sleep 100 (R.scrollIntoView addButton (findAddProductButton R s).st).2)).2)).2).st).1 with e | searchInput
            · simp [addProducts, hk, hB, hSC, hCL, hM, hW, hSI, Wrap] at hret
            · rcases hL : (addProducts.loop R lower fuel modal searchInput (addProducts.keywords kws) (R.element modal (some 10000) "input[placeholder='搜索商品ID 或 商品名称']" (waitForProductListLoad R fuel modal (R.pageElement (some 15000) "div.multi-goods-selector-modal" (R.sleep 500 (R.click addButton none (R.sleep 100 (R.scrollIntoView addButton (findAddProductButton R s).st).2)).2)).2).st).2).val with _ | (_ | e)
              · simp [addProducts, hk, hB, hSC, hCL, hM, hW, hSI, hL] at hret
              · refine ⟨modal, searchInput, _, hL, fun ev hev => ?_⟩
                simp [addProducts, hk, hB, hSC, hCL, hM, hW, hSI, hL, hev]
              · simp [addProducts, hk, hB, hSC, hCL, hM, hW, hSI, hL] at hret
      · simp [addProducts, hk, hB, hSC, hCL, Wrap] at hret

/-! ### Event kinds, clocks and poll loops -/

section EmitsLemmas
variable {σ α β : Type} {ks : List Kind}

theorem Emits.pure_ok (a : α) : Emits ks (Pure.pure a : Prog σ α) := by
  intro s ev hev; simp at hev

theorem Emits.pure2_ok (a : α) : Emits ks (Prog.pure a : Prog σ α) := by
  intro s ev hev; simp at hev

theorem Emits.bind_ok {m : Prog σ α} {f : α → Prog σ β} (hm : Emits ks m)
    (hf : ∀ a, Emits ks (f a)) : Emits ks (m >>= f) := by
  intro s ev hev
  simp only [Prog.bind_run, List.mem_append] at hev
  rcases hev with h | h
  · exact hm s ev h
  · exact hf _ _ ev h

theorem Emits.op_ok (f : σ → α × σ) (ev : α → Event) (h : ∀ r, (ev r).kind ∈ ks) :
    Emits ks (Prog.op f ev) := by
  intro s e he
  simp only [Prog.op_run, List.mem_singleton] at he
  subst he
  exact h _

theorem Emits.emit_ok (ev : Event) (h : ev.kind ∈ ks) : Emits ks (Prog.emit ev : Prog σ Unit) := by
  intro s e he
  simp only [Prog.emit_run, List.mem_singleton] at he
  subst he
  exact h

theorem Emits.log_ok (level message : String) (h : Kind.log ∈ ks) :
    Emits ks (Prog.log level message : Prog σ Unit) :=
  Emits.emit_ok _ h

theorem Emits.sleep_ok (R : Remote σ) (ms : Nat) (h : Kind.sleep ∈ ks) :
    Emits ks (Prog.sleep R ms) := by
  intro s e he
  simp only [Prog.sleep_run, List.mem_singleton] at he
  subst he
  exact h

theorem Emits.now_ok (R : Remote σ) : Emits ks (Prog.now R) := by
  intro s ev hev; simp at hev

theorem Emits.mono_kinds {ks2 : List Kind} {p : Prog σ α} (hsub : ∀ k ∈ ks, k ∈ ks2)
    (h : Emits ks p) : Emits ks2 p :=
  fun s ev hev => hsub _ (h s ev hev)

end EmitsLemmas

theorem isElementVisible_emits {σ : Type} (R : Remote σ) (elem : Elem) :
    Emits [Kind.attr, Kind.visible, Kind.log] (isElementVisible R elem) := by
  unfold isElementVisible
  repeat' first
    | exact Emits.pure_ok _
    | exact Emits.pure2_ok _
    | exact Emits.op_ok _ _ (fun _ => by simp [Event.kind])
    | exact Emits.log_ok _ _ (by decide)
    | exact Emits.sleep_ok _ _ (by decide)
    | refine Emits.bind_ok ?_ (fun _ => ?_)
    | split

theorem anyVisible_emits {σ : Type} (R : Remote σ) (elems : List Elem) :
    Emits [Kind.attr, Kind.visible, Kind.log] (anyVisible R elems) := by
  induction elems with
  | nil => exact Emits.pure2_ok _
  | cons e rest ih =>
      unfold anyVisible
      repeat' first
        | exact ih
        | exact isElementVisible_emits R _
        | exact Emits.pure_ok _
        | refine Emits.bind_ok ?_ (fun _ => ?_)
        | split

theorem waitForModalClose_poll_eq {σ : Type} (R : Remote σ) (deadline fuel : Nat) (s : σ) :
    waitForModalClose.poll R deadline fuel s
      = pollUntil R (waitForModalClose.probe R) 200 deadline (fun _ => (none : Option Err))
          (some (Err.msg "关闭商品选择弹窗超时")) fuel s := by
  induction fuel generalizing s with
  | zero => rfl
  | succ fuel ih =>
      by_cases hd : R.now s < deadline
      · rcases h : (R.pageHas "div.multi-goods-selector-modal" s).1 with e | b
        · simp [waitForModalClose.poll, pollUntil, waitForModalClose.probe, hd, h, ih]
        · cases b <;>
            simp [waitForModalClose.poll, pollUntil, waitForModalClose.probe, hd, h, ih]
      · simp [waitForModalClose.poll, pollUntil, hd]

theorem findProductCard_poll_eq {σ : Type} (R : Remote σ) (lower : String → String)
    (modal : Elem) (keyword lk : String) (deadline fuel : Nat) (s : σ) :
    findProductCard.poll R lower modal keyword lk deadline fuel s
      = pollUntil R (findProductCard.probe R lower modal lk) 300 deadline
          (fun card => (Except.ok card : Except Err Elem))
          (.error (Err.msg ("未找到商品: " ++ keyword))) fuel s := by
  induction fuel generalizing s with
  | zero => rfl
  | succ fuel ih =>
      by_cases hd : R.now s < deadline
      · rcases h : (R.elements modal ".good-card-container" s).1 with e | cards
        · simp [findProductCard.poll, pollUntil, findProductCard.probe, hd, h, ih]
        · cases cards with
          | nil => simp [findProductCard.poll, pollUntil, findProductCard.probe, hd, h, ih]
          | cons c cs =>
              rcases hs : (findProductCard.scan R lower lk (c :: cs)
                  (R.elements modal ".good-card-container" s).2).val with _ | card
              · simp [findProductCard.poll, pollUntil, findProductCard.probe, hd, h, hs, ih]
              · simp [findProductCard.poll, pollUntil, findProductCard.probe, hd, h, hs]
      · simp [findProductCard.poll, pollUntil, hd]

theorem waitForProductListLoad_poll_eq {σ : Type} (R : Remote σ) (modal : Elem)
    (deadline fuel : Nat) (s : σ) :
    waitForProductListLoad.poll R modal deadline fuel s
      = pollUntil R (waitForProductListLoad.probe R modal) 200 deadline
          (fun _ => (none : Option Err)) (some (Err.msg "等待商品列表加载超时")) fuel s := by
  induction fuel generalizing s with
  | zero => rfl
  | succ fuel ih =>
      by_cases hd : R.now s < deadline
      · rcases h : (R.elements modal ".good-card-container" s).1 with e | cards
        · rcases he : (R.elements modal ".goods-list-empty, .goods-list-search-empty" (R.elements modal ".good-card-container" s).2).1 with e | es
          · simp [waitForProductListLoad.poll, pollUntil, waitForProductListLoad.probe, hd, h, he, ih]
          · cases hv : (anyVisible R es (R.elements modal ".goods-list-empty, .goods-list-search-empty" (R.elements modal ".good-card-container" s).2).2).val <;>
              simp [waitForProductListLoad.poll, pollUntil, waitForProductListLoad.probe, hd, h, he, hv, ih]
        · cases cards with
          | nil =>
              rcases he : (R.elements modal ".goods-list-empty, .goods-list-search-empty" (R.elements modal ".good-card-container" s).2).1 with e | es
              · simp [waitForProductListLoad.poll, pollUntil, waitForProductListLoad.probe, hd, h, he, ih]
              · cases hv : (anyVisible R es (R.elements modal ".goods-list-empty, .goods-list-search-empty" (R.elements modal ".good-card-container" s).2).2).val <;>
                  simp [waitForProductListLoad.poll, pollUntil, waitForProductListLoad.probe, hd, h, he, hv, ih]
          | cons c cs =>
              cases hc : (anyVisible R (c :: cs) (R.elements modal ".good-card-container" s).2).val
              · rcases he : (R.elements modal ".goods-list-empty, .goods-list-search-empty" (anyVisible R (c :: cs) (R.elements modal ".good-card-container" s).2).st).1 with e | es
                · simp [waitForProductListLoad.poll, pollUntil, waitForProductListLoad.probe, hd, h, hc, he, ih]
                · cases hv : (anyVisible R es (R.elements modal ".goods-list-empty, .goods-list-search-empty" (anyVisible R (c :: cs) (R.elements modal ".good-card-container" s).2).st).2).val <;>
                    simp [waitForProductListLoad.poll, pollUntil, waitForProductListLoad.probe, hd, h, hc, he, hv, ih]
              · simp [waitForProductListLoad.poll, pollUntil, waitForProductListLoad.probe, hd, h, hc]
      · simp [waitForProductListLoad.poll, pollUntil, hd]

section PollLemmas
variable {σ α β : Type} (R : Remote σ) (probe : Prog σ (Option α)) (interval deadline : Nat)
  (found : α → β) (timeout : β)

theorem pollUntil_late (fuel : Nat) (s : σ) (hd : ¬ R.now s < deadline) :
    pollUntil R probe interval deadline found timeout (fuel + 1) s = ⟨some timeout, [], s⟩ := by
  simp [pollUntil, hd]

theorem pollUntil_hit (fuel : Nat) (s : σ) (a : α) (hd : R.now s < deadline)
    (hp : (probe s).val = some a) :
    pollUntil R probe interval deadline found timeout (fuel + 1) s
      = ⟨some (found a), (probe s).trace, (probe s).st⟩ := by
  simp [pollUntil, hd, hp]

theorem pollUntil_miss (fuel : Nat) (s : σ) (hd : R.now s < deadline)
    (hp : (probe s).val = none) :
    pollUntil R probe interval deadline found timeout (fuel + 1) s
      = ⟨(pollUntil R probe interval deadline found timeout fuel
            (R.sleep interval (probe s).st)).val,
          (probe s).trace ++ Event.sleep interval ::
            (pollUntil R probe interval deadline found timeout fuel
              (R.sleep interval (probe s).st)).trace,
          (pollUntil R probe interval deadline found timeout fuel
            (R.sleep interval (probe s).st)).st⟩ := by
  simp [pollUntil, hd, hp]

theorem pollState_succ (k : Nat) (s : σ) :
    pollState R probe interval (k + 1) s
      = pollState R probe interval k (R.sleep interval (probe s).st) := rfl

/-- A poll loop whose probe never succeeds leaves with the timeout after `n` failed passes,
`n * interval < (deadline - now) + interval`, given a clock that a sleep
advances by its length at least and that the probe does not turn back, and
enough fuel. -/
theorem pollUntil_never (hI : 0 < interval)
    (hsleep : ∀ s, R.now s + interval ≤ R.now (R.sleep interval s))
    (hmono : ∀ s, R.now s ≤ R.now (probe s).st)
    (hnever : ∀ s, (probe s).val = none) :
    ∀ (fuel : Nat) (s : σ), deadline - R.now s + interval ≤ fuel * interval →
      ∃ n, n * interval < deadline - R.now s + interval ∧
        pollUntil R probe interval deadline found timeout fuel s
          = ⟨some timeout, pollTrace R probe interval n s, pollState R probe interval n s⟩ := by
  intro fuel
  induction fuel with
  | zero =>
      intro s h
      simp at h
      omega
  | succ fuel ih =>
      intro s h
      by_cases hd : R.now s < deadline
      · have h1 := hmono s
        have h2 := hsleep (probe s).st
        have hfuel : deadline - R.now (R.sleep interval (probe s).st) + interval
            ≤ fuel * interval := by
          rw [Nat.succ_mul] at h
          have hpos : 1 ≤ fuel := by
            rcases fuel with _ | f
            · simp at h; omega
            · omega
          have : interval ≤ fuel * interval := Nat.le_mul_of_pos_left _ hpos
          omega
        obtain ⟨n, hn, heq⟩ := ih _ hfuel
        refine ⟨n + 1, ?_, ?_⟩
        · rw [Nat.succ_mul]
          have hn0 : n * interval = 0 ∨ interval ≤ n * interval := by
            rcases n with _ | m
            · left; simp
            · right; exact Nat.le_mul_of_pos_left _ (Nat.succ_pos _)
          omega
        · rw [pollUntil_miss R probe interval deadline found timeout fuel s hd (hnever s), heq]
          rfl
      · refine ⟨0, by omega, ?_⟩
        rw [pollUntil_late R probe interval deadline found timeout fuel s hd]
        rfl

/-- A poll loop leaves with `found a` when pass `k` is reached before the deadline, the
passes before it having failed, and its probe answers `some a`. -/
theorem pollUntil_of_hit (k : Nat) (a : α) :
    ∀ (fuel : Nat) (s : σ), k < fuel →
      (∀ i ≤ k, R.now (pollState R probe interval i s) < deadline) →
      (∀ i < k, (probe (pollState R probe interval i s)).val = none) →
      (probe (pollState R probe interval k s)).val = some a →
      (pollUntil R probe interval deadline found timeout fuel s).val = some (found a) := by
  induction k with
  | zero =>
      intro fuel s hk hnow _ hp
      obtain ⟨f, rfl⟩ : ∃ f, fuel = f + 1 := ⟨fuel - 1, by omega⟩
      rw [pollUntil_hit R probe interval deadline found timeout f s a (hnow 0 (le_refl _)) hp]
  | succ k ih =>
      intro fuel s hk hnow hnone hp
      obtain ⟨f, rfl⟩ : ∃ f, fuel = f + 1 := ⟨fuel - 1, by omega⟩
      rw [pollUntil_miss R probe interval deadline found timeout f s (hnow 0 (Nat.zero_le _))
        (hnone 0 (Nat.succ_pos _))]
      exact ih f _ (by omega) (fun i hi => hnow (i + 1) (by omega))
        (fun i hi => hnone (i + 1) (by omega)) hp

/-- A poll loop that leaves with a value other than the timeout found it on a pass `k`
reached before the deadline, the passes before it having failed. -/
theorem pollUntil_hit_inv (b : β) (hb : b ≠ timeout) :
    ∀ (fuel : Nat) (s : σ),
      (pollUntil R probe interval deadline found timeout fuel s).val = some b →
      ∃ k, k < fuel ∧ ∃ a, b = found a ∧
        (∀ i ≤ k, R.now (pollState R probe interval i s) < deadline) ∧
        (∀ i < k, (probe (pollState R probe interval i s)).val = none) ∧
        (probe (pollState R probe interval k s)).val = some a := by
  intro fuel
  induction fuel with
  | zero => intro s h; simp [pollUntil] at h
  | succ fuel ih =>
      intro s h
      by_cases hd : R.now s < deadline
      · cases hp : (probe s).val with
        | some a =>
            rw [pollUntil_hit R probe interval deadline found timeout fuel s a hd hp] at h
            simp only [Option.some.injEq] at h
            refine ⟨0, Nat.succ_pos _, a, h.symm, ?_, ?_, hp⟩
            · intro i hi
              obtain rfl : i = 0 := by omega
              exact hd
            · intro i hi
              omega
        | none =>
            rw [pollUntil_miss R probe interval deadline found timeout fuel s hd hp] at h
            obtain ⟨k, hk, a, hba, hnow, hnone, hpk⟩ := ih _ h
            refine ⟨k + 1, by omega, a, hba, ?_, ?_, hpk⟩
            · intro i hi
              rcases i with _ | i
              · exact hd
              · exact hnow i (by omega)
            · intro i hi
              rcases i with _ | i
              · exact hp
              · exact hnone i (by omega)
      · rw [pollUntil_late R probe interval deadline found timeout fuel s hd] at h
        simp only [Option.some.injEq] at h
        exact absurd h.symm hb

end PollLemmas

section AdvancesLemmas
variable {σ α β : Type} {R : Remote σ}

theorem Advances.pure_adv (a : α) : Advances R (Pure.pure a : Prog σ α) :=
  fun _ => Nat.le_refl _

theorem Advances.pure2_adv (a : α) : Advances R (Prog.pure a : Prog σ α) :=
  fun _ => Nat.le_refl _

theorem Advances.bind_adv {m : Prog σ α} {f : α → Prog σ β} (hm : Advances R m)
    (hf : ∀ a, Advances R (f a)) : Advances R (m >>= f) :=
  fun s => Nat.le_trans (hm s) (hf _ _)

theorem Advances.op_adv (f : σ → α × σ) (ev : α → Event) (h : ∀ s, R.now s ≤ R.now (f s).2) :
    Advances R (Prog.op f ev) :=
  fun s => h s

theorem Advances.log_adv (level message : String) :
    Advances R (Prog.log level message : Prog σ Unit) :=
  fun _ => Nat.le_refl _

theorem Advances.sleep_fwd (hc : Clocked R) (ms : Nat) : Advances R (Prog.sleep R ms) :=
  fun s => Nat.le_trans (Nat.le_add_right _ _) (hc.sleep_adv ms s)

end AdvancesLemmas

theorem isElementVisible_advances {σ : Type} {R : Remote σ} (hc : Clocked R) (elem : Elem) :
    Advances R (isElementVisible R elem) := by
  unfold isElementVisible
  repeat' first
    | exact Advances.pure_adv _
    | exact Advances.pure2_adv _
    | exact Advances.op_adv _ _ (hc.attr_fwd _ _)
    | exact Advances.op_adv _ _ (hc.visible_fwd _)
    | exact Advances.log_adv _ _
    | refine Advances.bind_adv ?_ (fun _ => ?_)
    | split

theorem anyVisible_advances {σ : Type} {R : Remote σ} (hc : Clocked R) (elems : List Elem) :
    Advances R (anyVisible R elems) := by
  induction elems with
  | nil => exact Advances.pure2_adv _
  | cons e rest ih =>
      unfold anyVisible
      repeat' first
        | exact ih
        | exact isElementVisible_advances hc _
        | exact Advances.pure_adv _
        | refine Advances.bind_adv ?_ (fun _ => ?_)
        | split

theorem findProductCard_scan_advances {σ : Type} {R : Remote σ} (hc : Clocked R)
    (lower : String → String) (lk : String) (cards : List Elem) :
    Advances R (findProductCard.scan R lower lk cards) := by
  induction cards with
  | nil => exact Advances.pure2_adv _
  | cons c rest ih =>
      unfold findProductCard.scan
      repeat' first
        | exact ih
        | exact Advances.pure_adv _
        | exact Advances.op_adv _ _ (hc.element_fwd _ _ _)
        | exact Advances.op_adv _ _ (hc.text_fwd _)
        | refine Advances.bind_adv ?_ (fun _ => ?_)
        | split

theorem findProductCard_scan_emits {σ : Type} (R : Remote σ)
    (lower : String → String) (lk : String) (cards : List Elem) :
    Emits [Kind.element, Kind.text] (findProductCard.scan R lower lk cards) := by
  induction cards with
  | nil => exact Emits.pure2_ok _
  | cons c rest ih =>
      unfold findProductCard.scan
      repeat' first
        | exact ih
        | exact Emits.pure_ok _
        | exact Emits.op_ok _ _ (fun _ => by simp [Event.kind])
        | refine Emits.bind_ok ?_ (fun _ => ?_)
        | split

theorem waitForModalClose_probe_advances {σ : Type} {R : Remote σ} (hc : Clocked R) :
    Advances R (waitForModalClose.probe R) := by
  unfold waitForModalClose.probe
  repeat' first
    | exact Advances.pure_adv _
    | exact Advances.op_adv _ _ (hc.pageHas_fwd _)
    | refine Advances.bind_adv ?_ (fun _ => ?_)
    | split

theorem waitForProductListLoad_probe_advances {σ : Type} {R : Remote σ} (hc : Clocked R)
    (modal : Elem) : Advances R (waitForProductListLoad.probe R modal) := by
  unfold waitForProductListLoad.probe
  repeat' first
    | exact Advances.pure_adv _
    | exact Advances.pure2_adv _
    | exact anyVisible_advances hc _
    | exact Advances.op_adv _ _ (hc.elements_fwd _ _)
    | refine Advances.bind_adv ?_ (fun _ => ?_)
    | split
    | dsimp only

theorem findProductCard_probe_advances {σ : Type} {R : Remote σ} (hc : Clocked R)
    (lower : String → String) (modal : Elem) (lk : String) :
    Advances R (findProductCard.probe R lower modal lk) := by
  unfold findProductCard.probe
  repeat' first
    | exact Advances.pure_adv _
    | exact findProductCard_scan_advances hc _ _ _
    | exact Advances.op_adv _ _ (hc.elements_fwd _ _)
    | refine Advances.bind_adv ?_ (fun _ => ?_)
    | split

theorem weigh_append (m : Event → Nat) (t1 t2 : List Event) :
    weigh m (t1 ++ t2) = weigh m t1 + weigh m t2 := by
  simp [weigh]

theorem weigh_cons (m : Event → Nat) (e : Event) (t : List Event) :
    weigh m (e :: t) = m e + weigh m t := by
  simp [weigh]

theorem weigh_eq_zero (m : Event → Nat) (t : List Event) (h : ∀ ev ∈ t, m ev = 0) :
    weigh m t = 0 := by
  induction t with
  | nil => rfl
  | cons e t ih =>
      rw [weigh_cons, h e (List.mem_cons_self _ _),
        ih (fun ev hev => h ev (List.mem_cons_of_mem _ hev))]

theorem weigh_pollTrace {σ α : Type} (R : Remote σ) (probe : Prog σ (Option α))
    (interval : Nat) (m : Event → Nat) (c : Nat) (hc : ∀ s, weigh m (probe s).trace = c) :
    ∀ (n : Nat) (s : σ),
      weigh m (pollTrace R probe interval n s) = n * (c + m (Event.sleep interval)) := by
  intro n
  induction n with
  | zero => intro s; simp [pollTrace, weigh]
  | succ n ih =>
      intro s
      rw [pollTrace, weigh_append, weigh_cons, hc, ih, Nat.succ_mul]
      omega

theorem waitForModalClose_probe_none {σ : Type} (R : Remote σ) (s : σ)
    (h : (R.pageHas "div.multi-goods-selector-modal" s).1 ≠ .ok false) :
    (waitForModalClose.probe R s).val = none := by
  rcases hp : (R.pageHas "div.multi-goods-selector-modal" s).1 with e | b
  · simp [waitForModalClose.probe, hp]
  · cases b
    · exact absurd hp h
    · simp [waitForModalClose.probe, hp]

theorem waitForModalClose_probe_some {σ : Type} (R : Remote σ) (s : σ) :
    (waitForModalClose.probe R s).val = some () ↔
      (R.pageHas "div.multi-goods-selector-modal" s).1 = .ok false := by
  rcases hp : (R.pageHas "div.multi-goods-selector-modal" s).1 with e | b
  · simp [waitForModalClose.probe, hp]
  · cases b <;> simp [waitForModalClose.probe, hp]

theorem waitForModalClose_probe_weigh {σ : Type} (R : Remote σ) (m : Event → Nat) (a : Nat)
    (hm : ∀ sel r, m (Event.pageHas sel r) = a) (s : σ) :
    weigh m (waitForModalClose.probe R s).trace = a := by
  rcases hp : (R.pageHas "div.multi-goods-selector-modal" s).1 with e | b
  · simp [waitForModalClose.probe, hp, weigh, hm]
  · cases b <;> simp [waitForModalClose.probe, hp, weigh, hm]

theorem findProductCard_probe_weigh {σ : Type} (R : Remote σ) (lower : String → String)
    (modal : Elem) (lk : String) (m : Event → Nat) (a : Nat)
    (hel : ∀ e sel r, m (Event.elements e sel r) = a)
    (hz : ∀ ev, ev.kind ∈ [Kind.element, Kind.text] → m ev = 0) (s : σ) :
    weigh m (findProductCard.probe R lower modal lk s).trace = a := by
  rcases h : (R.elements modal ".good-card-container" s).1 with e | cards
  · simp [findProductCard.probe, h, weigh, hel]
  · cases cards with
    | nil => simp [findProductCard.probe, h, weigh, hel]
    | cons c cs =>
        have hz2 := weigh_eq_zero m _ (fun ev hev =>
          hz ev (findProductCard_scan_emits R lower lk (c :: cs) (R.elements modal ".good-card-container" s).2 ev hev))
        simp only [weigh] at hz2
        simp [findProductCard.probe, h, weigh, hel, hz2]

theorem waitForProductListLoad_probe_weigh {σ : Type} (R : Remote σ) (modal : Elem)
    (m : Event → Nat) (a : Nat) (hel : ∀ e sel r, m (Event.elements e sel r) = a)
    (hz : ∀ ev, ev.kind ∈ [Kind.attr, Kind.visible, Kind.log] → m ev = 0) (s : σ)
    (hv : (waitForProductListLoad.probe R modal s).val = none) :
    weigh m (waitForProductListLoad.probe R modal s).trace = 2 * a := by
  have hzero : ∀ {p : Prog σ Bool} (_ : Emits [Kind.attr, Kind.visible, Kind.log] p) (s1 : σ),
      weigh m (p s1).trace = 0 :=
    fun hp s1 => weigh_eq_zero m _ (fun ev hev => hz ev (hp s1 ev hev))
  rcases h : (R.elements modal ".good-card-container" s).1 with e | cards
  · rcases he : (R.elements modal ".goods-list-empty, .goods-list-search-empty" (R.elements modal ".good-card-container" s).2).1 with e | es
    · simp [waitForProductListLoad.probe, h, he, weigh, hel, two_mul]
    · have hz2 := hzero (anyVisible_emits R es) (R.elements modal ".goods-list-empty, .goods-list-search-empty" (R.elements modal ".good-card-container" s).2).2
      cases hv2 : (anyVisible R es (R.elements modal ".goods-list-empty, .goods-list-search-empty" (R.elements modal ".good-card-container" s).2).2).val
      · simp only [weigh] at hz2
        simp [waitForProductListLoad.probe, h, he, hv2, weigh, hel, hz2, two_mul]
      · simp [waitForProductListLoad.probe, h, he, hv2] at hv
  · cases cards with
    | nil =>
        rcases he : (R.elements modal ".goods-list-empty, .goods-list-search-empty" (R.elements modal ".good-card-container" s).2).1 with e | es
        · simp [waitForProductListLoad.probe, h, he, weigh, hel, two_mul]
        · have hz2 := hzero (anyVisible_emits R es) (R.elements modal ".goods-list-empty, .goods-list-search-empty" (R.elements modal ".good-card-container" s).2).2
          cases hv2 : (anyVisible R es (R.elements modal ".goods-list-empty, .goods-list-search-empty" (R.elements modal ".good-card-container" s).2).2).val
          · simp only [weigh] at hz2
            simp [waitForProductListLoad.probe, h, he, hv2, weigh, hel, hz2, two_mul]
          · simp [waitForProductListLoad.probe, h, he, hv2] at hv
    | cons c cs =>
        have hz1 := hzero (anyVisible_emits R (c :: cs)) (R.elements modal ".good-card-container" s).2
        simp only [weigh] at hz1
        cases hc : (anyVisible R (c :: cs) (R.elements modal ".good-card-container" s).2).val
        · rcases he : (R.elements modal ".goods-list-empty, .goods-list-search-empty" (anyVisible R (c :: cs) (R.elements modal ".good-card-container" s).2).st).1 with e | es
          · simp [waitForProductListLoad.probe, h, hc, hz1, he, weigh, hel, two_mul]
          · have hz2 := hzero (anyVisible_emits R es) (R.elements modal ".goods-list-empty, .goods-list-search-empty" (anyVisible R (c :: cs) (R.elements modal ".good-card-container" s).2).st).2
            cases hv2 : (anyVisible R es (R.elements modal ".goods-list-empty, .goods-list-search-empty" (anyVisible R (c :: cs) (R.elements modal ".good-card-container" s).2).st).2).val
            · simp only [weigh] at hz2
              simp [waitForProductListLoad.probe, h, hc, hz1, he, hv2, weigh, hel, hz2, two_mul]
            · simp [waitForProductListLoad.probe, h, hc, hz1, he, hv2] at hv
        · simp [waitForProductListLoad.probe, h, hc] at hv

theorem anyVisible_true_iff {σ : Type} (R : Remote σ) (elems : List Elem) :
    ∀ s : σ, (anyVisible R elems s).val = true ↔
      ∃ pre e post, elems = pre ++ e :: post ∧
        (isElementVisible R e
          (pre.foldl (fun st x => (isElementVisible R x st).st) s)).val = true := by
  induction elems with
  | nil =>
      intro s
      simp [anyVisible]
  | cons x rest ih =>
      intro s
      cases hx : (isElementVisible R x s).val
      · have hv : (anyVisible R (x :: rest) s).val
            = (anyVisible R rest (isElementVisible R x s).st).val := by
          simp [anyVisible, hx]
        rw [hv, ih]
        constructor
        · rintro ⟨pre, e, post, rfl, h⟩
          exact ⟨x :: pre, e, post, rfl, h⟩
        · rintro ⟨pre, e, post, heq, h⟩
          cases pre with
          | nil =>
              simp only [List.nil_append, List.cons.injEq] at heq
              obtain ⟨rfl, rfl⟩ := heq
              simp only [List.foldl_nil] at h
              rw [hx] at h
              cases h
          | cons p pre =>
              simp only [List.cons_append, List.cons.injEq] at heq
              obtain ⟨rfl, rfl⟩ := heq
              exact ⟨pre, e, post, rfl, h⟩
      · have hv : (anyVisible R (x :: rest) s).val = true := by
          simp [anyVisible, hx]
        rw [hv]
        simp only [true_iff]
        exact ⟨[], x, rest, rfl, hx⟩

theorem waitForProductListLoad_probe_some {σ : Type} (R : Remote σ) (modal : Elem) (s : σ) :
    (waitForProductListLoad.probe R modal s).val = some () ↔
      (∃ c cs, (R.elements modal ".good-card-container" s).1 = .ok (c :: cs) ∧
        (anyVisible R (c :: cs) (R.elements modal ".good-card-container" s).2).val = true) ∨
      (∃ es, (R.elements modal ".goods-list-empty, .goods-list-search-empty"
          (match (R.elements modal ".good-card-container" s).1 with
            | .ok (c :: cs) => (anyVisible R (c :: cs) (R.elements modal ".good-card-container" s).2).st
            | _ => (R.elements modal ".good-card-container" s).2)).1 = .ok es ∧
        (anyVisible R es (R.elements modal ".goods-list-empty, .goods-list-search-empty"
          (match (R.elements modal ".good-card-container" s).1 with
            | .ok (c :: cs) => (anyVisible R (c :: cs) (R.elements modal ".good-card-container" s).2).st
            | _ => (R.elements modal ".good-card-container" s).2)).2).val = true) := by
  rcases h : (R.elements modal ".good-card-container" s).1 with e | cards
  · rcases he : (R.elements modal ".goods-list-empty, .goods-list-search-empty" (R.elements modal ".good-card-container" s).2).1 with e | es
    · simp [waitForProductListLoad.probe, h, he]
    · cases hv2 : (anyVisible R es (R.elements modal ".goods-list-empty, .goods-list-search-empty" (R.elements modal ".good-card-container" s).2).2).val <;>
        simp [waitForProductListLoad.probe, h, he, hv2]
  · cases cards with
    | nil =>
        rcases he : (R.elements modal ".goods-list-empty, .goods-list-search-empty" (R.elements modal ".good-card-container" s).2).1 with e | es
        · simp [waitForProductListLoad.probe, h, he]
        · cases hv2 : (anyVisible R es (R.elements modal ".goods-list-empty, .goods-list-search-empty" (R.elements modal ".good-card-container" s).2).2).val <;>
            simp [waitForProductListLoad.probe, h, he, hv2]
    | cons c cs =>
        cases hc : (anyVisible R (c :: cs) (R.elements modal ".good-card-container" s).2).val
        · rcases he : (R.elements modal ".goods-list-empty, .goods-list-search-empty" (anyVisible R (c :: cs) (R.elements modal ".good-card-container" s).2).st).1 with e | es
          · simp [waitForProductListLoad.probe, h, hc, he]
          · cases hv2 : (anyVisible R es (R.elements modal ".goods-list-empty, .goods-list-search-empty" (anyVisible R (c :: cs) (R.elements modal ".good-card-container" s).2).st).2).val <;>
              simp [waitForProductListLoad.probe, h, hc, he, hv2]
        · simp [waitForProductListLoad.probe, h, hc]
          exact Or.inl ⟨c, cs, ⟨rfl, rfl⟩, hc⟩

/-! ### Event kinds of the product attachment -/

theorem findVisibleElement_emits {σ : Type} (R : Remote σ) (elems : List Elem) :
    Emits [Kind.attr, Kind.visible, Kind.log] (findVisibleElement R elems) := by
  induction elems with
  | nil => exact Emits.pure2_ok _
  | cons e rest ih =>
      unfold findVisibleElement
      repeat' first
        | exact ih
        | exact isElementVisible_emits R _
        | exact Emits.pure_ok _
        | refine Emits.bind_ok ?_ (fun _ => ?_)
        | split

theorem findCheckboxArea_emits {σ : Type} (R : Remote σ) (card : Elem) (sels : List String) :
    Emits [Kind.element] (findCheckboxArea.loop R card sels) := by
  induction sels with
  | nil => exact Emits.pure2_ok _
  | cons sel rest ih =>
      unfold findCheckboxArea.loop
      repeat' first
        | exact ih
        | exact Emits.pure_ok _
        | exact Emits.op_ok _ _ (fun _ => by simp [Event.kind])
        | refine Emits.bind_ok ?_ (fun _ => ?_)
        | split

theorem strategies_emit {σ : Type} (R : Remote σ) (card inp : Elem) (area : Option Elem) :
    ∀ p ∈ strategies R card inp area,
      Emits [Kind.click, Kind.eval, Kind.elements, Kind.attr, Kind.visible, Kind.log] p := by
  intro p hp
  simp only [strategies, List.mem_cons, List.mem_singleton, List.not_mem_nil, or_false] at hp
  rcases hp with rfl | rfl | rfl | rfl
  · unfold clickCheckboxArea
    repeat' first
      | exact Emits.pure2_ok _
      | exact Emits.op_ok _ _ (fun _ => by simp [Event.kind])
      | split
  · unfold clickInput
    repeat' first
      | exact Emits.pure_ok _
      | exact Emits.op_ok _ _ (fun _ => by simp [Event.kind])
      | refine Emits.bind_ok ?_ (fun _ => ?_)
      | split
  · unfold clickVisibleIndicator
    repeat' first
      | exact Emits.pure_ok _
      | exact (findVisibleElement_emits R _).mono_kinds (by decide)
      | exact Emits.op_ok _ _ (fun _ => by simp [Event.kind])
      | refine Emits.bind_ok ?_ (fun _ => ?_)
      | split
  · unfold forceChecked
    repeat' first
      | exact Emits.pure_ok _
      | exact Emits.op_ok _ _ (fun _ => by simp [Event.kind])
      | refine Emits.bind_ok ?_ (fun _ => ?_)
      | split

theorem probeChecked_emits {σ : Type} (R : Remote σ) (inp : Elem) (ks : List Kind)
    (h : Kind.eval ∈ ks) : Emits ks (probeChecked R inp) := by
  unfold probeChecked
  exact Emits.bind_ok (Emits.op_ok _ _ (fun _ => by simpa [Event.kind] using h))
    (fun _ => Emits.pure_ok _)

theorem strategyLoop_emits {σ : Type} (R : Remote σ) (inp : Elem) (ks : List Kind)
    (hm : Kind.marker ∈ ks) (hl : Kind.log ∈ ks) (hs : Kind.sleep ∈ ks) (he : Kind.eval ∈ ks)
    (strats : List (Prog σ (Option Err))) (hstr : ∀ p ∈ strats, Emits ks p) :
    ∀ i l, Emits ks (strategyLoop R inp strats i l) := by
  induction strats with
  | nil => intro i l; exact Emits.pure2_ok _
  | cons p rest ih =>
      intro i l
      have ih2 := ih (fun q hq => hstr q (List.mem_cons_of_mem _ hq))
      unfold strategyLoop
      repeat' first
        | exact ih2 _ _
        | exact hstr p (List.mem_cons_self _ _)
        | exact probeChecked_emits R inp ks he
        | exact Emits.pure_ok _
        | exact Emits.emit_ok _ hm
        | exact Emits.log_ok _ _ hl
        | exact Emits.sleep_ok _ _ hs
        | refine Emits.bind_ok ?_ (fun _ => ?_)
        | split

theorem attemptLoop_emits {σ : Type} (R : Remote σ) (inp : Elem) (ks : List Kind)
    (hm : Kind.marker ∈ ks) (hl : Kind.log ∈ ks) (hs : Kind.sleep ∈ ks) (he : Kind.eval ∈ ks)
    (strats : List (Prog σ (Option Err))) (hstr : ∀ p ∈ strats, Emits ks p) :
    ∀ n a l, Emits ks (attemptLoop R inp strats n a l) := by
  intro n
  induction n with
  | zero =>
      intro a l
      unfold attemptLoop
      exact Emits.bind_ok (Emits.emit_ok _ hm) (fun _ => Emits.pure_ok _)
  | succ n ih =>
      intro a l
      unfold attemptLoop
      repeat' first
        | exact ih _ _
        | exact strategyLoop_emits R inp ks hm hl hs he strats hstr _ _
        | exact probeChecked_emits R inp ks he
        | exact Emits.pure_ok _
        | exact Emits.emit_ok _ hm
        | exact Emits.sleep_ok _ _ hs
        | refine Emits.bind_ok ?_ (fun _ => ?_)
        | split

theorem ensureProductSelected_retry_emits {σ : Type} (R : Remote σ) (card inp : Elem) :
    Emits selectKinds (ensureProductSelected.retry R card inp) := by
  unfold ensureProductSelected.retry
  repeat' first
    | exact attemptLoop_emits R inp selectKinds (by decide) (by decide) (by decide) (by decide) _
        (fun p hp => (strategies_emit R card inp _ p hp).mono_kinds (by decide)) _ _ _
    | exact (findCheckboxArea_emits R card _).mono_kinds (by decide)
    | exact Emits.pure_ok _
    | exact Emits.pure2_ok _
    | exact Emits.op_ok _ _ (fun _ => by simp [Event.kind, selectKinds])
    | exact Emits.log_ok _ _ (by decide)
    | exact Emits.sleep_ok _ _ (by decide)
    | refine Emits.bind_ok ?_ (fun _ => ?_)
    | split

theorem ensureProductSelected_emits {σ : Type} (R : Remote σ) (card : Elem) :
    Emits selectKinds (ensureProductSelected R card) := by
  unfold ensureProductSelected
  repeat' first
    | exact ensureProductSelected_retry_emits R card _
    | exact probeChecked_emits R _ selectKinds (by decide)
    | exact Emits.pure_ok _
    | exact Emits.op_ok _ _ (fun _ => by simp [Event.kind, selectKinds])
    | exact Emits.log_ok _ _ (by decide)
    | refine Emits.bind_ok ?_ (fun _ => ?_)
    | split

theorem pollUntil_emits {σ α β : Type} (R : Remote σ) (probe : Prog σ (Option α))
    (interval deadline : Nat) (found : α → β) (timeout : β) (ks : List Kind)
    (hp : Emits ks probe) (hs : Kind.sleep ∈ ks) :
    ∀ fuel, Emits ks (pollUntil R probe interval deadline found timeout fuel) := by
  intro fuel
  induction fuel with
  | zero => exact Emits.pure2_ok _
  | succ fuel ih =>
      unfold pollUntil
      repeat' first
        | exact ih
        | exact hp
        | exact Emits.pure_ok _
        | exact Emits.now_ok _
        | exact Emits.sleep_ok _ _ hs
        | refine Emits.bind_ok ?_ (fun _ => ?_)
        | split

theorem waitForProductListLoad_probe_emits {σ : Type} (R : Remote σ) (modal : Elem) :
    Emits [Kind.elements, Kind.attr, Kind.visible, Kind.log, Kind.sleep]
      (waitForProductListLoad.probe R modal) := by
  unfold waitForProductListLoad.probe
  repeat' first
    | exact Emits.pure_ok _
    | exact Emits.pure2_ok _
    | exact (anyVisible_emits R _).mono_kinds (by decide)
    | exact Emits.op_ok _ _ (fun _ => by simp [Event.kind])
    | refine Emits.bind_ok ?_ (fun _ => ?_)
    | split
    | dsimp only

theorem waitForProductListLoad_emits {σ : Type} (R : Remote σ) (fuel : Nat) (modal : Elem) :
    Emits [Kind.elements, Kind.attr, Kind.visible, Kind.log, Kind.sleep]
      (waitForProductListLoad R fuel modal) := by
  intro s ev hev
  have h := pollUntil_emits R (waitForProductListLoad.probe R modal) 200 (R.now s + 10000)
    (fun _ => (none : Option Err)) (some (Err.msg "等待商品列表加载超时")) _
    (waitForProductListLoad_probe_emits R modal) (by decide) fuel s ev
  apply h
  simpa [waitForProductListLoad, waitForProductListLoad_poll_eq] using hev

theorem waitForModalClose_emits {σ : Type} (R : Remote σ) (fuel : Nat) :
    Emits [Kind.pageHas, Kind.sleep] (waitForModalClose R fuel) := by
  have hp : Emits [Kind.pageHas, Kind.sleep] (waitForModalClose.probe R) := by
    unfold waitForModalClose.probe
    repeat' first
      | exact Emits.pure_ok _
      | exact Emits.op_ok _ _ (fun _ => by simp [Event.kind])
      | refine Emits.bind_ok ?_ (fun _ => ?_)
      | split
  intro s ev hev
  have h := pollUntil_emits R (waitForModalClose.probe R) 200 (R.now s + 5000)
    (fun _ => (none : Option Err)) (some (Err.msg "关闭商品选择弹窗超时")) _ hp (by decide)
    fuel s ev
  apply h
  simpa [waitForModalClose, waitForModalClose_poll_eq] using hev

theorem findProductCard_emits {σ : Type} (R : Remote σ) (lower : String → String) (fuel : Nat)
    (modal : Elem) (keyword : String) :
    Emits [Kind.elements, Kind.element, Kind.text, Kind.sleep]
      (findProductCard R lower fuel modal keyword) := by
  have hp : Emits [Kind.elements, Kind.element, Kind.text, Kind.sleep]
      (findProductCard.probe R lower modal (lower keyword)) := by
    unfold findProductCard.probe
    repeat' first
      | exact Emits.pure_ok _
      | exact (findProductCard_scan_emits R lower _ _).mono_kinds (by decide)
      | exact Emits.op_ok _ _ (fun _ => by simp [Event.kind])
      | refine Emits.bind_ok ?_ (fun _ => ?_)
      | split
  intro s ev hev
  have h := pollUntil_emits R (findProductCard.probe R lower modal (lower keyword)) 300
    (R.now s + 10000) (fun card => (Except.ok card : Except Err Elem))
    (.error (Err.msg ("未找到商品: " ++ keyword))) _ hp (by decide) fuel s ev
  apply h
  simpa [findProductCard, findProductCard_poll_eq] using hev

theorem findAddProductButton_emits {σ : Type} (R : Remote σ) (sels : List String) :
    Emits [Kind.pageElement, Kind.pageElementR] (findAddProductButton.loop R sels) := by
  induction sels with
  | nil => exact Emits.op_ok _ _ (fun _ => by simp [Event.kind])
  | cons sel rest ih =>
      unfold findAddProductButton.loop
      repeat' first
        | exact ih
        | exact Emits.pure_ok _
        | exact Emits.op_ok _ _ (fun _ => by simp [Event.kind])
        | refine Emits.bind_ok ?_ (fun _ => ?_)
        | split

theorem inputProductSearchKeyword_emits {σ : Type} (R : Remote σ) (input : Elem)
    (keyword : String) :
    Emits [Kind.eval, Kind.typing, Kind.sleep] (inputProductSearchKeyword R input keyword) := by
  unfold inputProductSearchKeyword
  repeat' first
    | exact Emits.pure_ok _
    | exact Emits.op_ok _ _ (fun _ => by simp [Event.kind])
    | exact Emits.sleep_ok _ _ (by decide)
    | refine Emits.bind_ok ?_ (fun _ => ?_)
    | split

theorem addProducts_openModal_emits {σ : Type} (R : Remote σ) :
    Emits setupKinds (addProducts.openModal R) := by
  unfold addProducts.openModal
  repeat' first
    | exact (findAddProductButton_emits R _).mono_kinds (by decide)
    | exact Emits.pure_ok _
    | exact Emits.pure2_ok _
    | exact Emits.op_ok _ _ (fun _ => by simp [Event.kind, setupKinds])
    | exact Emits.log_ok _ _ (by decide)
    | exact Emits.sleep_ok _ _ (by decide)
    | refine Emits.bind_ok ?_ (fun _ => ?_)
    | split

theorem addProducts_searchInput_emits {σ : Type} (R : Remote σ) (modal : Elem)
    (loaded : Option Err) : Emits setupKinds (addProducts.searchInput R modal loaded) := by
  unfold addProducts.searchInput
  repeat' first
    | exact Emits.pure_ok _
    | exact Emits.pure2_ok _
    | exact Emits.op_ok _ _ (fun _ => by simp [Event.kind, setupKinds])
    | exact Emits.log_ok _ _ (by decide)
    | refine Emits.bind_ok ?_ (fun _ => ?_)
    | split

theorem addProducts_setup_emits {σ : Type} (R : Remote σ) (fuel : Nat) :
    Emits setupKinds (addProducts.setup R fuel) := by
  unfold addProducts.setup
  repeat' first
    | exact addProducts_openModal_emits R
    | exact addProducts_searchInput_emits R _ _
    | exact (waitForProductListLoad_emits R fuel _).mono_kinds (by decide)
    | exact Emits.pure_ok _
    | refine Emits.bind_ok ?_ (fun _ => ?_)
    | split

theorem addProducts_loop_emits {σ : Type} (R : Remote σ) (lower : String → String) (fuel : Nat)
    (modal searchInput : Elem) (kws : List String) :
    Emits loopKinds (addProducts.loop R lower fuel modal searchInput kws) := by
  induction kws with
  | nil => exact Emits.pure2_ok _
  | cons k rest ih =>
      unfold addProducts.loop
      repeat' first
        | exact ih
        | exact (inputProductSearchKeyword_emits R _ _).mono_kinds (by decide)
        | exact (findProductCard_emits R lower fuel _ _).mono_kinds (by decide)
        | exact (ensureProductSelected_emits R _).mono_kinds (by decide)
        | exact Emits.pure_ok _
        | exact Emits.log_ok _ _ (by decide)
        | refine Emits.bind_ok ?_ (fun _ => ?_)
        | split

theorem addProducts_save_emits {σ : Type} (R : Remote σ) (fuel : Nat) (modal : Elem) :
    Emits saveKinds (addProducts.save R fuel modal) := by
  unfold addProducts.save
  repeat' first
    | exact (waitForModalClose_emits R fuel).mono_kinds (by decide)
    | exact Emits.pure_ok _
    | exact Emits.op_ok _ _ (fun _ => by simp [Event.kind, saveKinds])
    | refine Emits.bind_ok ?_ (fun _ => ?_)
    | split

/-! ### Stages of the product attachment -/

set_option maxHeartbeats 4000000 in
theorem addProducts_eq_staged {σ : Type} (R : Remote σ) (lower : String → String) (fuel : Nat)
    (kws : List String) (s : σ) :
    addProducts R lower fuel kws s = addProducts.staged R lower fuel kws s := by
  by_cases hk : (addProducts.keywords kws).length = 0
  · simp [addProducts, addProducts.staged, hk]
  · rcases hB : (findAddProductButton R s).val with e | addButton
    · simp [addProducts, addProducts.staged, addProducts.setup, addProducts.openModal, addProducts.searchInput, addProducts.save, Wrap, hk, hB]
    · rcases hSC : (R.scrollIntoView addButton (findAddProductButton R s).st).1 with _ | e
      · rcases hCL : (R.click addButton none (R.sleep 100 (R.scrollIntoView addButton (findAddProductButton R s).st).2)).1 with _ | e
        · rcases hM : (R.pageElement (some 15000) "div.multi-goods-selector-modal" (R.sleep 500 (R.click addButton none (R.sleep 100 (R.scrollIntoView addButton (findAddProductButton R s).st).2)).2)).1 with e | modal
          · simp [addProducts, addProducts.staged, addProducts.setup, addProducts.openModal, addProducts.searchInput, addProducts.save, Wrap, hk, hB, hSC, hCL, hM]
          · rcases hW : (waitForProductListLoad R fuel modal (R.pageElement (some 15000) "div.multi-goods-selector-modal" (R.sleep 500 (R.click addButton none (R.sleep 100 (R.scrollIntoView addButton (findAddProductButton R s).st).2)).2)).2).val with _ | (_ | e)
            · simp [addProducts, addProducts.staged, addProducts.setup, addProducts.openModal, addProducts.searchInput, addProducts.save, Wrap, hk, hB, hSC, hCL, hM, hW]
            · rcases hSI : (R.element modal (some 10000) "input[placeholder='搜索商品ID 或 商品名称']" (waitForProductListLoad R fuel modal (R.pageElement (some 15000) "div.multi-goods-selector-modal" (R.sleep 500 (R.click addButton none (R.sleep 100 (R.scrollIntoView addButton (findAddProductButton R s).st).2)).2)).2).st).1 with e | searchInput
              · simp [addProducts, addProducts.staged, addProducts.setup, addProducts.openModal, addProducts.searchInput, addProducts.save, Wrap, hk, hB, hSC, hCL, hM, hW, hSI]
              · rcases hL : (addProducts.loop R lower fuel modal searchInput (addProducts.keywords kws) (R.element modal (some 10000) "input[placeholder='搜索商品ID 或 商品名称']" (waitForProductListLoad R fuel modal (R.pageElement (some 15000) "div.multi-goods-selector-modal" (R.sleep 500 (R.click addButton none (R.sleep 100 (R.scrollIntoView addButton (findAddProductButton R s).st).2)).2)).2).st).2).val with _ | (_ | e)
                · simp [addProducts, addProducts.staged, addProducts.setup, addProducts.openModal, addProducts.searchInput, addProducts.save, Wrap, hk, hB, hSC, hCL, hM, hW, hSI, hL]
                · rcases hER : (R.elementR modal "div.d-modal-footer button" "保存" (addProducts.loop R lower fuel modal searchInput (addProducts.keywords kws) (R.element modal (some 10000) "input[placeholder='搜索商品ID 或 商品名称']" (waitForProductListLoad R fuel modal (R.pageElement (some 15000) "div.multi-goods-selector-modal" (R.sleep 500 (R.click addButton none (R.sleep 100 (R.scrollIntoView addButton (findAddProductButton R s).st).2)).2)).2).st).2).st).1 with e | saveButton
                  · simp [addProducts, addProducts.staged, addProducts.setup, addProducts.openModal, addProducts.searchInput, addProducts.save, Wrap, hk, hB, hSC, hCL, hM, hW, hSI, hL, hER]
                  · rcases hSCK : (R.click saveButton none (R.elementR modal "div.d-modal-footer button" "保存" (addProducts.loop R lower fuel modal searchInput (addProducts.keywords kws) (R.element modal (some 10000) "input[placeholder='搜索商品ID 或 商品名称']" (waitForProductListLoad R fuel modal (R.pageElement (some 15000) "div.multi-goods-selector-modal" (R.sleep 500 (R.click addButton none (R.sleep 100 (R.scrollIntoView addButton (findAddProductButton R s).st).2)).2)).2).st).2).st).2).1 with _ | e <;>
                      simp [addProducts, addProducts.staged, addProducts.setup, addProducts.openModal, addProducts.searchInput, addProducts.save, Wrap, hk, hB, hSC, hCL, hM, hW, hSI, hL, hER, hSCK]
                · simp [addProducts, addProducts.staged, addProducts.setup, addProducts.openModal, addProducts.searchInput, addProducts.save, Wrap, hk, hB, hSC, hCL, hM, hW, hSI, hL]
            · rcases hSI : (R.element modal (some 10000) "input[placeholder='搜索商品ID 或 商品名称']" (waitForProductListLoad R fuel modal (R.pageElement (some 15000) "div.multi-goods-selector-modal" (R.sleep 500 (R.click addButton none (R.sleep 100 (R.scrollIntoView addButton (findAddProductButton R s).st).2)).2)).2).st).1 with e | searchInput
              · simp [addProducts, addProducts.staged, addProducts.setup, addProducts.openModal, addProducts.searchInput, addProducts.save, Wrap, hk, hB, hSC, hCL, hM, hW, hSI]
              · rcases hL : (addProducts.loop R lower fuel modal searchInput (addProducts.keywords kws) (R.element modal (some 10000) "input[placeholder='搜索商品ID 或 商品名称']" (waitForProductListLoad R fuel modal (R.pageElement (some 15000) "div.multi-goods-selector-modal" (R.sleep 500 (R.click addButton none (R.sleep 100 (R.scrollIntoView addButton (findAddProductButton R s).st).2)).2)).2).st).2).val with _ | (_ | e)
                · simp [addProducts, addProducts.staged, addProducts.setup, addProducts.openModal, addProducts.searchInput, addProducts.save, Wrap, hk, hB, hSC, hCL, hM, hW, hSI, hL]
                · rcases hER : (R.elementR modal "div.d-modal-footer button" "保存" (addProducts.loop R lower fuel modal searchInput (addProducts.keywords kws) (R.element modal (some 10000) "input[placeholder='搜索商品ID 或 商品名称']" (waitForProductListLoad R fuel modal (R.pageElement (some 15000) "div.multi-goods-selector-modal" (R.sleep 500 (R.click addButton none (R.sleep 100 (R.scrollIntoView addButton (findAddProductButton R s).st).2)).2)).2).st).2).st).1 with e | saveButton
                  · simp [addProducts, addProducts.staged, addProducts.setup, addProducts.openModal, addProducts.searchInput, addProducts.save, Wrap, hk, hB, hSC, hCL, hM, hW, hSI, hL, hER]
                  · rcases hSCK : (R.click saveButton none (R.elementR modal "div.d-modal-footer button" "保存" (addProducts.loop R lower fuel modal searchInput (addProducts.keywords kws) (R.element modal (some 10000) "input[placeholder='搜索商品ID 或 商品名称']" (waitForProductListLoad R fuel modal (R.pageElement (some 15000) "div.multi-goods-selector-modal" (R.sleep 500 (R.click addButton none (R.sleep 100 (R.scrollIntoView addButton (findAddProductButton R s).st).2)).2)).2).st).2).st).2).1 with _ | e <;>
                      simp [addProducts, addProducts.staged, addProducts.setup, addProducts.openModal, addProducts.searchInput, addProducts.save, Wrap, hk, hB, hSC, hCL, hM, hW, hSI, hL, hER, hSCK]
                · simp [addProducts, addProducts.staged, addProducts.setup, addProducts.openModal, addProducts.searchInput, addProducts.save, Wrap, hk, hB, hSC, hCL, hM, hW, hSI, hL]
        · simp [addProducts, addProducts.staged, addProducts.setup, addProducts.openModal, addProducts.searchInput, addProducts.save, Wrap, hk, hB, hSC, hCL]
      · rcases hCL : (R.click addButton none (R.sleep 100 (R.scrollIntoView addButton (findAddProductButton R s).st).2)).1 with _ | e
        · rcases hM : (R.pageElement (some 15000) "div.multi-goods-selector-modal" (R.sleep 500 (R.click addButton none (R.sleep 100 (R.scrollIntoView addButton (findAddProductButton R s).st).2)).2)).1 with e | modal
          · simp [addProducts, addProducts.staged, addProducts.setup, addProducts.openModal, addProducts.searchInput, addProducts.save, Wrap, hk, hB, hSC, hCL, hM]
          · rcases hW : (waitForProductListLoad R fuel modal (R.pageElement (some 15000) "div.multi-goods-selector-modal" (R.sleep 500 (R.click addButton none (R.sleep 100 (R.scrollIntoView addButton (findAddProductButton R s).st).2)).2)).2).val with _ | (_ | e)
            · simp [addProducts, addProducts.staged, addProducts.setup, addProducts.openModal, addProducts.searchInput, addProducts.save, Wrap, hk, hB, hSC, hCL, hM, hW]
            · rcases hSI : (R.element modal (some 10000) "input[placeholder='搜索商品ID 或 商品名称']" (waitForProductListLoad R fuel modal (R.pageElement (some 15000) "div.multi-goods-selector-modal" (R.sleep 500 (R.click addButton none (R.sleep 100 (R.scrollIntoView addButton (findAddProductButton R s).st).2)).2)).2).st).1 with e | searchInput
              · simp [addProducts, addProducts.staged, addProducts.setup, addProducts.openModal, addProducts.searchInput, addProducts.save, Wrap, hk, hB, hSC, hCL, hM, hW, hSI]
              · rcases hL : (addProducts.loop R lower fuel modal searchInput (addProducts.keywords kws) (R.element modal (some 10000) "input[placeholder='搜索商品ID 或 商品名称']" (waitForProductListLoad R fuel modal (R.pageElement (some 15000) "div.multi-goods-selector-modal" (R.sleep 500 (R.click addButton none (R.sleep 100 (R.scrollIntoView addButton (findAddProductButton R s).st).2)).2)).2).st).2).val with _ | (_ | e)
                · simp [addProducts, addProducts.staged, addProducts.setup, addProducts.openModal, addProducts.searchInput, addProducts.save, Wrap, hk, hB, hSC, hCL, hM, hW, hSI, hL]
                · rcases hER : (R.elementR modal "div.d-modal-footer button" "保存" (addProducts.loop R lower fuel modal searchInput (addProducts.keywords kws) (R.element modal (some 10000) "input[placeholder='搜索商品ID 或 商品名称']" (waitForProductListLoad R fuel modal (R.pageElement (some 15000) "div.multi-goods-selector-modal" (R.sleep 500 (R.click addButton none (R.sleep 100 (R.scrollIntoView addButton (findAddProductButton R s).st).2)).2)).2).st).2).st).1 with e | saveButton
                  · simp [addProducts, addProducts.staged, addProducts.setup, addProducts.openModal, addProducts.searchInput, addProducts.save, Wrap, hk, hB, hSC, hCL, hM, hW, hSI, hL, hER]
                  · rcases hSCK : (R.click saveButton none (R.elementR modal "div.d-modal-footer button" "保存" (addProducts.loop R lower fuel modal searchInput (addProducts.keywords kws) (R.element modal (some 10000) "input[placeholder='搜索商品ID 或 商品名称']" (waitForProductListLoad R fuel modal (R.pageElement (some 15000) "div.multi-goods-selector-modal" (R.sleep 500 (R.click addButton none (R.sleep 100 (R.scrollIntoView addButton (findAddProductButton R s).st).2)).2)).2).st).2).st).2).1 with _ | e <;>
                      simp [addProducts, addProducts.staged, addProducts.setup, addProducts.openModal, addProducts.searchInput, addProducts.save, Wrap, hk, hB, hSC, hCL, hM, hW, hSI, hL, hER, hSCK]
                · simp [addProducts, addProducts.staged, addProducts.setup, addProducts.openModal, addProducts.searchInput, addProducts.save, Wrap, hk, hB, hSC, hCL, hM, hW, hSI, hL]
            · rcases hSI : (R.element modal (some 10000) "input[placeholder='搜索商品ID 或 商品名称']" (waitForProductListLoad R fuel modal (R.pageElement (some 15000) "div.multi-goods-selector-modal" (R.sleep 500 (R.click addButton none (R.sleep 100 (R.scrollIntoView addButton (findAddProductButton R s).st).2)).2)).2).st).1 with e | searchInput
              · simp [addProducts, addProducts.staged, addProducts.setup, addProducts.openModal, addProducts.searchInput, addProducts.save, Wrap, hk, hB, hSC, hCL, hM, hW, hSI]
              · rcases hL : (addProducts.loop R lower fuel modal searchInput (addProducts.keywords kws) (R.element modal (some 10000) "input[placeholder='搜索商品ID 或 商品名称']" (waitForProductListLoad R fuel modal (R.pageElement (some 15000) "div.multi-goods-selector-modal" (R.sleep 500 (R.click addButton none (R.sleep 100 (R.scrollIntoView addButton (findAddProductButton R s).st).2)).2)).2).st).2).val with _ | (_ | e)
                · simp [addProducts, addProducts.staged, addProducts.setup, addProducts.openModal, addProducts.searchInput, addProducts.save, Wrap, hk, hB, hSC, hCL, hM, hW, hSI, hL]
                · rcases hER : (R.elementR modal "div.d-modal-footer button" "保存" (addProducts.loop R lower fuel modal searchInput (addProducts.keywords kws) (R.element modal (some 10000) "input[placeholder='搜索商品ID 或 商品名称']" (waitForProductListLoad R fuel modal (R.pageElement (some 15000) "div.multi-goods-selector-modal" (R.sleep 500 (R.click addButton none (R.sleep 100 (R.scrollIntoView addButton (findAddProductButton R s).st).2)).2)).2).st).2).st).1 with e | saveButton
                  · simp [addProducts, addProducts.staged, addProducts.setup, addProducts.openModal, addProducts.searchInput, addProducts.save, Wrap, hk, hB, hSC, hCL, hM, hW, hSI, hL, hER]
                  · rcases hSCK : (R.click saveButton none (R.elementR modal "div.d-modal-footer button" "保存" (addProducts.loop R lower fuel modal searchInput (addProducts.keywords kws) (R.element modal (some 10000) "input[placeholder='搜索商品ID 或 商品名称']" (waitForProductListLoad R fuel modal (R.pageElement (some 15000) "div.multi-goods-selector-modal" (R.sleep 500 (R.click addButton none (R.sleep 100 (R.scrollIntoView addButton (findAddProductButton R s).st).2)).2)).2).st).2).st).2).1 with _ | e <;>
                      simp [addProducts, addProducts.staged, addProducts.setup, addProducts.openModal, addProducts.searchInput, addProducts.save, Wrap, hk, hB, hSC, hCL, hM, hW, hSI, hL, hER, hSCK]
                · simp [addProducts, addProducts.staged, addProducts.setup, addProducts.openModal, addProducts.searchInput, addProducts.save, Wrap, hk, hB, hSC, hCL, hM, hW, hSI, hL]
        · simp [addProducts, addProducts.staged, addProducts.setup, addProducts.openModal, addProducts.searchInput, addProducts.save, Wrap, hk, hB, hSC, hCL]

theorem addProducts_loop_success_iff {σ : Type} (R : Remote σ) (lower : String → String)
    (fuel : Nat) (modal searchInput : Elem) (kws : List String) :
    ∀ s : σ, (addProducts.loop R lower fuel modal searchInput kws s).val = some none ↔
      AllSelected R lower fuel modal searchInput kws s := by
  induction kws with
  | nil => intro s; simp [addProducts.loop, AllSelected]
  | cons kw rest ih =>
      intro s
      rcases h1 : (inputProductSearchKeyword R searchInput kw s).val with _ | e1
      · rcases h2 : (findProductCard R lower fuel modal kw
            (inputProductSearchKeyword R searchInput kw s).st).val with _ | (e2 | card)
        · simp [addProducts.loop, AllSelected, h1, h2]
        · simp [addProducts.loop, AllSelected, h1, h2, Wrapf]
        · rcases h3 : (ensureProductSelected R card (findProductCard R lower fuel modal kw
              (inputProductSearchKeyword R searchInput kw s).st).st).val with _ | e3
          · have hv : (addProducts.loop R lower fuel modal searchInput (kw :: rest) s).val
                = (addProducts.loop R lower fuel modal searchInput rest
                    (ensureProductSelected R card (findProductCard R lower fuel modal kw
                      (inputProductSearchKeyword R searchInput kw s).st).st).st).val := by
              simp [addProducts.loop, h1, h2, h3]
            rw [hv, ih]
            simp [AllSelected, h1, h2, h3]
          · simp [addProducts.loop, AllSelected, h1, h2, h3, Wrapf]
      · simp [addProducts.loop, AllSelected, h1, Wrapf]

theorem addProducts_setup_ok {σ : Type} (R : Remote σ) (fuel : Nat) (s : σ)
    (modal searchInput : Elem)
    (h : (addProducts.setup R fuel s).val = some (.ok (modal, searchInput))) :
    (addProducts.openModal R s).val = .ok modal ∧
    ∃ loaded,
      (waitForProductListLoad R fuel modal (addProducts.openModal R s).st).val = some loaded ∧
      (addProducts.searchInput R modal loaded
        (waitForProductListLoad R fuel modal (addProducts.openModal R s).st).st).val
          = .ok searchInput ∧
      (addProducts.setup R fuel s).trace
        = (addProducts.openModal R s).trace ++
          ((waitForProductListLoad R fuel modal (addProducts.openModal R s).st).trace ++
            (addProducts.searchInput R modal loaded
              (waitForProductListLoad R fuel modal (addProducts.openModal R s).st).st).trace) ∧
      (∀ err, loaded = some err →
        Event.log "warn" ("等待商品列表加载失败: " ++ err.Error)
          ∈ (addProducts.searchInput R modal loaded
              (waitForProductListLoad R fuel modal (addProducts.openModal R s).st).st).trace) := by
  rcases hO : (addProducts.openModal R s).val with e | m
  · simp [addProducts.setup, hO] at h
  · rcases hW : (waitForProductListLoad R fuel m (addProducts.openModal R s).st).val
      with _ | loaded
    · simp [addProducts.setup, hO, hW] at h
    · rcases hS : (addProducts.searchInput R m loaded
        (waitForProductListLoad R fuel m (addProducts.openModal R s).st).st).val with e | si
      · simp [addProducts.setup, hO, hW, hS] at h
      · have hv : (addProducts.setup R fuel s).val = some (.ok (m, si)) := by
          simp [addProducts.setup, hO, hW, hS]
        rw [hv] at h
        simp only [Option.some.injEq, Except.ok.injEq, Prod.mk.injEq] at h
        obtain ⟨rfl, rfl⟩ := h
        refine ⟨rfl, loaded, hW, hS, ?_, ?_⟩
        · simp [addProducts.setup, hO, hW, hS]
        · rintro err rfl
          simp [addProducts.searchInput]

theorem addProducts_staged_nil {σ : Type} (R : Remote σ) (lower : String → String) (fuel : Nat)
    (kws : List String) (s : σ) (hk : (addProducts.keywords kws).length = 0) :
    addProducts R lower fuel kws s = ⟨some none, [], s⟩ := by
  rw [addProducts_eq_staged]
  simp [addProducts.staged, hk]

theorem addProducts_staged_fail {σ : Type} (R : Remote σ) (lower : String → String)
    (fuel : Nat) (kws : List String) (s : σ) (hk : ¬ (addProducts.keywords kws).length = 0)
    (h : ∀ modal searchInput, (addProducts.setup R fuel s).val
      ≠ some (.ok (modal, searchInput))) :
    (addProducts R lower fuel kws s).trace = (addProducts.setup R fuel s).trace ∧
    (addProducts R lower fuel kws s).val ≠ some none := by
  rw [addProducts_eq_staged]
  rcases hS : (addProducts.setup R fuel s).val with _ | (e | ⟨m, si⟩)
  · simp [addProducts.staged, hk, hS]
  · simp [addProducts.staged, hk, hS]
  · exact absurd hS (h m si)

theorem addProducts_staged_ok {σ : Type} (R : Remote σ) (lower : String → String)
    (fuel : Nat) (kws : List String) (s : σ) (hk : ¬ (addProducts.keywords kws).length = 0)
    (modal searchInput : Elem)
    (h : (addProducts.setup R fuel s).val = some (.ok (modal, searchInput))) :
    ((addProducts.loop R lower fuel modal searchInput (addProducts.keywords kws)
        (addProducts.setup R fuel s).st).val = some none →
      (addProducts R lower fuel kws s).trace
        = (addProducts.setup R fuel s).trace ++
          ((addProducts.loop R lower fuel modal searchInput (addProducts.keywords kws)
              (addProducts.setup R fuel s).st).trace ++
            (addProducts.save R fuel modal
              (addProducts.loop R lower fuel modal searchInput (addProducts.keywords kws)
                (addProducts.setup R fuel s).st).st).trace) ∧
      (addProducts R lower fuel kws s).val
        = (addProducts.save R fuel modal
            (addProducts.loop R lower fuel modal searchInput (addProducts.keywords kws)
              (addProducts.setup R fuel s).st).st).val) ∧
    ((addProducts.loop R lower fuel modal searchInput (addProducts.keywords kws)
        (addProducts.setup R fuel s).st).val ≠ some none →
      (addProducts R lower fuel kws s).trace
        = (addProducts.setup R fuel s).trace ++
          (addProducts.loop R lower fuel modal searchInput (addProducts.keywords kws)
              (addProducts.setup R fuel s).st).trace ∧
      (addProducts R lower fuel kws s).val
        = (addProducts.loop R lower fuel modal searchInput (addProducts.keywords kws)
            (addProducts.setup R fuel s).st).val) := by
  rw [addProducts_eq_staged]
  rcases hL : (addProducts.loop R lower fuel modal searchInput (addProducts.keywords kws)
      (addProducts.setup R fuel s).st).val with _ | (_ | e) <;>
    simp [addProducts.staged, hk, h, hL]

/-! ### Action retry engine -/

/-- C1. When the checkbox input of the card resolves and the checked-state probe reports
true at the call, `ensureProductSelected` returns nil and calls no strategy:
the number of strategy calls in its trace is 0. -/
theorem ensureProductSelected_idempotent {σ : Type} (R : Remote σ) (card inp : Elem) (s : σ)
    (hres : (R.element card none "input[type='checkbox']" s).1 = .ok inp)
    (hchk : (R.eval inp Script.isChecked (R.eval inp Script.hasContent
      (R.element card none "input[type='checkbox']" s).2).2).1 = .ok true) :
    (ensureProductSelected R card s).val = none ∧
    (strategyCalls (ensureProductSelected R card s).trace).length = 0 := by
  by_cases h1 : (R.eval inp Script.hasContent
      (R.element card none "input[type='checkbox']" s).2).1 = .ok false
  · simp [ensureProductSelected, hres, h1, strategyCalls]
  · simp [ensureProductSelected, hres, h1, probeChecked, hchk, checkedOk, strategyCalls]

/-- Witness of C1: a card whose checkbox is checked already. -/
theorem ensureProductSelected_idempotent_witness :
    (ensureProductSelected stubbornPage 1 ⟨0, true⟩).val = none ∧
    (strategyCalls (ensureProductSelected stubbornPage 1 ⟨0, true⟩).trace).length = 0 :=
  ensureProductSelected_idempotent stubbornPage 1 2 ⟨0, true⟩ (by decide) (by decide)

/-- C2 (the code at the failing input). On `stubbornPage` the probe never reports checked
and every strategy returns nil: all 12 strategy calls are made, line 255 is
reached with a nil `lastErr`, and `ensureProductSelected` returns nil, not an
error. -/
theorem ensureProductSelected_exhausted_nil :
    (∀ ev ∈ (ensureProductSelected stubbornPage 1 Page.start).trace, isCheckedTrue ev = false) ∧
    strategyCalls (ensureProductSelected stubbornPage 1 Page.start).trace
      = [0, 1, 2, 3, 0, 1, 2, 3, 0, 1, 2, 3] ∧
    Event.exhausted none ∈ (ensureProductSelected stubbornPage 1 Page.start).trace ∧
    (ensureProductSelected stubbornPage 1 Page.start).val = none := by
  decide

/-- C4. For every behaviour of the page, `ensureProductSelected` (a total function: it
returns from every state) enters the retry loop body at most 3 times, calls
each strategy at most 3 times and makes at most 12 strategy calls, all of
them of the four strategies. -/
theorem ensureProductSelected_bounded {σ : Type} (R : Remote σ) (card : Elem) (s : σ) :
    (attemptsOf (ensureProductSelected R card s).trace).length ≤ 3 ∧
    (∀ i, (strategyCalls (ensureProductSelected R card s).trace).count i ≤ 3) ∧
    (strategyCalls (ensureProductSelected R card s).trace).length ≤ 12 ∧
    (∀ i ∈ strategyCalls (ensureProductSelected R card s).trace, i < 4) := by
  have h := (ensureProductSelected_run R card s).select_calls
  refine ⟨h.2.length_le, fun i => ?_, h.1.length_le, fun i hi => ?_⟩
  · refine (h.1.sublist.count_le i).trans ?_
    rcases i with _ | _ | _ | _ | i <;> simp [List.count_cons]
  · have := h.1.subset hi
    simp only [List.mem_cons, List.mem_singleton, List.not_mem_nil, or_false] at this
    omega

/-- C5. The strategies are called in the order of the list (click the checkbox area,
synthetic click on the input, click the visible indicator, force the checked
state), one pass after the other; and a checked-state probe that reports
true is the last event of the run, which then returns nil: no strategy and no
pass follows it. -/
theorem ensureProductSelected_ordered_stop {σ : Type} (R : Remote σ) (card : Elem) (s : σ) :
    (∀ inp area, strategies R card inp area
      = [clickCheckboxArea R area, clickInput R inp, clickVisibleIndicator R card,
          forceChecked R inp]) ∧
    strategyCalls (ensureProductSelected R card s).trace
      <+: [0, 1, 2, 3, 0, 1, 2, 3, 0, 1, 2, 3] ∧
    (∀ pre ev post, (ensureProductSelected R card s).trace = pre ++ ev :: post →
      isCheckedTrue ev = true → post = [] ∧ (ensureProductSelected R card s).val = none) := by
  have h := ensureProductSelected_run R card s
  refine ⟨fun _ _ => rfl, h.select_calls.1, fun pre ev post ht hev => ⟨h.select_stops.1 pre ev post ht hev, ?_⟩⟩
  exact h.select_stops.2 ⟨ev, by rw [ht]; simp, hev⟩

/-- Witness of C5: on `clickablePage` the first strategy has nothing to click, the second
checks the box; the probe after it ends the run. -/
theorem ensureProductSelected_ordered_stop_witness :
    strategyCalls (ensureProductSelected clickablePage 1 Page.start).trace = [0, 1] ∧
    (ensureProductSelected clickablePage 1 Page.start).trace.drop 20 = [] ∧
    (ensureProductSelected clickablePage 1 Page.start).val = none :=
  ⟨by decide,
    (ensureProductSelected_ordered_stop clickablePage 1 Page.start).2.2
      ((ensureProductSelected clickablePage 1 Page.start).trace.take 19)
      (Event.eval 2 Script.isChecked (.ok true))
      ((ensureProductSelected clickablePage 1 Page.start).trace.drop 20)
      (by decide) (by decide)⟩

/-- C6 (counterexample). On `clickFailsPage` the first strategy returns an error, and the
second strategy is called right after the log line: no checked-state probe
is evaluated between the two strategy calls. -/
theorem ensureProductSelected_recheck_counterexample :
    [Event.strategyDone 0 (some (Err.msg "element covered")),
      Event.log "debug" "尝试切换商品勾选状态失败: element covered",
      Event.strategy 1] <:+: (ensureProductSelected clickFailsPage 1 Page.start).trace := by
  decide

/-- C6 (amended). For every behaviour of the page: a strategy call that returns without
error is followed at once by the settle sleep of 200 ms and a checked-state
probe, before anything else happens, in particular before the next strategy
is called. A strategy call that returns an error is followed at once by the
log line of the error, and by no settle sleep and no probe: what comes next
is the call of the next strategy of the pass or, after the last strategy
(index 3), the sleep of 300 ms that ends the pass; after that sleep either
the next pass begins with its own checked-state probe (line 234), or the
passes are exhausted and line 255 is reached with this error as `lastErr`. -/
theorem ensureProductSelected_recheck_by_outcome {σ : Type} (R : Remote σ) (card : Elem) (s : σ)
    (pre post : List Event) (i : Nat) (err : Option Err)
    (h : (ensureProductSelected R card s).trace = pre ++ Event.strategyDone i err :: post) :
    (err = none →
      ∃ el r rest, post = Event.sleep 200 :: Event.eval el Script.isChecked r :: rest) ∧
    (∀ e, err = some e →
      ∃ rest, post = Event.log "debug" ("尝试切换商品勾选状态失败: " ++ e.Error) :: rest ∧
        ((∃ rest2, rest = Event.strategy (i + 1) :: rest2) ∨
          (i = 3 ∧ ∃ rest2, rest = Event.sleep 300 :: rest2 ∧
            (rest2 = [Event.exhausted (some e)] ∨
              ∃ a el r rest3,
                rest2 = Event.attempt a :: Event.eval el Script.isChecked r :: rest3)))) := by
  constructor
  · rintro rfl
    exact (ensureProductSelected_run R card s).select_rechecks pre (Event.strategyDone i none)
      post h rfl
  · rintro e rfl
    obtain ⟨rest, h1, h2⟩ := (ensureProductSelected_run R card s).select_skips i e pre
      (Event.strategyDone i (some e)) post h (by simp)
    refine ⟨rest, h1, ?_⟩
    rcases h2 with h2 | ⟨h2, h3⟩
    · exact Or.inl h2
    · exact Or.inr ⟨by omega, h3⟩

set_option maxRecDepth 100000 in
/-- Witness of C6 (amended): on `stubbornPage` the first strategy call returns nil and is
followed by the sleep and the probe; on `clickFailsPage` it returns an error
and is followed by the log line and the second strategy; on `forceFailsPage`
the last strategy of the first pass returns an error and is followed by the
log line and the sleep that ends the pass. -/
theorem ensureProductSelected_recheck_by_outcome_witness :
    (∃ el r rest, (ensureProductSelected stubbornPage 1 Page.start).trace.drop 11
      = Event.sleep 200 :: Event.eval el Script.isChecked r :: rest) ∧
    (∃ rest, (ensureProductSelected clickFailsPage 1 Page.start).trace.drop 11
        = Event.log "debug" ("尝试切换商品勾选状态失败: " ++ (Err.msg "element covered").Error)
          :: rest ∧
      ((∃ rest2, rest = Event.strategy (0 + 1) :: rest2) ∨
        (0 = 3 ∧ ∃ rest2, rest = Event.sleep 300 :: rest2 ∧
          (rest2 = [Event.exhausted (some (Err.msg "element covered"))] ∨
            ∃ a el r rest3,
              rest2 = Event.attempt a :: Event.eval el Script.isChecked r :: rest3)))) ∧
    (∃ rest, (ensureProductSelected forceFailsPage 1 Page.start).trace.drop 29
        = Event.log "debug"
            ("尝试切换商品勾选状态失败: " ++ (Err.msg "execution context was destroyed").Error)
          :: rest ∧
      ((∃ rest2, rest = Event.strategy (3 + 1) :: rest2) ∨
        (3 = 3 ∧ ∃ rest2, rest = Event.sleep 300 :: rest2 ∧
          (rest2 = [Event.exhausted (some (Err.msg "execution context was destroyed"))] ∨
            ∃ a el r rest3,
              rest2 = Event.attempt a :: Event.eval el Script.isChecked r :: rest3)))) :=
  ⟨(ensureProductSelected_recheck_by_outcome stubbornPage 1 Page.start
      ((ensureProductSelected stubbornPage 1 Page.start).trace.take 10)
      ((ensureProductSelected stubbornPage 1 Page.start).trace.drop 11) 0 none
      (by decide)).1 rfl,
    (ensureProductSelected_recheck_by_outcome clickFailsPage 1 Page.start
      ((ensureProductSelected clickFailsPage 1 Page.start).trace.take 10)
      ((ensureProductSelected clickFailsPage 1 Page.start).trace.drop 11) 0
      (some (Err.msg "element covered")) (by decide)).2 (Err.msg "element covered") rfl,
    (ensureProductSelected_recheck_by_outcome forceFailsPage 1 Page.start
      ((ensureProductSelected forceFailsPage 1 Page.start).trace.take 28)
      ((ensureProductSelected forceFailsPage 1 Page.start).trace.drop 29) 3
      (some (Err.msg "execution context was destroyed")) (by decide)).2
      (Err.msg "execution context was destroyed") rfl⟩

/-- The pass boundary on `forceFailsPage`: the failed last strategy of the first pass is
followed by the log line, the sleep of 300 ms, and the probe that opens the
second pass, before the first strategy is called again. -/
theorem forceFailsPage_pass_boundary :
    ((ensureProductSelected forceFailsPage 1 Page.start).trace.drop 28).take 6
      = [Event.strategyDone 3 (some (Err.msg "execution context was destroyed")),
          Event.log "debug" "尝试切换商品勾选状态失败: execution context was destroyed",
          Event.sleep 300, Event.attempt 1, Event.eval 2 Script.isChecked (.ok false),
          Event.strategy 0] := by
  decide

/-! ### Product attachment -/

/-- C3 (counterexample). On `emptyBoxPage` the only non-blank keyword is `tea`; its card is
found, the content probe on the checkbox input answers false and the product
is skipped: `addProducts` returns nil although no checked-state probe ever
reported true. -/
theorem addProducts_skip_counterexample :
    addProducts.keywords ["  tea ", " "] = ["tea"] ∧
    (addProducts emptyBoxPage asciiLower 60 ["  tea ", " "] Page.start).val = some none ∧
    ¬ ∃ card, CheckedObserved
      (addProducts emptyBoxPage asciiLower 60 ["  tea ", " "] Page.start).trace card := by
  refine ⟨by decide, by decide, ?_⟩
  rintro ⟨card, inp, -, h⟩
  have hall : ∀ ev ∈ (addProducts emptyBoxPage asciiLower 60 ["  tea ", " "] Page.start).trace,
      isCheckedTrue ev = false := by decide
  exact absurd (hall _ h) (by simp [isCheckedTrue])

/-- C3 (amended). If `addProducts` returns nil and no selection left the retry loop by
exhaustion, then for every non-blank keyword a matching card was resolved,
and on that card `ensureProductSelected` either saw the checkbox checked or
found the checkbox element empty and skipped the product (lines 179-182). -/
theorem addProducts_success_selected {σ : Type} (R : Remote σ) (lower : String → String)
    (fuel : Nat) (kws : List String) (s : σ)
    (hret : (addProducts R lower fuel kws s).val = some none)
    (hx : Event.exhausted none ∉ (addProducts R lower fuel kws s).trace) :
    ∀ k ∈ addProducts.keywords kws, ∃ card,
      CardResolved lower (addProducts R lower fuel kws s).trace k card ∧
      (CheckedObserved (addProducts R lower fuel kws s).trace card ∨
        SkippedEmpty (addProducts R lower fuel kws s).trace card) := by
  intro k hk
  have hne : ¬ (addProducts.keywords kws).length = 0 := by
    intro h0
    rw [List.length_eq_zero] at h0
    rw [h0] at hk
    cases hk
  obtain ⟨modal, searchInput, s2, hval, hsub⟩ := addProducts_loop_sub R lower fuel kws s hne hret
  obtain ⟨card, h1, h2⟩ := addProducts_loop_selected R lower fuel modal searchInput
    (addProducts.keywords kws) s2 hval (fun h => hx (hsub _ h)) k hk
  exact ⟨card, h1.mono_resolved hsub, h2.elim (fun h => Or.inl (h.mono_checked hsub))
    (fun h => Or.inr (h.mono_skipped hsub))⟩

/-- Witness of C3 (amended): on `shopPage` the product of the keyword `tea` is found and its
checkbox is seen checked after the synthetic click. -/
theorem addProducts_success_selected_witness :
    ∃ card,
      CardResolved asciiLower
        (addProducts shopPage asciiLower 60 ["  tea ", " "] Page.start).trace "tea" card ∧
      (CheckedObserved (addProducts shopPage asciiLower 60 ["  tea ", " "] Page.start).trace card ∨
        SkippedEmpty (addProducts shopPage asciiLower 60 ["  tea ", " "] Page.start).trace card) :=
  addProducts_success_selected shopPage asciiLower 60 ["  tea ", " "] Page.start
    (by decide) (by decide) "tea" (by decide)

/-! ### Visibility oracle -/

/-- C7. An element whose `style` attribute is read as a string containing `left: -9999px`
is classified not visible, and the visibility query is not sent: the only
operation performed is the attribute read, whatever `R.visible` would answer
(true, false or an error). -/
theorem isElementVisible_offscreen {σ : Type} (R : Remote σ) (elem : Elem) (s : σ)
    (styleStr : String) (hstyle : (R.attr elem "style" s).1 = .ok (some styleStr))
    (hleft : Contains styleStr "left: -9999px" = true) :
    (isElementVisible R elem s).val = false ∧
    (isElementVisible R elem s).trace = [Event.attr elem "style" (.ok (some styleStr))] ∧
    (isElementVisible R elem s).st = (R.attr elem "style" s).2 := by
  simp [isElementVisible, hstyle, styleRejects, styleHides, hleft]

/-- Witness of C7: an off-screen decoy whose visibility query would fail. -/
theorem isElementVisible_offscreen_witness :
    (isElementVisible (styledPage "position: absolute; left: -9999px; top: 0"
      (.error (Err.msg "context canceled"))) 7 Page.start).val = false ∧
    (isElementVisible (styledPage "position: absolute; left: -9999px; top: 0"
      (.error (Err.msg "context canceled"))) 7 Page.start).trace
      = [Event.attr 7 "style" (.ok (some "position: absolute; left: -9999px; top: 0"))] ∧
    (isElementVisible (styledPage "position: absolute; left: -9999px; top: 0"
      (.error (Err.msg "context canceled"))) 7 Page.start).st = Page.start :=
  isElementVisible_offscreen _ 7 Page.start "position: absolute; left: -9999px; top: 0" rfl
    (by decide)

/-- C8 (counterexample). The visibility query of element 7 fails with an error in every
state, yet the element, whose inline style is `left: -9999px`, is classified
not visible. -/
theorem isElementVisible_error_counterexample :
    (∀ s : Page, ((styledPage "left: -9999px" (.error (Err.msg "context canceled"))).visible 7 s).1
        = .error (Err.msg "context canceled")) ∧
    (isElementVisible (styledPage "left: -9999px" (.error (Err.msg "context canceled"))) 7
      Page.start).val = false :=
  ⟨fun _ => rfl, by decide⟩

/-- C8 (amended). An element that the inline-style test does not reject (the attribute
read fails, the attribute is absent, or its text has none of the five
patterns) and whose visibility query fails with an error is classified
visible. -/
theorem isElementVisible_error_visible {σ : Type} (R : Remote σ) (elem : Elem) (s : σ) (e : Err)
    (hstyle : styleRejects (R.attr elem "style" s).1 = false)
    (hvis : (R.visible elem (R.attr elem "style" s).2).1 = .error e) :
    (isElementVisible R elem s).val = true := by
  simp [isElementVisible, hstyle, hvis]

/-- Witness of C8 (amended): a plainly styled element whose visibility query fails. -/
theorem isElementVisible_error_visible_witness :
    (isElementVisible (styledPage "color: red" (.error (Err.msg "context canceled"))) 7
      Page.start).val = true :=
  isElementVisible_error_visible _ 7 Page.start (Err.msg "context canceled") (by decide) rfl

/-- C9 (counterexample). The inline style `display:none`, written without a space, is not
matched by the style test: with the visibility query answering true the
element is classified visible. -/
theorem isElementVisible_inline_counterexample :
    ((styledPage "display:none" (.ok true)).attr 7 "style" Page.start).1
      = .ok (some "display:none") ∧
    ((styledPage "display:none" (.ok true)).visible 7 Page.start).1 = .ok true ∧
    (isElementVisible (styledPage "display:none" (.ok true)) 7 Page.start).val = true :=
  ⟨rfl, rfl, by decide⟩

/-- C9 (amended). An element whose `style` attribute is read as a string containing
`display: none` or `visibility: hidden`, spelled with one space after the
colon, is classified not visible, whatever the visibility query answers. -/
theorem isElementVisible_inline_hidden {σ : Type} (R : Remote σ) (elem : Elem) (s : σ)
    (styleStr : String) (hstyle : (R.attr elem "style" s).1 = .ok (some styleStr))
    (hhide : Contains styleStr "display: none" = true ∨
      Contains styleStr "visibility: hidden" = true) :
    (isElementVisible R elem s).val = false := by
  rcases hhide with h | h <;> simp [isElementVisible, hstyle, styleRejects, styleHides, h]

/-- Witness of C9 (amended): `visibility: hidden` with the visibility query answering true. -/
theorem isElementVisible_inline_hidden_witness :
    (isElementVisible (styledPage "color: red; visibility: hidden" (.ok true)) 7
      Page.start).val = false :=
  isElementVisible_inline_hidden _ 7 Page.start "color: red; visibility: hidden" rfl
    (Or.inr (by decide))

/-! ### Element resolution -/

/-- C10. The function `findCheckboxArea` returns the element of the first of the three
selectors `.d-checkbox-main`, `.d-checkbox`, `.product-select-area` whose
lookup succeeds, each lookup made in the state the one before left; it
returns an error if and only if all three lookups fail, and then no
element. -/
theorem findCheckboxArea_first_match {σ : Type} (R : Remote σ) (card : Elem) (s : σ) :
    findCheckboxArea.selectors = [".d-checkbox-main", ".d-checkbox", ".product-select-area"] ∧
    (findCheckboxArea R card s).val =
      (match (R.element card none ".d-checkbox-main" s).1 with
       | .ok elem => (some elem, none)
       | .error _ =>
         match (R.element card none ".d-checkbox"
            (R.element card none ".d-checkbox-main" s).2).1 with
         | .ok elem => (some elem, none)
         | .error _ =>
           match (R.element card none ".product-select-area"
              (R.element card none ".d-checkbox"
                (R.element card none ".d-checkbox-main" s).2).2).1 with
           | .ok elem => (some elem, none)
           | .error _ => (none, some (Err.msg "未找到复选框选择区域"))) ∧
    ((findCheckboxArea R card s).val.2 ≠ none ↔
      ((∃ e, (R.element card none ".d-checkbox-main" s).1 = .error e) ∧
        (∃ e, (R.element card none ".d-checkbox"
          (R.element card none ".d-checkbox-main" s).2).1 = .error e) ∧
        (∃ e, (R.element card none ".product-select-area"
          (R.element card none ".d-checkbox"
            (R.element card none ".d-checkbox-main" s).2).2).1 = .error e))) ∧
    ((findCheckboxArea R card s).val.2 ≠ none ↔ (findCheckboxArea R card s).val.1 = none) := by
  refine ⟨rfl, ?_⟩
  simp only [findCheckboxArea, findCheckboxArea.selectors, findCheckboxArea.loop, Prog.bind_run,
    Prog.op_run]
  cases h0 : (R.element card none ".d-checkbox-main" s).1 <;> simp
  cases h1 : (R.element card none ".d-checkbox" (R.element card none ".d-checkbox-main" s).2).1
    <;> simp
  cases h2 : (R.element card none ".product-select-area"
    (R.element card none ".d-checkbox" (R.element card none ".d-checkbox-main" s).2).2).1 <;> simp

/-- C11. The function `findAddProductButton` returns the element of
`div.multi-good-select-empty-btn button` when that lookup succeeds, else the
element of `div.multi-good-select-add-btn button` when that lookup succeeds,
else exactly the answer (element or error) of the text-match lookup of a
`button` labelled `添加商品`; the trace shows that no later lookup is made
once one has succeeded, so the fallback is consulted only after both
selectors failed. -/
theorem findAddProductButton_priority {σ : Type} (R : Remote σ) (s : σ) :
    (findAddProductButton R s).val =
      (match (R.pageElement none "div.multi-good-select-empty-btn button" s).1 with
       | .ok elem => .ok elem
       | .error _ =>
         match (R.pageElement none "div.multi-good-select-add-btn button"
            (R.pageElement none "div.multi-good-select-empty-btn button" s).2).1 with
         | .ok elem => .ok elem
         | .error _ =>
           (R.pageElementR "button" "添加商品"
              (R.pageElement none "div.multi-good-select-add-btn button"
                (R.pageElement none "div.multi-good-select-empty-btn button" s).2).2).1) ∧
    (findAddProductButton R s).trace =
      (match (R.pageElement none "div.multi-good-select-empty-btn button" s).1 with
       | .ok elem => [Event.pageElement none "div.multi-good-select-empty-btn button" (.ok elem)]
       | .error e1 =>
         match (R.pageElement none "div.multi-good-select-add-btn button"
            (R.pageElement none "div.multi-good-select-empty-btn button" s).2).1 with
         | .ok elem =>
             [Event.pageElement none "div.multi-good-select-empty-btn button" (.error e1),
              Event.pageElement none "div.multi-good-select-add-btn button" (.ok elem)]
         | .error e2 =>
             [Event.pageElement none "div.multi-good-select-empty-btn button" (.error e1),
              Event.pageElement none "div.multi-good-select-add-btn button" (.error e2),
              Event.pageElementR "button" "添加商品"
                (R.pageElementR "button" "添加商品"
                  (R.pageElement none "div.multi-good-select-add-btn button"
                    (R.pageElement none "div.multi-good-select-empty-btn button" s).2).2).1]) := by
  simp only [findAddProductButton, findAddProductButton.loop, Prog.bind_run, Prog.op_run]
  cases h0 : (R.pageElement none "div.multi-good-select-empty-btn button" s).1 <;> simp
  cases h1 : (R.pageElement none "div.multi-good-select-add-btn button"
    (R.pageElement none "div.multi-good-select-empty-btn button" s).2).1 <;> simp

/-! ### Wait / poll primitives -/

/-- C12. With a clock that every sleep advances by its length at least and that no
operation turns back, on a page where the awaited condition never holds each
poll loop returns its timeout error (given the fuel for its passes), after at
most 25 presence probes for `waitForModalClose` (5 s, 200 ms), at most 50
passes of two list queries for `waitForProductListLoad` (10 s, 200 ms) and at
most 34 list queries for `findProductCard` (10 s, 300 ms); the time it has
asked to sleep is less than its deadline plus one poll interval. -/
theorem poll_loops_time_out {σ : Type} (R : Remote σ) (hclock : Clocked R)
    (lower : String → String) (modal : Elem) (keyword : String) (fuel : Nat) (s : σ) :
    (26 ≤ fuel → (∀ s1, (R.pageHas "div.multi-goods-selector-modal" s1).1 ≠ .ok false) →
      (waitForModalClose R fuel s).val = some (some (Err.msg "关闭商品选择弹窗超时")) ∧
      kindCount Kind.pageHas (waitForModalClose R fuel s).trace ≤ 25 ∧
      sleepTotal (waitForModalClose R fuel s).trace < 5000 + 200) ∧
    (51 ≤ fuel → (∀ s1, (waitForProductListLoad.probe R modal s1).val = none) →
      (waitForProductListLoad R fuel modal s).val
        = some (some (Err.msg "等待商品列表加载超时")) ∧
      kindCount Kind.elements (waitForProductListLoad R fuel modal s).trace ≤ 2 * 50 ∧
      sleepTotal (waitForProductListLoad R fuel modal s).trace < 10000 + 200) ∧
    (35 ≤ fuel →
      (∀ s1, (findProductCard.probe R lower modal (lower keyword) s1).val = none) →
      (findProductCard R lower fuel modal keyword s).val
        = some (.error (Err.msg ("未找到商品: " ++ keyword))) ∧
      kindCount Kind.elements (findProductCard R lower fuel modal keyword s).trace ≤ 34 ∧
      sleepTotal (findProductCard R lower fuel modal keyword s).trace < 10000 + 300) := by
  refine ⟨fun hfuel hnever => ?_, fun hfuel hnever => ?_, fun hfuel hnever => ?_⟩
  · obtain ⟨n, hn, heq⟩ := pollUntil_never R (waitForModalClose.probe R) 200 (R.now s + 5000)
      (fun _ => (none : Option Err)) (some (Err.msg "关闭商品选择弹窗超时")) (by decide)
      (hclock.sleep_adv 200) (waitForModalClose_probe_advances hclock)
      (fun s1 => waitForModalClose_probe_none R s1 (hnever s1)) fuel s (by omega)
    have hrun : waitForModalClose R fuel s
        = ⟨some (some (Err.msg "关闭商品选择弹窗超时")),
            pollTrace R (waitForModalClose.probe R) 200 n s,
            pollState R (waitForModalClose.probe R) 200 n s⟩ := by
      simp [waitForModalClose, waitForModalClose_poll_eq, heq]
    have hk := weigh_pollTrace R (waitForModalClose.probe R) 200
      (fun ev => if ev.kind = Kind.pageHas then 1 else 0) 1
      (waitForModalClose_probe_weigh R _ 1 (fun _ _ => rfl)) n s
    have hs := weigh_pollTrace R (waitForModalClose.probe R) 200 sleepMs 0
      (waitForModalClose_probe_weigh R _ 0 (fun _ _ => rfl)) n s
    rw [hrun]
    refine ⟨rfl, ?_, ?_⟩
    · show weigh _ _ ≤ 25
      rw [hk]
      simp [Event.kind]
      omega
    · show weigh sleepMs _ < 5000 + 200
      rw [hs]
      simp [sleepMs]
      omega
  · obtain ⟨n, hn, heq⟩ := pollUntil_never R (waitForProductListLoad.probe R modal) 200
      (R.now s + 10000) (fun _ => (none : Option Err)) (some (Err.msg "等待商品列表加载超时"))
      (by decide) (hclock.sleep_adv 200) (waitForProductListLoad_probe_advances hclock modal)
      hnever fuel s (by omega)
    have hrun : waitForProductListLoad R fuel modal s
        = ⟨some (some (Err.msg "等待商品列表加载超时")),
            pollTrace R (waitForProductListLoad.probe R modal) 200 n s,
            pollState R (waitForProductListLoad.probe R modal) 200 n s⟩ := by
      simp [waitForProductListLoad, waitForProductListLoad_poll_eq, heq]
    have hk := weigh_pollTrace R (waitForProductListLoad.probe R modal) 200
      (fun ev => if ev.kind = Kind.elements then 1 else 0) (2 * 1)
      (fun s1 => waitForProductListLoad_probe_weigh R modal _ 1 (fun _ _ _ => rfl)
        (fun ev hev => by
          simp only [List.mem_cons, List.mem_singleton, List.not_mem_nil, or_false] at hev
          rcases hev with h | h | h <;> simp [h]) s1 (hnever s1)) n s
    have hs := weigh_pollTrace R (waitForProductListLoad.probe R modal) 200 sleepMs (2 * 0)
      (fun s1 => waitForProductListLoad_probe_weigh R modal _ 0 (fun _ _ _ => rfl)
        (fun ev hev => by
          cases ev <;> first | rfl | simp [Event.kind] at hev) s1 (hnever s1)) n s
    rw [hrun]
    refine ⟨rfl, ?_, ?_⟩
    · show weigh _ _ ≤ 2 * 50
      rw [hk]
      simp [Event.kind]
      omega
    · show weigh sleepMs _ < 10000 + 200
      rw [hs]
      simp [sleepMs]
      omega
  · obtain ⟨n, hn, heq⟩ := pollUntil_never R (findProductCard.probe R lower modal (lower keyword))
      300 (R.now s + 10000) (fun card => (Except.ok card : Except Err Elem))
      (.error (Err.msg ("未找到商品: " ++ keyword)))
      (by decide) (hclock.sleep_adv 300)
      (findProductCard_probe_advances hclock lower modal (lower keyword))
      hnever fuel s (by omega)
    have hrun : findProductCard R lower fuel modal keyword s
        = ⟨some (.error (Err.msg ("未找到商品: " ++ keyword))),
            pollTrace R (findProductCard.probe R lower modal (lower keyword)) 300 n s,
            pollState R (findProductCard.probe R lower modal (lower keyword)) 300 n s⟩ := by
      simp [findProductCard, findProductCard_poll_eq, heq]
    have hk := weigh_pollTrace R (findProductCard.probe R lower modal (lower keyword)) 300
      (fun ev => if ev.kind = Kind.elements then 1 else 0) 1
      (findProductCard_probe_weigh R lower modal (lower keyword) _ 1 (fun _ _ _ => rfl)
        (fun ev hev => by
          simp only [List.mem_cons, List.mem_singleton, List.not_mem_nil, or_false] at hev
          rcases hev with h | h <;> simp [h])) n s
    have hs := weigh_pollTrace R (findProductCard.probe R lower modal (lower keyword)) 300
      sleepMs 0
      (findProductCard_probe_weigh R lower modal (lower keyword) _ 0 (fun _ _ _ => rfl)
        (fun ev hev => by
          cases ev <;> first | rfl | simp [Event.kind] at hev)) n s
    rw [hrun]
    refine ⟨rfl, ?_, ?_⟩
    · show weigh _ _ ≤ 34
      rw [hk]
      simp [Event.kind]
      omega
    · show weigh sleepMs _ < 10000 + 300
      rw [hs]
      simp [sleepMs]
      omega

/-- Witness of C12: on `frozenPage` the three loops time out. -/
theorem poll_loops_time_out_witness :
    (waitForModalClose frozenPage 60 Page.start).val
      = some (some (Err.msg "关闭商品选择弹窗超时")) ∧
    sleepTotal (waitForModalClose frozenPage 60 Page.start).trace < 5000 + 200 ∧
    (waitForProductListLoad frozenPage 60 20 Page.start).val
      = some (some (Err.msg "等待商品列表加载超时")) ∧
    (findProductCard frozenPage asciiLower 60 20 "tea" Page.start).val
      = some (.error (Err.msg ("未找到商品: " ++ "tea"))) :=
  have hc : Clocked frozenPage :=
    ⟨fun _ _ => Nat.le_refl _, fun _ _ _ => Nat.le_refl _, fun _ _ _ => Nat.le_refl _,
      fun _ _ => Nat.le_refl _, fun _ _ _ _ => Nat.le_refl _, fun _ _ _ => Nat.le_refl _,
      fun _ _ _ _ => Nat.le_refl _, fun _ _ _ => Nat.le_refl _, fun _ _ => Nat.le_refl _,
      fun _ _ => Nat.le_refl _, fun _ _ _ => Nat.le_refl _, fun _ _ _ => Nat.le_refl _,
      fun _ _ => Nat.le_refl _⟩
  have h := poll_loops_time_out frozenPage hc asciiLower 20 "tea" 60 Page.start
  ⟨(h.1 (by decide) (fun _ hp => by cases hp)).1, (h.1 (by decide) (fun _ hp => by cases hp)).2.2,
    (h.2.1 (by decide) (fun _ => rfl)).1, (h.2.2 (by decide) (fun _ => rfl)).1⟩

/-- C13. The function `waitForProductListLoad` returns nil if and only if, on some pass `k`
of its loop reached with the clock before the deadline (the start plus 10 s),
the passes before it having failed, the pass succeeds; a pass succeeds if and
only if the card query answers a non-empty list of which some card is
classified visible, or the empty-state query
`.goods-list-empty, .goods-list-search-empty` answers a list of which some
element is classified visible; and a list has an element classified visible
if and only if `isElementVisible` answers true for one of its elements, in
the state left by the elements examined before it. -/
theorem waitForProductListLoad_success_iff {σ : Type} (R : Remote σ) (fuel : Nat)
    (modal : Elem) (s : σ) :
    ((waitForProductListLoad R fuel modal s).val = some none ↔
      ∃ k, k < fuel ∧
        (∀ i ≤ k, R.now (pollState R (waitForProductListLoad.probe R modal) 200 i s)
          < R.now s + 10000) ∧
        (∀ i < k, (waitForProductListLoad.probe R modal
          (pollState R (waitForProductListLoad.probe R modal) 200 i s)).val = none) ∧
        (waitForProductListLoad.probe R modal
          (pollState R (waitForProductListLoad.probe R modal) 200 k s)).val = some ()) ∧
    (∀ s1, (waitForProductListLoad.probe R modal s1).val = some () ↔
      (∃ c cs, (R.elements modal ".good-card-container" s1).1 = .ok (c :: cs) ∧
        (anyVisible R (c :: cs) (R.elements modal ".good-card-container" s1).2).val = true) ∨
      (∃ es, (R.elements modal ".goods-list-empty, .goods-list-search-empty"
          (match (R.elements modal ".good-card-container" s1).1 with
            | .ok (c :: cs) =>
                (anyVisible R (c :: cs) (R.elements modal ".good-card-container" s1).2).st
            | _ => (R.elements modal ".good-card-container" s1).2)).1 = .ok es ∧
        (anyVisible R es (R.elements modal ".goods-list-empty, .goods-list-search-empty"
          (match (R.elements modal ".good-card-container" s1).1 with
            | .ok (c :: cs) =>
                (anyVisible R (c :: cs) (R.elements modal ".good-card-container" s1).2).st
            | _ => (R.elements modal ".good-card-container" s1).2)).2).val = true)) ∧
    (∀ elems s1, (anyVisible R elems s1).val = true ↔
      ∃ pre e post, elems = pre ++ e :: post ∧
        (isElementVisible R e
          (pre.foldl (fun st x => (isElementVisible R x st).st) s1)).val = true) := by
  refine ⟨?_, fun s1 => waitForProductListLoad_probe_some R modal s1,
    fun elems s1 => anyVisible_true_iff R elems s1⟩
  have hval : (waitForProductListLoad R fuel modal s).val
      = (pollUntil R (waitForProductListLoad.probe R modal) 200 (R.now s + 10000)
          (fun _ => (none : Option Err)) (some (Err.msg "等待商品列表加载超时")) fuel s).val := by
    simp [waitForProductListLoad, waitForProductListLoad_poll_eq]
  rw [hval]
  constructor
  · intro h
    obtain ⟨k, hk, a, -, hnow, hnone, hp⟩ := pollUntil_hit_inv R
      (waitForProductListLoad.probe R modal) 200 (R.now s + 10000)
      (fun _ => (none : Option Err)) (some (Err.msg "等待商品列表加载超时"))
      none (fun hh => by cases hh) fuel s h
    exact ⟨k, hk, hnow, hnone, hp⟩
  · rintro ⟨k, hk, hnow, hnone, hp⟩
    exact pollUntil_of_hit R (waitForProductListLoad.probe R modal) 200 (R.now s + 10000)
      (fun _ => (none : Option Err)) (some (Err.msg "等待商品列表加载超时")) k () fuel s hk hnow
      hnone hp

/-- C14. The function `waitForModalClose` returns nil if and only if, on some pass `k` of
its loop reached with the clock before the deadline (the start plus 5 s), the
passes before it having probed without that answer, the presence probe of
`div.multi-goods-selector-modal` answers `false` without error; a probe that
fails with an error counts, like the answer `true`, as a pass that failed. -/
theorem waitForModalClose_success_iff {σ : Type} (R : Remote σ) (fuel : Nat) (s : σ) :
    (waitForModalClose R fuel s).val = some none ↔
      ∃ k, k < fuel ∧
        (∀ i ≤ k, R.now (pollState R (waitForModalClose.probe R) 200 i s) < R.now s + 5000) ∧
        (∀ i < k, (R.pageHas "div.multi-goods-selector-modal"
          (pollState R (waitForModalClose.probe R) 200 i s)).1 ≠ .ok false) ∧
        (R.pageHas "div.multi-goods-selector-modal"
          (pollState R (waitForModalClose.probe R) 200 k s)).1 = .ok false := by
  have hval : (waitForModalClose R fuel s).val
      = (pollUntil R (waitForModalClose.probe R) 200 (R.now s + 5000)
          (fun _ => (none : Option Err)) (some (Err.msg "关闭商品选择弹窗超时")) fuel s).val := by
    simp [waitForModalClose, waitForModalClose_poll_eq]
  rw [hval]
  constructor
  · intro h
    obtain ⟨k, hk, a, -, hnow, hnone, hp⟩ := pollUntil_hit_inv R (waitForModalClose.probe R) 200
      (R.now s + 5000) (fun _ => (none : Option Err)) (some (Err.msg "关闭商品选择弹窗超时"))
      none (fun hh => by cases hh) fuel s h
    refine ⟨k, hk, hnow, fun i hi hx => ?_, (waitForModalClose_probe_some R _).1 hp⟩
    have := hnone i hi
    rw [(waitForModalClose_probe_some R _).2 hx] at this
    cases this
  · rintro ⟨k, hk, hnow, hnone, hp⟩
    exact pollUntil_of_hit R (waitForModalClose.probe R) 200 (R.now s + 5000)
      (fun _ => (none : Option Err)) (some (Err.msg "关闭商品选择弹窗超时")) k () fuel s hk hnow
      (fun i hi => waitForModalClose_probe_none R _ (hnone i hi))
      ((waitForModalClose_probe_some R _).2 hp)

/-! ### Product attachment workflow -/

theorem split_after_clean {P : Event → Bool} {X Y pre post : List Event} {ev : Event}
    (h : X ++ Y = pre ++ ev :: post) (hX : ∀ x ∈ X, P x = false) (hev : P ev = true) :
    ∃ l1, pre = X ++ l1 ∧ Y = l1 ++ ev :: post := by
  rcases List.append_eq_append_iff.1 h with ⟨a, h1, h2⟩ | ⟨c, h1, h2⟩
  · exact ⟨a, h1, h2⟩
  · cases c with
    | nil =>
        simp only [List.nil_append, List.append_nil] at h1 h2
        exact ⟨[], by simp [h1], h2.symm⟩
    | cons x c =>
        simp only [List.cons_append, List.cons.injEq] at h2
        obtain ⟨rfl, -⟩ := h2
        have := hX ev (by rw [h1]; simp)
        rw [this] at hev
        cases hev

theorem typing_not_setup : Kind.typing ∉ setupKinds := by decide

theorem elementR_not_setup : Kind.elementR ∉ setupKinds := by decide

theorem elementR_not_loop : Kind.elementR ∉ loopKinds := by decide

theorem addProducts_trace_cases {σ : Type} (R : Remote σ) (lower : String → String) (fuel : Nat)
    (kws : List String) (s : σ) :
    (addProducts R lower fuel kws s).trace = [] ∨
    (∀ ev ∈ (addProducts R lower fuel kws s).trace, ev.kind ∈ setupKinds) ∨
    ∃ modal searchInput, (addProducts.setup R fuel s).val = some (.ok (modal, searchInput)) ∧
      (((addProducts.loop R lower fuel modal searchInput (addProducts.keywords kws)
          (addProducts.setup R fuel s).st).val ≠ some none ∧
        (addProducts R lower fuel kws s).val
          = (addProducts.loop R lower fuel modal searchInput (addProducts.keywords kws)
              (addProducts.setup R fuel s).st).val ∧
        (addProducts R lower fuel kws s).trace
          = (addProducts.setup R fuel s).trace ++
            (addProducts.loop R lower fuel modal searchInput (addProducts.keywords kws)
              (addProducts.setup R fuel s).st).trace) ∨
      ((addProducts.loop R lower fuel modal searchInput (addProducts.keywords kws)
          (addProducts.setup R fuel s).st).val = some none ∧
        (addProducts R lower fuel kws s).trace
          = (addProducts.setup R fuel s).trace ++
            ((addProducts.loop R lower fuel modal searchInput (addProducts.keywords kws)
                (addProducts.setup R fuel s).st).trace ++
              (addProducts.save R fuel modal
                (addProducts.loop R lower fuel modal searchInput (addProducts.keywords kws)
                  (addProducts.setup R fuel s).st).st).trace))) := by
  by_cases hk : (addProducts.keywords kws).length = 0
  · left
    rw [addProducts_staged_nil R lower fuel kws s hk]
  · right
    by_cases hS : ∃ modal searchInput,
        (addProducts.setup R fuel s).val = some (.ok (modal, searchInput))
    · right
      obtain ⟨modal, si, hS⟩ := hS
      refine ⟨modal, si, hS, ?_⟩
      have h := addProducts_staged_ok R lower fuel kws s hk modal si hS
      by_cases hL : (addProducts.loop R lower fuel modal si (addProducts.keywords kws)
          (addProducts.setup R fuel s).st).val = some none
      · exact Or.inr ⟨hL, (h.1 hL).1⟩
      · exact Or.inl ⟨hL, (h.2 hL).2, (h.2 hL).1⟩
    · left
      have h := addProducts_staged_fail R lower fuel kws s hk
        (fun m si hh => hS ⟨m, si, hh⟩)
      rw [h.1]
      exact addProducts_setup_emits R fuel s

set_option maxRecDepth 100000 in
/-- C15 (counterexample). On `slowListPage` the list-populated wait times out, the warning
is logged, and the keyword `tea` is typed into the search input all the
same. -/
theorem addProducts_types_after_timeout_counterexample :
    (waitForProductListLoad slowListPage 60 20 ⟨600, false⟩).val
      = some (some (Err.msg "等待商品列表加载超时")) ∧
    [Event.log "warn" "等待商品列表加载失败: 等待商品列表加载超时",
      Event.element 20 (some 10000) "input[placeholder='搜索商品ID 或 商品名称']" (.ok 21),
      Event.eval 21 Script.clearValue (.ok false),
      Event.eval 21 (Script.setValue "tea") (.ok false)]
      <:+: (addProducts slowListPage asciiLower 60 ["tea"] Page.start).trace := by
  decide

/-- C15 (amended). In every run of `addProducts`, a keyword is typed into the search input
only after the modal was opened and `waitForProductListLoad` has returned,
with success or with an error: the events of these two stages come before the
typing, and when the wait returned an error, its warning was logged before
the typing. -/
theorem addProducts_types_after_wait {σ : Type} (R : Remote σ) (lower : String → String)
    (fuel : Nat) (kws : List String) (s : σ) (pre post : List Event) (ev : Event)
    (htr : (addProducts R lower fuel kws s).trace = pre ++ ev :: post)
    (hty : ev.kind = Kind.typing) :
    ∃ modal loaded,
      (addProducts.openModal R s).val = .ok modal ∧
      (waitForProductListLoad R fuel modal (addProducts.openModal R s).st).val = some loaded ∧
      ((addProducts.openModal R s).trace ++
        (waitForProductListLoad R fuel modal (addProducts.openModal R s).st).trace) <+: pre ∧
      (∀ err, loaded = some err →
        Event.log "warn" ("等待商品列表加载失败: " ++ err.Error) ∈ pre) := by
  have hmem : ev ∈ (addProducts R lower fuel kws s).trace := by rw [htr]; simp
  have key : ∀ modal si Y, (addProducts.setup R fuel s).val = some (.ok (modal, si)) →
      (addProducts R lower fuel kws s).trace = (addProducts.setup R fuel s).trace ++ Y →
      ∃ modal loaded,
        (addProducts.openModal R s).val = .ok modal ∧
        (waitForProductListLoad R fuel modal (addProducts.openModal R s).st).val
          = some loaded ∧
        ((addProducts.openModal R s).trace ++
          (waitForProductListLoad R fuel modal (addProducts.openModal R s).st).trace)
            <+: pre ∧
        (∀ err, loaded = some err →
          Event.log "warn" ("等待商品列表加载失败: " ++ err.Error) ∈ pre) := by
    intro modal si Y hS hY
    obtain ⟨hO, loaded, hW, -, hst, hlog⟩ := addProducts_setup_ok R fuel s modal si hS
    rw [hY] at htr
    obtain ⟨l1, hpre, -⟩ := split_after_clean (P := fun e => decide (e.kind = Kind.typing)) htr
      (fun x hx => by
        have := addProducts_setup_emits R fuel s x hx
        simp only [decide_eq_false_iff_not]
        intro hxk
        rw [hxk] at this
        exact typing_not_setup this)
      (by simp [hty])
    refine ⟨modal, loaded, hO, hW, ?_, fun err herr => ?_⟩
    · rw [hpre, hst]
      exact ⟨(addProducts.searchInput R modal loaded
        (waitForProductListLoad R fuel modal (addProducts.openModal R s).st).st).trace ++ l1,
        by simp⟩
    · rw [hpre, hst]
      have := hlog err herr
      simp [this]
  rcases addProducts_trace_cases R lower fuel kws s with h | h | ⟨modal, si, hS, h⟩
  · rw [h] at hmem
    cases hmem
  · have := h ev hmem
    rw [hty] at this
    exact absurd this typing_not_setup
  · rcases h with ⟨-, -, ht⟩ | ⟨-, ht⟩
    · exact key modal si _ hS ht
    · exact key modal si _ hS ht

set_option maxRecDepth 100000 in
/-- Witness of C15 (amended): on `slowListPage` the typing of `tea` comes after the timed-out
wait and its warning. -/
theorem addProducts_types_after_wait_witness :
    ∃ modal loaded,
      (addProducts.openModal slowListPage Page.start).val = .ok modal ∧
      (waitForProductListLoad slowListPage 60 modal
        (addProducts.openModal slowListPage Page.start).st).val = some loaded ∧
      ((addProducts.openModal slowListPage Page.start).trace ++
        (waitForProductListLoad slowListPage 60 modal
          (addProducts.openModal slowListPage Page.start).st).trace)
        <+: (addProducts slowListPage asciiLower 60 ["tea"] Page.start).trace.take 159 ∧
      (∀ err, loaded = some err →
        Event.log "warn" ("等待商品列表加载失败: " ++ err.Error)
          ∈ (addProducts slowListPage asciiLower 60 ["tea"] Page.start).trace.take 159) :=
  addProducts_types_after_wait slowListPage asciiLower 60 ["tea"] Page.start
    ((addProducts slowListPage asciiLower 60 ["tea"] Page.start).trace.take 159)
    ((addProducts slowListPage asciiLower 60 ["tea"] Page.start).trace.drop 160)
    (Event.eval 21 (Script.setValue "tea") (.ok false)) (by decide) rfl

/-- C16. In every run of `addProducts`, the save button is looked up, and so clicked, only
if the setup succeeded and every non-blank keyword was searched, resolved and
selected without error, one after the other (`AllSelected`); when one of
these steps returns an error the trace has no lookup of the save button. -/
theorem addProducts_save_after_all_selected {σ : Type} (R : Remote σ)
    (lower : String → String) (fuel : Nat) (kws : List String) (s : σ) (ev : Event)
    (hev : ev ∈ (addProducts R lower fuel kws s).trace) (hsave : ev.kind = Kind.elementR) :
    ∃ modal searchInput,
      (addProducts.setup R fuel s).val = some (.ok (modal, searchInput)) ∧
      AllSelected R lower fuel modal searchInput (addProducts.keywords kws)
        (addProducts.setup R fuel s).st := by
  rcases addProducts_trace_cases R lower fuel kws s with h | h | ⟨modal, si, hS, h⟩
  · rw [h] at hev
    cases hev
  · have := h ev hev
    rw [hsave] at this
    exact absurd this elementR_not_setup
  · rcases h with ⟨-, -, ht⟩ | ⟨hL, -⟩
    · rw [ht, List.mem_append] at hev
      rcases hev with hev | hev
      · have := addProducts_setup_emits R fuel s ev hev
        rw [hsave] at this
        exact absurd this elementR_not_setup
      · have := addProducts_loop_emits R lower fuel modal si _ _ ev hev
        rw [hsave] at this
        exact absurd this elementR_not_loop
    · exact ⟨modal, si, hS, (addProducts_loop_success_iff R lower fuel modal si _ _).1 hL⟩

set_option maxRecDepth 100000 in
/-- Witness of C16: on `shopPage` the save button is looked up after the keyword `tea` was
selected. -/
theorem addProducts_save_after_all_selected_witness :
    ∃ modal searchInput,
      (addProducts.setup shopPage 60 Page.start).val = some (.ok (modal, searchInput)) ∧
      AllSelected shopPage asciiLower 60 modal searchInput
        (addProducts.keywords ["  tea ", " "]) (addProducts.setup shopPage 60 Page.start).st :=
  addProducts_save_after_all_selected shopPage asciiLower 60 ["  tea ", " "] Page.start
    (Event.elementR 20 "div.d-modal-footer button" "保存" (.ok 40)) (by decide) rfl

theorem addProducts_loop_append {σ : Type} (R : Remote σ) (lower : String → String)
    (fuel : Nat) (modal searchInput : Elem) (pre rest : List String) :
    ∀ s : σ, (addProducts.loop R lower fuel modal searchInput pre s).val = some none →
      (addProducts.loop R lower fuel modal searchInput (pre ++ rest) s).val
        = (addProducts.loop R lower fuel modal searchInput rest
            (addProducts.loop R lower fuel modal searchInput pre s).st).val ∧
      (addProducts.loop R lower fuel modal searchInput (pre ++ rest) s).trace
        = (addProducts.loop R lower fuel modal searchInput pre s).trace ++
          (addProducts.loop R lower fuel modal searchInput rest
            (addProducts.loop R lower fuel modal searchInput pre s).st).trace := by
  induction pre with
  | nil => intro s _; simp [addProducts.loop]
  | cons kw pre ih =>
      intro s h
      rcases h1 : (inputProductSearchKeyword R searchInput kw s).val with _ | e1
      · rcases h2 : (findProductCard R lower fuel modal kw
            (inputProductSearchKeyword R searchInput kw s).st).val with _ | (e2 | card)
        · simp [addProducts.loop, h1, h2] at h
        · simp [addProducts.loop, h1, h2, Wrapf] at h
        · rcases h3 : (ensureProductSelected R card (findProductCard R lower fuel modal kw
              (inputProductSearchKeyword R searchInput kw s).st).st).val with _ | e3
          · have hv : (addProducts.loop R lower fuel modal searchInput (kw :: pre) s).val
                = (addProducts.loop R lower fuel modal searchInput pre
                    (ensureProductSelected R card (findProductCard R lower fuel modal kw
                      (inputProductSearchKeyword R searchInput kw s).st).st).st).val := by
              simp [addProducts.loop, h1, h2, h3]
            rw [hv] at h
            obtain ⟨i1, i2⟩ := ih _ h
            constructor
            · simp [addProducts.loop, h1, h2, h3, i1]
            · simp [addProducts.loop, h1, h2, h3, i2]
          · simp [addProducts.loop, h1, h2, h3, Wrapf] at h
      · simp [addProducts.loop, h1, Wrapf] at h

theorem Contains_wrap_keyword (e : Err) (p k : String) :
    Contains (Err.wrap e (p ++ k)).Error k = true := by
  simp only [Contains, Err.Error, String.data_append, decide_eq_true_eq]
  exact ⟨p.data, ": ".data ++ e.Error.data, by simp⟩

/-- C17. When the setup of `addProducts` succeeded, the keywords before `k` were searched,
resolved and selected without error, `k` was typed, and `findProductCard`
returned its error for `k` (no card matched before the deadline), then
`addProducts` returns an error whose message contains `k`, and the trace has
no lookup of the save button, hence no click on it. -/
theorem addProducts_names_missing_keyword {σ : Type} (R : Remote σ) (lower : String → String)
    (fuel : Nat) (kws : List String) (s : σ) (modal searchInput : Elem)
    (pre post : List String) (k : String) (e : Err)
    (hsetup : (addProducts.setup R fuel s).val = some (.ok (modal, searchInput)))
    (hkw : addProducts.keywords kws = pre ++ k :: post)
    (hpre : (addProducts.loop R lower fuel modal searchInput pre
      (addProducts.setup R fuel s).st).val = some none)
    (hin : (inputProductSearchKeyword R searchInput k
      (addProducts.loop R lower fuel modal searchInput pre
        (addProducts.setup R fuel s).st).st).val = none)
    (hfind : (findProductCard R lower fuel modal k
      (inputProductSearchKeyword R searchInput k
        (addProducts.loop R lower fuel modal searchInput pre
          (addProducts.setup R fuel s).st).st).st).val = some (.error e)) :
    ∃ err, (addProducts R lower fuel kws s).val = some (some err) ∧
      Contains err.Error k = true ∧
      ∀ ev ∈ (addProducts R lower fuel kws s).trace, ev.kind ≠ Kind.elementR := by
  have hk : ¬ (addProducts.keywords kws).length = 0 := by
    rw [hkw]; simp
  have happ := addProducts_loop_append R lower fuel modal searchInput pre (k :: post) _ hpre
  have hval : (addProducts.loop R lower fuel modal searchInput (addProducts.keywords kws)
      (addProducts.setup R fuel s).st).val
      = some (some (Err.wrap e ("未找到匹配商品: " ++ k))) := by
    rw [hkw, happ.1]
    simp [addProducts.loop, hin, hfind, Wrapf]
  have hst := (addProducts_staged_ok R lower fuel kws s hk modal searchInput hsetup).2
    (by rw [hval]; intro hh; cases hh)
  refine ⟨Err.wrap e ("未找到匹配商品: " ++ k), by rw [hst.2, hval],
    Contains_wrap_keyword e _ k, ?_⟩
  intro ev hev hsave
  rw [hst.1, List.mem_append] at hev
  rcases hev with hev | hev
  · have := addProducts_setup_emits R fuel s ev hev
    rw [hsave] at this
    exact absurd this elementR_not_setup
  · have := addProducts_loop_emits R lower fuel modal searchInput _ _ ev hev
    rw [hsave] at this
    exact absurd this elementR_not_loop

set_option maxRecDepth 100000 in
/-- Witness of C17: on `slowListPage` no card ever shows for `tea`. -/
theorem addProducts_names_missing_keyword_witness :
    ∃ err, (addProducts slowListPage asciiLower 60 ["tea"] Page.start).val = some (some err) ∧
      Contains err.Error "tea" = true ∧
      ∀ ev ∈ (addProducts slowListPage asciiLower 60 ["tea"] Page.start).trace,
        ev.kind ≠ Kind.elementR :=
  addProducts_names_missing_keyword slowListPage asciiLower 60 ["tea"] Page.start 20 21 [] []
    "tea" (Err.msg "未找到商品: tea") (by decide) (by decide) (by decide) (by decide)
    (by decide)

/-! ### Card matching -/

theorem findProductCard_scan_cons {σ : Type} (R : Remote σ) (lower : String → String)
    (lk : String) (c : Elem) (rest : List Elem) (s : σ) :
    (findProductCard.scan R lower lk (c :: rest) s).val
      = if cardMatches R lower lk c s = true then some c
        else (findProductCard.scan R lower lk rest (cardLabel R c s).st).val := by
  rcases h0 : (R.element c none ".sku-name" s).1 with e | nameElem
  · simp [findProductCard.scan, cardMatches, cardLabel, h0]
  · rcases h1 : (R.text nameElem (R.element c none ".sku-name" s).2).1 with e | name
    · simp [findProductCard.scan, cardMatches, cardLabel, h0, h1]
    · cases hc : Contains (lower name) lk <;>
        simp [findProductCard.scan, cardMatches, cardLabel, h0, h1, hc]

theorem cardMatches_iff {σ : Type} (R : Remote σ) (lower : String → String) (lk : String)
    (c : Elem) (s : σ) :
    cardMatches R lower lk c s = true ↔
      ∃ nameElem name, (R.element c none ".sku-name" s).1 = .ok nameElem ∧
        (R.text nameElem (R.element c none ".sku-name" s).2).1 = .ok name ∧
        Contains (lower name) lk = true := by
  rcases h0 : (R.element c none ".sku-name" s).1 with e | nameElem
  · simp [cardMatches, cardLabel, h0]
  · rcases h1 : (R.text nameElem (R.element c none ".sku-name" s).2).1 with e | name
    · simp [cardMatches, cardLabel, h0, h1]
    · simp [cardMatches, cardLabel, h0, h1]

theorem findProductCard_scan_some_iff {σ : Type} (R : Remote σ) (lower : String → String)
    (lk : String) (cards : List Elem) (card : Elem) :
    ∀ s : σ, (findProductCard.scan R lower lk cards s).val = some card ↔
      ∃ pre post, cards = pre ++ card :: post ∧
        (∀ p1 c p2, pre = p1 ++ c :: p2 → cardMatches R lower lk c (afterCards R p1 s) = false) ∧
        cardMatches R lower lk card (afterCards R pre s) = true := by
  induction cards with
  | nil =>
      intro s
      simp [findProductCard.scan]
  | cons c rest ih =>
      intro s
      rw [findProductCard_scan_cons]
      cases hm : cardMatches R lower lk c s
      · simp only [Bool.false_eq_true, if_false]
        rw [ih]
        constructor
        · rintro ⟨pre, post, rfl, hpre, hcard⟩
          refine ⟨c :: pre, post, rfl, ?_, hcard⟩
          intro p1 x p2 hsplit
          cases p1 with
          | nil =>
              simp only [List.nil_append, List.cons.injEq] at hsplit
              obtain ⟨rfl, -⟩ := hsplit
              exact hm
          | cons y p1 =>
              simp only [List.cons_append, List.cons.injEq] at hsplit
              obtain ⟨rfl, rfl⟩ := hsplit
              exact hpre p1 x p2 rfl
        · rintro ⟨pre, post, heq, hpre, hcard⟩
          cases pre with
          | nil =>
              simp only [List.nil_append, List.cons.injEq] at heq
              obtain ⟨rfl, rfl⟩ := heq
              simp only [afterCards, List.foldl_nil] at hcard
              rw [hm] at hcard
              cases hcard
          | cons y pre =>
              simp only [List.cons_append, List.cons.injEq] at heq
              obtain ⟨rfl, rfl⟩ := heq
              refine ⟨pre, post, rfl, ?_, hcard⟩
              intro p1 x p2 hs
              exact hpre (c :: p1) x p2 (by rw [hs]; rfl)
      · simp only [if_true, Option.some.injEq]
        constructor
        · rintro rfl
          refine ⟨[], rest, rfl, ?_, hm⟩
          intro p1 x p2 hs
          cases p1 <;> cases hs
        · rintro ⟨pre, post, heq, hpre, hcard⟩
          cases pre with
          | nil =>
              simp only [List.nil_append, List.cons.injEq] at heq
              exact heq.1
          | cons y pre =>
              simp only [List.cons_append, List.cons.injEq] at heq
              obtain ⟨rfl, rfl⟩ := heq
              have := hpre [] c pre rfl
              simp only [afterCards, List.foldl_nil] at this
              rw [hm] at this
              cases this

theorem findProductCard_probe_some {σ : Type} (R : Remote σ) (lower : String → String)
    (modal : Elem) (lk : String) (s : σ) (card : Elem)
    (h : (findProductCard.probe R lower modal lk s).val = some card) :
    ∃ c cs, (R.elements modal ".good-card-container" s).1 = .ok (c :: cs) ∧
      (findProductCard.scan R lower lk (c :: cs)
        (R.elements modal ".good-card-container" s).2).val = some card := by
  rcases h0 : (R.elements modal ".good-card-container" s).1 with e | cards
  · simp [findProductCard.probe, h0] at h
  · cases cards with
    | nil => simp [findProductCard.probe, h0] at h
    | cons c cs =>
        refine ⟨c, cs, rfl, ?_⟩
        simpa [findProductCard.probe, h0] using h

/-- C18. Whenever `findProductCard` returns a card for keyword `k`, it was found on a pass
of the poll loop reached before the deadline: the card list of that pass is
`pre ++ card :: post`, the card has a readable `.sku-name` label whose
lower-cased text contains the lower-cased `k`, and no card of `pre` has such
a label in the state in which it was examined; a card matches if and only if
its label element and the text of the label can be read and the text matches,
so that a card whose label cannot be read is passed over like a card that
does not match. -/
theorem findProductCard_first_match {σ : Type} (R : Remote σ) (lower : String → String)
    (fuel : Nat) (modal : Elem) (k : String) (s : σ) (card : Elem)
    (h : (findProductCard R lower fuel modal k s).val = some (.ok card)) :
    (∃ pass c cs pre post, pass < fuel ∧
      R.now (pollState R (findProductCard.probe R lower modal (lower k)) 300 pass s)
        < R.now s + 10000 ∧
      (R.elements modal ".good-card-container"
        (pollState R (findProductCard.probe R lower modal (lower k)) 300 pass s)).1
          = .ok (c :: cs) ∧
      c :: cs = pre ++ card :: post ∧
      (∀ p1 x p2, pre = p1 ++ x :: p2 →
        cardMatches R lower (lower k) x (afterCards R p1 (R.elements modal ".good-card-container"
          (pollState R (findProductCard.probe R lower modal (lower k)) 300 pass s)).2)
            = false) ∧
      cardMatches R lower (lower k) card (afterCards R pre (R.elements modal ".good-card-container"
        (pollState R (findProductCard.probe R lower modal (lower k)) 300 pass s)).2) = true) ∧
    (∀ x s1, cardMatches R lower (lower k) x s1 = true ↔
      ∃ nameElem name, (R.element x none ".sku-name" s1).1 = .ok nameElem ∧
        (R.text nameElem (R.element x none ".sku-name" s1).2).1 = .ok name ∧
        Contains (lower name) (lower k) = true) := by
  refine ⟨?_, fun x s1 => cardMatches_iff R lower (lower k) x s1⟩
  have hval : (findProductCard R lower fuel modal k s).val
      = (pollUntil R (findProductCard.probe R lower modal (lower k)) 300 (R.now s + 10000)
          (fun card => (Except.ok card : Except Err Elem))
          (.error (Err.msg ("未找到商品: " ++ k))) fuel s).val := by
    simp [findProductCard, findProductCard_poll_eq]
  rw [hval] at h
  obtain ⟨pass, hpass, a, ha, hnow, -, hp⟩ := pollUntil_hit_inv R
    (findProductCard.probe R lower modal (lower k)) 300 (R.now s + 10000)
    (fun card => (Except.ok card : Except Err Elem)) (.error (Err.msg ("未找到商品: " ++ k)))
    (.ok card) (fun hh => by cases hh) fuel s h
  simp only [Except.ok.injEq] at ha
  subst ha
  obtain ⟨c, cs, hel, hscan⟩ := findProductCard_probe_some R lower modal (lower k) _ _ hp
  obtain ⟨pre, post, hsplit, hpre, hcard⟩ :=
    (findProductCard_scan_some_iff R lower (lower k) (c :: cs) card _).1 hscan
  exact ⟨pass, c, cs, pre, post, hpass, hnow pass (le_refl _), hel, hsplit, hpre, hcard⟩

/-- Witness of C18: on `shopPage` the card of `tea` is the first card of the first pass. -/
theorem findProductCard_first_match_witness :
    cardMatches shopPage asciiLower (asciiLower "tea") 30
      (shopPage.elements 20 ".good-card-container" Page.start).2 = true ∧
    ∃ pass c cs pre post, pass < 60 ∧
      (shopPage.elements 20 ".good-card-container"
        (pollState shopPage (findProductCard.probe shopPage asciiLower 20 (asciiLower "tea"))
          300 pass Page.start)).1 = .ok (c :: cs) ∧
      c :: cs = pre ++ 30 :: post :=
  ⟨by decide,
    match (findProductCard_first_match shopPage asciiLower 60 20 "tea" Page.start 30
      (by decide)).1 with
    | ⟨pass, c, cs, pre, post, h1, _, h3, h4, _, _⟩ => ⟨pass, c, cs, pre, post, h1, h3, h4⟩⟩

/-! ### Browser handlers -/

/-- C19. The close-all endpoint reports the number of sessions that are left after
`CloseAll`, not the number that the call closed: for every manager and every
registry state the `closed_count` of the response is `GetSessionCount` of
the registry after `CloseAll`. On a registry with the two open sessions `s1`
and `s2`, whose manager counts 0 sessions after `CloseAll`, the response is
200 with `closed_count` 0, while 2 sessions were closed. -/
theorem closeAllBrowsersHandler_counts_after_close :
    (∀ (μ : Type) (M : Manager μ) (manager : μ),
      (closeAllBrowsersHandler M manager).1.2.Data
        = [("closed_count", M.GetSessionCount (M.CloseAll manager))]) ∧
    registryManager.GetSessionCount ⟨true, ["s1", "s2"]⟩ = 2 ∧
    registryManager.GetSessionCount (registryManager.CloseAll ⟨true, ["s1", "s2"]⟩) = 0 ∧
    (closeAllBrowsersHandler registryManager ⟨true, ["s1", "s2"]⟩).1
      = (200, ⟨true, [("closed_count", 0)], "所有浏览器已关闭"⟩) :=
  ⟨fun _ _ _ => rfl, by decide, by decide, by decide⟩

/-! ### Content generation -/

theorem GenerateContent_images_eq {ω : Type} (C : Client ω) (req : GenerateRequest)
    (title : String) (n : Nat) :
    ∀ (acc : List String) (w : ω),
      (GenerateContent.images C req title n acc w).1
        = acc ++ (imageOutcomes C (buildImagePrompt req title) n w).filterMap succeededURL := by
  induction n with
  | zero =>
      intro acc w
      simp [GenerateContent.images, imageOutcomes]
  | succ n ih =>
      intro acc w
      rcases h : C.GenerateImage (buildImagePrompt req title) w with ⟨r, w1⟩
      cases r with
      | error e => simp [GenerateContent.images, imageOutcomes, h, ih, succeededURL]
      | ok url => simp [GenerateContent.images, imageOutcomes, h, ih, succeededURL]

theorem imageOutcomes_length {ω : Type} (C : Client ω) (prompt : String) (n : Nat) :
    ∀ w : ω, (imageOutcomes C prompt n w).length = n := by
  induction n with
  | zero => intro w; rfl
  | succ n ih => intro w; simp [imageOutcomes, ih]

theorem GenerateContent_defaults_count (req : GenerateRequest) :
    (GenerateContent.defaults req).ImageCount = if req.ImageCount = 0 then 1 else req.ImageCount := by
  unfold GenerateContent.defaults
  by_cases h : req.ImageCount = 0 <;> simp only [h, if_true, if_false] <;> split <;> rfl

/-- C20. If the text generation of `GenerateContent` succeeds with `tc` (on the request with
its defaults filled in), then `GenerateContent` returns a result, whatever the
image generations answer: the result carries the title, content and tags of
`tc`, and its `ImageURLs` are exactly the URLs of the successful ones among the
image generations made, in the order of the calls; as many generations are
made as the effective image count says (0 counts as 1, a negative count as
none), so that `ImageURLs` is at most that long. -/
theorem GenerateContent_partial_success {ω : Type} (C : Client ω)
    (unmarshal : String → Except Err TextContent) (req : GenerateRequest) (w : ω)
    (tc : TextContent)
    (h : (generateTextContent C unmarshal (GenerateContent.defaults req) w).1 = .ok tc) :
    ∃ result, (GenerateContent C unmarshal req w).1 = .ok result ∧
      result.Title = tc.Title ∧ result.Content = tc.Content ∧ result.Tags = tc.Tags ∧
      result.ImageURLs
        = (imageOutcomes C (buildImagePrompt (GenerateContent.defaults req) tc.Title)
            (effectiveImageCount req)
            (generateTextContent C unmarshal (GenerateContent.defaults req) w).2).filterMap
              succeededURL ∧
      (imageOutcomes C (buildImagePrompt (GenerateContent.defaults req) tc.Title)
        (effectiveImageCount req)
        (generateTextContent C unmarshal (GenerateContent.defaults req) w).2).length
          = effectiveImageCount req ∧
      result.ImageURLs.length ≤ effectiveImageCount req := by
  rcases hg : generateTextContent C unmarshal (GenerateContent.defaults req) w with ⟨r, w1⟩
  rw [hg] at h
  simp only at h
  subst h
  have hc := GenerateContent_defaults_count req
  have hlen := imageOutcomes_length C
    (buildImagePrompt (GenerateContent.defaults req) tc.Title) (effectiveImageCount req) w1
  have key : (if (GenerateContent.defaults req).ImageCount > 0 then
        GenerateContent.images C (GenerateContent.defaults req) tc.Title
          (GenerateContent.defaults req).ImageCount.toNat [] w1
      else ([], w1)).1
      = (imageOutcomes C (buildImagePrompt (GenerateContent.defaults req) tc.Title)
          (effectiveImageCount req) w1).filterMap succeededURL := by
    by_cases h0 : req.ImageCount = 0
    · have h1 : (GenerateContent.defaults req).ImageCount = 1 := by rw [hc]; simp [h0]
      rw [h1]
      simp [effectiveImageCount, h0, GenerateContent_images_eq]
    · have h1 : (GenerateContent.defaults req).ImageCount = req.ImageCount := by
        rw [hc]; simp [h0]
      rw [h1]
      by_cases hpos : req.ImageCount > 0
      · simp [effectiveImageCount, h0, hpos, GenerateContent_images_eq]
      · have hz : req.ImageCount.toNat = 0 := by
          rw [Int.toNat_eq_zero]; omega
        simp [effectiveImageCount, h0, hpos, hz, imageOutcomes]
  refine ⟨⟨tc.Title, tc.Content, tc.Tags, _⟩, ?_, rfl, rfl, rfl, key, hlen, ?_⟩
  · simp only [GenerateContent, hg]
  · exact le_trans (le_of_eq (congrArg List.length key))
      (le_trans (List.length_filterMap_le _ _) (le_of_eq hlen))

/-- Witness of C20: three image generations on `flakyClient`, of which the second fails. -/
theorem GenerateContent_partial_success_witness :
    (generateTextContent flakyClient decodeEmpty
      (GenerateContent.defaults ⟨"茶", ["绿茶"], "", 3, ""⟩) 0).1 = .ok ⟨"茶", "正文", ["#茶"]⟩ ∧
    (GenerateContent flakyClient decodeEmpty ⟨"茶", ["绿茶"], "", 3, ""⟩ 0).1
      = .ok ⟨"茶", "正文", ["#茶"], ["1", "3"]⟩ ∧
    ∃ result, (GenerateContent flakyClient decodeEmpty ⟨"茶", ["绿茶"], "", 3, ""⟩ 0).1
        = .ok result ∧
      result.ImageURLs.length ≤ effectiveImageCount ⟨"茶", ["绿茶"], "", 3, ""⟩ :=
  ⟨by decide, by decide,
    match GenerateContent_partial_success flakyClient decodeEmpty ⟨"茶", ["绿茶"], "", 3, ""⟩ 0
      ⟨"茶", "正文", ["#茶"]⟩ (by decide) with
    | ⟨result, h1, _, _, _, _, _, h7⟩ => ⟨result, h1, h7⟩⟩

/-! ### Keywords of the product attachment -/

theorem addProducts_loop_cons {σ : Type} (R : Remote σ) (lower : String → String)
    (fuel : Nat) (modal searchInput : Elem) (k : String) (rest : List String) (s : σ) :
    ((addProducts.step R lower fuel modal searchInput k s).val = some none →
      (addProducts.loop R lower fuel modal searchInput (k :: rest) s).val
        = (addProducts.loop R lower fuel modal searchInput rest
            (addProducts.step R lower fuel modal searchInput k s).st).val ∧
      (addProducts.loop R lower fuel modal searchInput (k :: rest) s).trace
        = (addProducts.step R lower fuel modal searchInput k s).trace ++
          (addProducts.loop R lower fuel modal searchInput rest
            (addProducts.step R lower fuel modal searchInput k s).st).trace ∧
      (addProducts.loop R lower fuel modal searchInput (k :: rest) s).st
        = (addProducts.loop R lower fuel modal searchInput rest
            (addProducts.step R lower fuel modal searchInput k s).st).st) ∧
    ((addProducts.step R lower fuel modal searchInput k s).val ≠ some none →
      (addProducts.loop R lower fuel modal searchInput (k :: rest) s).val
        = (addProducts.step R lower fuel modal searchInput k s).val ∧
      (addProducts.loop R lower fuel modal searchInput (k :: rest) s).trace
        = (addProducts.step R lower fuel modal searchInput k s).trace ∧
      (addProducts.loop R lower fuel modal searchInput (k :: rest) s).st
        = (addProducts.step R lower fuel modal searchInput k s).st) := by
  rcases h1 : (inputProductSearchKeyword R searchInput k s).val with _ | e1
  · rcases h2 : (findProductCard R lower fuel modal k
        (inputProductSearchKeyword R searchInput k s).st).val with _ | (e2 | card)
    · simp [addProducts.loop, addProducts.step, h1, h2]
    · simp [addProducts.loop, addProducts.step, h1, h2, Wrapf]
    · rcases h3 : (ensureProductSelected R card (findProductCard R lower fuel modal k
          (inputProductSearchKeyword R searchInput k s).st).st).val with _ | e3
      · simp [addProducts.loop, addProducts.step, h1, h2, h3]
      · simp [addProducts.loop, addProducts.step, h1, h2, h3, Wrapf]
  · simp [addProducts.loop, addProducts.step, h1, Wrapf]

theorem addProducts_loop_split {σ : Type} (R : Remote σ) (lower : String → String)
    (fuel : Nat) (modal searchInput : Elem) (pre rest : List String) :
    ∀ s : σ, (addProducts.loop R lower fuel modal searchInput pre s).val = some none →
      (addProducts.loop R lower fuel modal searchInput (pre ++ rest) s).val
        = (addProducts.loop R lower fuel modal searchInput rest
            (addProducts.loop R lower fuel modal searchInput pre s).st).val ∧
      (addProducts.loop R lower fuel modal searchInput (pre ++ rest) s).trace
        = (addProducts.loop R lower fuel modal searchInput pre s).trace ++
          (addProducts.loop R lower fuel modal searchInput rest
            (addProducts.loop R lower fuel modal searchInput pre s).st).trace ∧
      (addProducts.loop R lower fuel modal searchInput (pre ++ rest) s).st
        = (addProducts.loop R lower fuel modal searchInput rest
            (addProducts.loop R lower fuel modal searchInput pre s).st).st := by
  induction pre with
  | nil => intro s _; simp [addProducts.loop]
  | cons kw pre ih =>
      intro s h
      have hc := addProducts_loop_cons R lower fuel modal searchInput kw pre s
      have hc2 := addProducts_loop_cons R lower fuel modal searchInput kw (pre ++ rest) s
      by_cases hs : (addProducts.step R lower fuel modal searchInput kw s).val = some none
      · obtain ⟨v1, t1, s1⟩ := hc.1 hs
        obtain ⟨v2, t2, s2⟩ := hc2.1 hs
        rw [v1] at h
        obtain ⟨v3, t3, s3⟩ := ih _ h
        simp only [List.cons_append]
        rw [v2, t2, s2, v3, t3, s3, t1, s1, List.append_assoc]
        exact ⟨rfl, rfl, rfl⟩
      · have := (hc.2 hs).1
        rw [this] at h
        exact absurd h hs

theorem typed_append (a b : List Event) : typed (a ++ b) = typed a ++ typed b := by
  simp [typed, List.filterMap_append]

theorem typedKeyword_of_kind {ev : Event} (h : ev.kind ≠ Kind.typing) :
    typedKeyword ev = none := by
  cases ev with
  | eval el js r => cases js <;> first | rfl | exact absurd rfl h
  | _ => rfl

theorem typed_of_kinds {ks : List Kind} (hk : Kind.typing ∉ ks) (t : List Event)
    (h : ∀ ev ∈ t, ev.kind ∈ ks) : typed t = [] := by
  induction t with
  | nil => rfl
  | cons ev t ih =>
      have h1 : ev.kind ≠ Kind.typing := by
        intro he
        exact hk (he ▸ h ev (List.mem_cons_self _ _))
      simp only [typed, List.filterMap_cons, typedKeyword_of_kind h1]
      exact ih (fun e he => h e (List.mem_cons_of_mem _ he))

theorem typed_input {σ : Type} (R : Remote σ) (input : Elem) (k : String) (s : σ) :
    typed (inputProductSearchKeyword R input k s).trace
      = (match (R.eval input Script.clearValue s).1 with
        | .ok _ => [k]
        | .error _ => []) ∧
    ((inputProductSearchKeyword R input k s).val = none →
      typed (inputProductSearchKeyword R input k s).trace = [k]) := by
  rcases h1 : (R.eval input Script.clearValue s).1 with e | b
  · simp [inputProductSearchKeyword, h1, typed, typedKeyword]
  · rcases h2 : (R.eval input (Script.setValue k) (R.eval input Script.clearValue s).2).1
      with e | b2
    · simp [inputProductSearchKeyword, h1, h2, typed, typedKeyword]
    · simp [inputProductSearchKeyword, h1, h2, typed, typedKeyword]

theorem typing_not_find : Kind.typing ∉ [Kind.elements, Kind.element, Kind.text, Kind.sleep] := by
  decide

theorem typing_not_select : Kind.typing ∉ selectKinds := by decide

theorem typing_not_save : Kind.typing ∉ saveKinds := by decide

theorem typed_step {σ : Type} (R : Remote σ) (lower : String → String)
    (fuel : Nat) (modal searchInput : Elem) (k : String) (s : σ) :
    typed (addProducts.step R lower fuel modal searchInput k s).trace
      = typed (inputProductSearchKeyword R searchInput k s).trace ∧
    ((addProducts.step R lower fuel modal searchInput k s).val = some none →
      (inputProductSearchKeyword R searchInput k s).val = none) := by
  have hf := fun s1 => typed_of_kinds typing_not_find _
    (findProductCard_emits R lower fuel modal k s1)
  have he := fun card s1 => typed_of_kinds typing_not_select _
    (ensureProductSelected_emits R card s1)
  rcases h1 : (inputProductSearchKeyword R searchInput k s).val with _ | e1
  · rcases h2 : (findProductCard R lower fuel modal k
        (inputProductSearchKeyword R searchInput k s).st).val with _ | (e2 | card)
    · simp [addProducts.step, h1, h2, typed_append, hf]
    · simp [addProducts.step, h1, h2, Wrapf, typed_append, hf]
    · rcases h3 : (ensureProductSelected R card (findProductCard R lower fuel modal k
          (inputProductSearchKeyword R searchInput k s).st).st).val with _ | e3
      · simp [addProducts.step, h1, h2, h3, typed_append, hf, he, Prog.log]
        simp [typed, typedKeyword]
      · simp [addProducts.step, h1, h2, h3, Wrapf, typed_append, hf, he]
  · simp [addProducts.step, h1, Wrapf]

theorem typed_step_cases {σ : Type} (R : Remote σ) (lower : String → String)
    (fuel : Nat) (modal searchInput : Elem) (k : String) (s : σ) :
    (typed (addProducts.step R lower fuel modal searchInput k s).trace = [k] ∨
      typed (addProducts.step R lower fuel modal searchInput k s).trace = []) ∧
    ((addProducts.step R lower fuel modal searchInput k s).val = some none →
      typed (addProducts.step R lower fuel modal searchInput k s).trace = [k]) := by
  have h1 := typed_step R lower fuel modal searchInput k s
  have h2 := typed_input R searchInput k s
  refine ⟨?_, fun h => by rw [h1.1]; exact h2.2 (h1.2 h)⟩
  rw [h1.1, h2.1]
  split
  · exact Or.inl rfl
  · exact Or.inr rfl

theorem typed_loop {σ : Type} (R : Remote σ) (lower : String → String)
    (fuel : Nat) (modal searchInput : Elem) (kws : List String) :
    ∀ s : σ, typed (addProducts.loop R lower fuel modal searchInput kws s).trace <+: kws ∧
      ((addProducts.loop R lower fuel modal searchInput kws s).val = some none →
        typed (addProducts.loop R lower fuel modal searchInput kws s).trace = kws) := by
  induction kws with
  | nil => intro s; simp [addProducts.loop, typed]
  | cons k rest ih =>
      intro s
      have hc := addProducts_loop_cons R lower fuel modal searchInput k rest s
      have ht := typed_step_cases R lower fuel modal searchInput k s
      by_cases hs : (addProducts.step R lower fuel modal searchInput k s).val = some none
      · obtain ⟨v1, t1, -⟩ := hc.1 hs
        rw [v1, t1, typed_append, ht.2 hs]
        have := ih (addProducts.step R lower fuel modal searchInput k s).st
        refine ⟨?_, fun h => by rw [this.2 h]; rfl⟩
        exact (List.prefix_cons_inj k).2 this.1
      · obtain ⟨v1, t1, -⟩ := hc.2 hs
        rw [v1, t1]
        refine ⟨?_, fun h => absurd h hs⟩
        rcases ht.1 with h | h
        · rw [h]
          exact ⟨rest, rfl⟩
        · rw [h]
          exact List.nil_prefix

theorem addProducts_staged_state {σ : Type} (R : Remote σ) (lower : String → String)
    (fuel : Nat) (kws : List String) (s : σ) (hk : ¬ (addProducts.keywords kws).length = 0)
    (modal searchInput : Elem)
    (h : (addProducts.setup R fuel s).val = some (.ok (modal, searchInput)))
    (hL : (addProducts.loop R lower fuel modal searchInput (addProducts.keywords kws)
        (addProducts.setup R fuel s).st).val ≠ some none) :
    (addProducts R lower fuel kws s).st
      = (addProducts.loop R lower fuel modal searchInput (addProducts.keywords kws)
          (addProducts.setup R fuel s).st).st := by
  rw [addProducts_eq_staged]
  rcases hL2 : (addProducts.loop R lower fuel modal searchInput (addProducts.keywords kws)
      (addProducts.setup R fuel s).st).val with _ | (_ | e)
  · simp [addProducts.staged, hk, h, hL2]
  · exact absurd hL2 hL
  · simp [addProducts.staged, hk, h, hL2]

theorem typed_addProducts {σ : Type} (R : Remote σ) (lower : String → String)
    (fuel : Nat) (kws : List String) (s : σ) :
    typed (addProducts R lower fuel kws s).trace <+: addProducts.keywords kws ∧
    ((addProducts R lower fuel kws s).val = some none →
      typed (addProducts R lower fuel kws s).trace = addProducts.keywords kws) := by
  have hsetup : typed (addProducts.setup R fuel s).trace = [] :=
    typed_of_kinds typing_not_setup _ (addProducts_setup_emits R fuel s)
  by_cases hk : (addProducts.keywords kws).length = 0
  · rw [addProducts_staged_nil R lower fuel kws s hk]
    rw [List.length_eq_zero] at hk
    rw [hk]
    exact ⟨List.prefix_refl _, fun _ => rfl⟩
  · by_cases hS : ∃ modal searchInput,
        (addProducts.setup R fuel s).val = some (.ok (modal, searchInput))
    · obtain ⟨modal, si, hS⟩ := hS
      have hst := addProducts_staged_ok R lower fuel kws s hk modal si hS
      have hl := typed_loop R lower fuel modal si (addProducts.keywords kws)
        (addProducts.setup R fuel s).st
      by_cases hL : (addProducts.loop R lower fuel modal si (addProducts.keywords kws)
          (addProducts.setup R fuel s).st).val = some none
      · have hsave := typed_of_kinds typing_not_save _ (addProducts_save_emits R fuel modal
          (addProducts.loop R lower fuel modal si (addProducts.keywords kws)
            (addProducts.setup R fuel s).st).st)
        rw [(hst.1 hL).1, typed_append, typed_append, hsetup, hl.2 hL, hsave]
        simp
      · rw [(hst.2 hL).1, (hst.2 hL).2, typed_append, hsetup]
        exact ⟨hl.1, fun h => absurd h hL⟩
    · have hf := addProducts_staged_fail R lower fuel kws s hk
        (fun m si h => hS ⟨m, si, h⟩)
      rw [hf.1, hsetup]
      exact ⟨List.nil_prefix, fun h => absurd h hf.2⟩

theorem addProducts_loop_ok_left {σ : Type} (R : Remote σ) (lower : String → String)
    (fuel : Nat) (modal searchInput : Elem) (a b : List String) :
    ∀ s : σ, (addProducts.loop R lower fuel modal searchInput (a ++ b) s).val = some none →
      (addProducts.loop R lower fuel modal searchInput a s).val = some none := by
  induction a with
  | nil => intro s _; simp [addProducts.loop]
  | cons k a ih =>
      intro s h
      have hc := addProducts_loop_cons R lower fuel modal searchInput k a s
      have hc2 := addProducts_loop_cons R lower fuel modal searchInput k (a ++ b) s
      simp only [List.cons_append] at h
      by_cases hs : (addProducts.step R lower fuel modal searchInput k s).val = some none
      · rw [(hc2.1 hs).1] at h
        rw [(hc.1 hs).1]
        exact ih _ h
      · rw [(hc2.2 hs).1] at h
        exact absurd h hs

theorem addProducts_step_fail_cases {σ : Type} (R : Remote σ) (lower : String → String)
    (fuel : Nat) (modal searchInput : Elem) (k : String) (s : σ) (err : Err)
    (h : (addProducts.step R lower fuel modal searchInput k s).val = some (some err)) :
    (∃ e, (inputProductSearchKeyword R searchInput k s).val = some e ∧
      err = Err.wrap e ("搜索商品失败: " ++ k) ∧
      (addProducts.step R lower fuel modal searchInput k s).trace
        = (inputProductSearchKeyword R searchInput k s).trace) ∨
    ((inputProductSearchKeyword R searchInput k s).val = none ∧
      ∃ e, (findProductCard R lower fuel modal k
          (inputProductSearchKeyword R searchInput k s).st).val = some (.error e) ∧
        err = Err.wrap e ("未找到匹配商品: " ++ k) ∧
        (addProducts.step R lower fuel modal searchInput k s).trace
          = (inputProductSearchKeyword R searchInput k s).trace ++
            (findProductCard R lower fuel modal k
              (inputProductSearchKeyword R searchInput k s).st).trace) ∨
    ((inputProductSearchKeyword R searchInput k s).val = none ∧
      ∃ card e, (findProductCard R lower fuel modal k
          (inputProductSearchKeyword R searchInput k s).st).val = some (.ok card) ∧
        (ensureProductSelected R card (findProductCard R lower fuel modal k
          (inputProductSearchKeyword R searchInput k s).st).st).val = some e ∧
        err = Err.wrap e ("选择商品失败: " ++ k) ∧
        (addProducts.step R lower fuel modal searchInput k s).trace
          = (inputProductSearchKeyword R searchInput k s).trace ++
            ((findProductCard R lower fuel modal k
              (inputProductSearchKeyword R searchInput k s).st).trace ++
            (ensureProductSelected R card (findProductCard R lower fuel modal k
              (inputProductSearchKeyword R searchInput k s).st).st).trace)) := by
  rcases h1 : (inputProductSearchKeyword R searchInput k s).val with _ | e1
  · rcases h2 : (findProductCard R lower fuel modal k
        (inputProductSearchKeyword R searchInput k s).st).val with _ | (e2 | card)
    · simp [addProducts.step, h1, h2] at h
    · right; left
      have hv : (addProducts.step R lower fuel modal searchInput k s).val
          = some (some (Err.wrap e2 ("未找到匹配商品: " ++ k))) := by
        simp [addProducts.step, h1, h2, Wrapf]
      rw [hv] at h
      simp only [Option.some.injEq] at h
      refine ⟨rfl, e2, rfl, h.symm, ?_⟩
      simp [addProducts.step, h1, h2]
    · rcases h3 : (ensureProductSelected R card (findProductCard R lower fuel modal k
          (inputProductSearchKeyword R searchInput k s).st).st).val with _ | e3
      · simp [addProducts.step, h1, h2, h3] at h
      · right; right
        have hv : (addProducts.step R lower fuel modal searchInput k s).val
            = some (some (Err.wrap e3 ("选择商品失败: " ++ k))) := by
          simp [addProducts.step, h1, h2, h3, Wrapf]
        rw [hv] at h
        simp only [Option.some.injEq] at h
        refine ⟨rfl, card, e3, rfl, h3, h.symm, ?_⟩
        simp [addProducts.step, h1, h2, h3]
  · left
    have hv : (addProducts.step R lower fuel modal searchInput k s).val
        = some (some (Err.wrap e1 ("搜索商品失败: " ++ k))) := by
      simp [addProducts.step, h1, Wrapf]
    rw [hv] at h
    simp only [Option.some.injEq] at h
    refine ⟨e1, rfl, h.symm, ?_⟩
    simp [addProducts.step, h1]

/-- C21. Let the setup of `addProducts` succeed and the trimmed non-blank keywords be
`pre ++ k :: post`, the keywords of `pre` be processed without error and a
step of `k` fail, so that the loop body returns `err` for `k`: the error of
the search, of the card lookup or of the selection, wrapped with the name of
`k`, the trace of the body ending with the failing step. Then `addProducts`
returns `err`; its trace is that of the setup, then of the keywords of `pre`,
then of the body for `k`, and nothing after it, and its final state is the
state in which the failing step left the page: nothing is undone. The
keywords of `pre` are processed in the order given, each one by the whole
loop body with success before the next one begins; the keywords typed are
those of `pre` in order, then `k` at most, and none of `post`. -/
theorem addProducts_fail_fast {σ : Type} (R : Remote σ) (lower : String → String)
    (fuel : Nat) (kws : List String) (s : σ) (modal searchInput : Elem)
    (pre post : List String) (k : String) (err : Err)
    (hsetup : (addProducts.setup R fuel s).val = some (.ok (modal, searchInput)))
    (hkw : addProducts.keywords kws = pre ++ k :: post)
    (hpre : (addProducts.loop R lower fuel modal searchInput pre
      (addProducts.setup R fuel s).st).val = some none)
    (hfail : (addProducts.step R lower fuel modal searchInput k
      (addProducts.loop R lower fuel modal searchInput pre
        (addProducts.setup R fuel s).st).st).val = some (some err)) :
    (addProducts R lower fuel kws s).val = some (some err) ∧
    (addProducts R lower fuel kws s).trace
      = (addProducts.setup R fuel s).trace ++
        ((addProducts.loop R lower fuel modal searchInput pre
            (addProducts.setup R fuel s).st).trace ++
          (addProducts.step R lower fuel modal searchInput k
            (addProducts.loop R lower fuel modal searchInput pre
              (addProducts.setup R fuel s).st).st).trace) ∧
    (addProducts R lower fuel kws s).st
      = (addProducts.step R lower fuel modal searchInput k
          (addProducts.loop R lower fuel modal searchInput pre
            (addProducts.setup R fuel s).st).st).st ∧
    (∀ p1 x p2, pre = p1 ++ x :: p2 →
      (addProducts.loop R lower fuel modal searchInput p1
        (addProducts.setup R fuel s).st).val = some none ∧
      (addProducts.step R lower fuel modal searchInput x
        (addProducts.loop R lower fuel modal searchInput p1
          (addProducts.setup R fuel s).st).st).val = some none ∧
      (addProducts.loop R lower fuel modal searchInput pre (addProducts.setup R fuel s).st).trace
        = (addProducts.loop R lower fuel modal searchInput p1
            (addProducts.setup R fuel s).st).trace ++
          ((addProducts.step R lower fuel modal searchInput x
            (addProducts.loop R lower fuel modal searchInput p1
              (addProducts.setup R fuel s).st).st).trace ++
          (addProducts.loop R lower fuel modal searchInput p2
            (addProducts.step R lower fuel modal searchInput x
              (addProducts.loop R lower fuel modal searchInput p1
                (addProducts.setup R fuel s).st).st).st).trace)) ∧
    (∃ t, t <+: [k] ∧ typed (addProducts R lower fuel kws s).trace = pre ++ t) ∧
    ((∃ e, err = Err.wrap e ("搜索商品失败: " ++ k)) ∨
      (∃ e, err = Err.wrap e ("未找到匹配商品: " ++ k)) ∨
      (∃ e, err = Err.wrap e ("选择商品失败: " ++ k))) := by
  have hk : ¬ (addProducts.keywords kws).length = 0 := by
    rw [hkw]; simp
  have hne : (addProducts.step R lower fuel modal searchInput k
      (addProducts.loop R lower fuel modal searchInput pre
        (addProducts.setup R fuel s).st).st).val ≠ some none := by
    rw [hfail]; intro hh; cases hh
  obtain ⟨v1, t1, s1⟩ := addProducts_loop_split R lower fuel modal searchInput pre (k :: post)
    _ hpre
  obtain ⟨v2, t2, s2⟩ := (addProducts_loop_cons R lower fuel modal searchInput k post
    (addProducts.loop R lower fuel modal searchInput pre
      (addProducts.setup R fuel s).st).st).2 hne
  have hval : (addProducts.loop R lower fuel modal searchInput (addProducts.keywords kws)
      (addProducts.setup R fuel s).st).val = some (some err) := by
    rw [hkw, v1, v2, hfail]
  have hL : (addProducts.loop R lower fuel modal searchInput (addProducts.keywords kws)
      (addProducts.setup R fuel s).st).val ≠ some none := by
    rw [hval]; intro hh; cases hh
  have hst := (addProducts_staged_ok R lower fuel kws s hk modal searchInput hsetup).2 hL
  have hstate := addProducts_staged_state R lower fuel kws s hk modal searchInput hsetup hL
  have htrace : (addProducts R lower fuel kws s).trace
      = (addProducts.setup R fuel s).trace ++
        ((addProducts.loop R lower fuel modal searchInput pre
            (addProducts.setup R fuel s).st).trace ++
          (addProducts.step R lower fuel modal searchInput k
            (addProducts.loop R lower fuel modal searchInput pre
              (addProducts.setup R fuel s).st).st).trace) := by
    rw [hst.1, hkw, t1, t2]
  refine ⟨by rw [hst.2, hval], htrace, by rw [hstate, hkw, s1, s2], ?_, ?_, ?_⟩
  · rintro p1 x p2 rfl
    have h1 := addProducts_loop_ok_left R lower fuel modal searchInput p1 (x :: p2) _ hpre
    obtain ⟨v3, t3, -⟩ := addProducts_loop_split R lower fuel modal searchInput p1 (x :: p2)
      _ h1
    have hx : (addProducts.step R lower fuel modal searchInput x
        (addProducts.loop R lower fuel modal searchInput p1
          (addProducts.setup R fuel s).st).st).val = some none := by
      by_contra hx
      have := (addProducts_loop_cons R lower fuel modal searchInput x p2
        (addProducts.loop R lower fuel modal searchInput p1
          (addProducts.setup R fuel s).st).st).2 hx
      rw [v3, this.1] at hpre
      exact hx hpre
    obtain ⟨-, t4, -⟩ := (addProducts_loop_cons R lower fuel modal searchInput x p2
      (addProducts.loop R lower fuel modal searchInput p1
        (addProducts.setup R fuel s).st).st).1 hx
    exact ⟨h1, hx, by rw [t3, t4]⟩
  · have hsetupT : typed (addProducts.setup R fuel s).trace = [] :=
      typed_of_kinds typing_not_setup _ (addProducts_setup_emits R fuel s)
    have hpreT := (typed_loop R lower fuel modal searchInput pre
      (addProducts.setup R fuel s).st).2 hpre
    refine ⟨typed (addProducts.step R lower fuel modal searchInput k
      (addProducts.loop R lower fuel modal searchInput pre
        (addProducts.setup R fuel s).st).st).trace, ?_, ?_⟩
    · rcases (typed_step_cases R lower fuel modal searchInput k
        (addProducts.loop R lower fuel modal searchInput pre
          (addProducts.setup R fuel s).st).st).1 with h | h
      · rw [h]
      · rw [h]; exact List.nil_prefix
    · rw [htrace, typed_append, typed_append, hsetupT, hpreT]
      rfl
  · rcases addProducts_step_fail_cases R lower fuel modal searchInput k _ err hfail with
      ⟨e, -, h, -⟩ | ⟨-, e, -, h, -⟩ | ⟨-, card, e, -, -, h, -⟩
    · exact Or.inl ⟨e, h⟩
    · exact Or.inr (Or.inl ⟨e, h⟩)
    · exact Or.inr (Or.inr ⟨e, h⟩)

set_option maxRecDepth 100000 in
/-- Witness of C21: on `shopPage` the keyword `tea` is selected, no card matches `zzz`, and
`cup` is never typed. -/
theorem addProducts_fail_fast_witness :
    (addProducts shopPage asciiLower 60 ["tea", " zzz", "", "cup"] Page.start).val
      = some (some (Err.wrap (Err.msg "未找到商品: zzz") "未找到匹配商品: zzz")) ∧
    ∃ t, t <+: ["zzz"] ∧
      typed (addProducts shopPage asciiLower 60 ["tea", " zzz", "", "cup"] Page.start).trace
        = ["tea"] ++ t :=
  match addProducts_fail_fast shopPage asciiLower 60 ["tea", " zzz", "", "cup"] Page.start
    20 21 ["tea"] ["cup"] "zzz" (Err.wrap (Err.msg "未找到商品: zzz") "未找到匹配商品: zzz")
    (by decide) (by decide) (by decide) (by decide) with
  | ⟨h1, _, _, _, h5, _⟩ => ⟨h1, h5⟩

theorem keywords_blank (kws : List String) (h : ∀ k ∈ kws, TrimSpace k = "") :
    addProducts.keywords kws = [] := by
  unfold addProducts.keywords
  rw [List.filter_eq_nil_iff]
  intro t ht
  obtain ⟨k, hk, rfl⟩ := List.mem_map.1 ht
  simp [h k hk]

/-- C25. When every entry of the keyword list is empty or white space only (the empty list
included), `addProducts` returns nil without any event and leaves the page
in the state it found, whatever the fuel. For every list, the keywords typed
into the search input are, in order and with duplicates kept, the trimmed
non-blank entries from the first one on: a run in which a step fails stops
there, and a run that returns nil has typed all of them. -/
theorem addProducts_blank_keywords {σ : Type} (R : Remote σ) (lower : String → String)
    (fuel : Nat) (kws : List String) (s : σ) :
    ((∀ k ∈ kws, TrimSpace k = "") →
      addProducts R lower fuel kws s = ⟨some none, [], s⟩) ∧
    typed (addProducts R lower fuel kws s).trace
      <+: (kws.map TrimSpace).filter (fun trimmed => trimmed != "") ∧
    ((addProducts R lower fuel kws s).val = some none →
      typed (addProducts R lower fuel kws s).trace
        = (kws.map TrimSpace).filter (fun trimmed => trimmed != "")) := by
  refine ⟨fun h => ?_, (typed_addProducts R lower fuel kws s).1,
    (typed_addProducts R lower fuel kws s).2⟩
  exact addProducts_staged_nil R lower fuel kws s (by rw [keywords_blank kws h]; rfl)

set_option maxRecDepth 100000 in
/-- Witness of C25: blank entries only on `blankPage`; two entries for `tea`, one blank entry
on `shopPage`. -/
theorem addProducts_blank_keywords_witness :
    addProducts blankPage asciiLower 60 ["", "  ", "\t\n"] Page.start
      = ⟨some none, [], Page.start⟩ ∧
    typed (addProducts shopPage asciiLower 60 [" tea ", "  ", "tea"] Page.start).trace
      = ["tea", "tea"] :=
  ⟨(addProducts_blank_keywords blankPage asciiLower 60 ["", "  ", "\t\n"] Page.start).1
      (by decide),
    (addProducts_blank_keywords shopPage asciiLower 60 [" tea ", "  ", "tea"] Page.start).2.2
      (by decide)⟩

/-! ### Publication service -/

theorem isURL_data {img : String} (h : isURL img = true) :
    ∃ rest, img.data = 'h' :: 't' :: 't' :: 'p' :: ':' :: '/' :: '/' :: rest ∨
      img.data = 'h' :: 't' :: 't' :: 'p' :: 's' :: ':' :: '/' :: '/' :: rest := by
  simp only [isURL, HasPrefix, Bool.or_eq_true, decide_eq_true_eq] at h
  rcases h with ⟨t, ht⟩ | ⟨t, ht⟩
  · exact ⟨t, Or.inl ht.symm⟩
  · exact ⟨t, Or.inr ht.symm⟩

theorem isURL_not_image {img : String} (h : isURL img = true) :
    HasPrefix img "image_" = false := by
  obtain ⟨rest, h1 | h1⟩ := isURL_data h
  · simp only [HasPrefix, decide_eq_false_iff_not, h1]
    rintro ⟨t, ht⟩
    simp at ht
  · simp only [HasPrefix, decide_eq_false_iff_not, h1]
    rintro ⟨t, ht⟩
    simp at ht

theorem isURL_has_slash {img : String} (h : isURL img = true) : Contains img "/" = true := by
  have h2 : ("/" : String).data = ['/'] := rfl
  obtain ⟨rest, h1 | h1⟩ := isURL_data h
  · simp only [Contains, decide_eq_true_eq, h1, h2]
    exact ⟨['h', 't', 't', 'p', ':'], '/' :: rest, by simp⟩
  · simp only [Contains, decide_eq_true_eq, h1, h2]
    exact ⟨['h', 't', 't', 'p', 's', ':'], '/' :: rest, by simp⟩

theorem isVirtual_of_url {ω : Type} (H : Host ω) (img : String) (w : ω)
    (h : isURL img = true) :
    (PublishContent.isVirtual H img w).val = false ∧
      (PublishContent.isVirtual H img w).calls = [] := by
  simp [PublishContent.isVirtual, isURL_not_image h, isURL_has_slash h]

theorem virtualImagePaths_length {ω : Type} (H : Host ω) (images : List String) :
    ∀ (acc : List String) (w : ω),
      (PublishContent.virtualImagePaths H images acc w).val.length
        ≤ acc.length + images.length ∧
      ((∃ img ∈ images, isURL img = true) →
        (PublishContent.virtualImagePaths H images acc w).val.length
          < acc.length + images.length) := by
  induction images with
  | nil =>
      intro acc w
      simp [PublishContent.virtualImagePaths]
  | cons img rest ih =>
      intro acc w
      have hle : (if (PublishContent.isVirtual H img w).val = true then acc ++ [img]
          else acc).length ≤ acc.length + 1 := by
        split <;> simp
      have h1 := ih (if (PublishContent.isVirtual H img w).val = true then acc ++ [img]
        else acc) (PublishContent.isVirtual H img w).st
      simp only [PublishContent.virtualImagePaths, List.length_cons]
      refine ⟨by omega, ?_⟩
      rintro ⟨u, hu, hurl⟩
      rcases List.mem_cons.1 hu with rfl | hu
      · have hv := (isVirtual_of_url H u w hurl).1
        rw [hv] at h1
        simp only [Bool.false_eq_true, if_false] at h1
        rw [hv]
        simp only [Bool.false_eq_true, if_false]
        omega
      · have := h1.2 ⟨u, hu, hurl⟩
        omega

/-- C22. An image string that starts with `http://` or `https://` is classified not virtual
by the loop of `PublishContent`, in every state of the host and without any
question to the file system; so for a request with such an image the list
of virtual images is shorter than the list of images, and `PublishContent`
goes on to the image processing instead of publishing text only. -/
theorem PublishContent_url_not_virtual {ω : Type} (H : Host ω) (req : PublishRequest) (w : ω)
    (img : String) (hmem : img ∈ req.Images) (hurl : isURL img = true) :
    (∀ w1 : ω, (PublishContent.isVirtual H img w1).val = false ∧
      (PublishContent.isVirtual H img w1).calls = []) ∧
    (PublishContent.virtualImagePaths H req.Images [] w).val.length < req.Images.length ∧
    (PublishContent.imagePaths H req w).val
      = (H.ProcessImages req.Images (PublishContent.virtualImagePaths H req.Images [] w).st).1 ∧
    ∃ r, Call.processImages req.Images r ∈ (PublishContent H req w).calls := by
  have hlen := (virtualImagePaths_length H req.Images [] w).2 ⟨img, hmem, hurl⟩
  simp only [List.length_nil, Nat.zero_add] at hlen
  have hne : ¬ req.Images.length = 0 := by
    intro h0
    rw [List.length_eq_zero] at h0
    rw [h0] at hmem
    cases hmem
  have hstage : PublishContent.imagePaths H req w
      = ⟨(H.ProcessImages req.Images (PublishContent.virtualImagePaths H req.Images [] w).st).1,
          (PublishContent.virtualImagePaths H req.Images [] w).calls ++
            [Call.processImages req.Images
              (H.ProcessImages req.Images
                (PublishContent.virtualImagePaths H req.Images [] w).st).1],
          (H.ProcessImages req.Images
            (PublishContent.virtualImagePaths H req.Images [] w).st).2⟩ := by
    simp only [PublishContent.imagePaths, hne, if_false, Nat.ne_of_lt hlen]
  refine ⟨fun w1 => isVirtual_of_url H img w1 hurl, hlen, by rw [hstage], ?_⟩
  refine ⟨(H.ProcessImages req.Images
    (PublishContent.virtualImagePaths H req.Images [] w).st).1, ?_⟩
  unfold PublishContent
  rw [hstage]
  dsimp only
  split
  · simp
  · split <;> simp

/-- Witness of C22: a virtual file name and a URL; the images are processed. -/
theorem PublishContent_url_not_virtual_witness :
    (PublishContent.isVirtual emptyDiskHost "x.png" 0).val = true ∧
    (PublishContent.virtualImagePaths emptyDiskHost ["x.png", "https://a.cn/b.jpg"] [] 0).val.length
      < 2 ∧
    ∃ r, Call.processImages ["x.png", "https://a.cn/b.jpg"] r
      ∈ (PublishContent emptyDiskHost ⟨"t", "c", ["x.png", "https://a.cn/b.jpg"], [], []⟩ 0).calls :=
  ⟨by decide,
    (PublishContent_url_not_virtual emptyDiskHost
      ⟨"t", "c", ["x.png", "https://a.cn/b.jpg"], [], []⟩ 0 "https://a.cn/b.jpg"
      (by decide) (by decide)).2.1,
    (PublishContent_url_not_virtual emptyDiskHost
      ⟨"t", "c", ["x.png", "https://a.cn/b.jpg"], [], []⟩ 0 "https://a.cn/b.jpg"
      (by decide) (by decide)).2.2.2⟩

theorem isVirtual_calls {ω : Type} (H : Host ω) (img : String) (w : ω) :
    ∀ c ∈ (PublishContent.isVirtual H img w).calls, ∃ name ne, c = Call.stat name ne := by
  have hshape : (PublishContent.isVirtual H img w).calls = [] ∨
      ∃ ne, (PublishContent.isVirtual H img w).calls = [Call.stat img ne] := by
    unfold PublishContent.isVirtual
    dsimp only
    repeat' split
    all_goals first | exact Or.inl rfl | exact Or.inr ⟨_, rfl⟩
  intro c hc
  rcases hshape with h | ⟨ne, h⟩
  · rw [h] at hc
    cases hc
  · rw [h, List.mem_singleton] at hc
    exact ⟨img, ne, hc⟩

theorem virtualImagePaths_calls {ω : Type} (H : Host ω) (images : List String) :
    ∀ (acc : List String) (w : ω),
      ∀ c ∈ (PublishContent.virtualImagePaths H images acc w).calls,
        ∃ name ne, c = Call.stat name ne := by
  induction images with
  | nil =>
      intro acc w c hc
      cases hc
  | cons img rest ih =>
      intro acc w c hc
      simp only [PublishContent.virtualImagePaths, List.mem_append] at hc
      rcases hc with hc | hc
      · exact isVirtual_calls H img w c hc
      · exact ih _ _ c hc

theorem publishContent_calls {ω : Type} (H : Host ω) (content : PublishImageContent) (w : ω) :
    ∀ c ∈ (publishContent H content w).calls, c.isProcessImages = false ∧
      ∀ content2 r, c = Call.publish content2 r → content2 = content := by
  have hshape : (∃ e, (publishContent H content w).calls
        = [Call.newPage (H.IsHeadless w), Call.newPublishImageAction e, Call.closePage]) ∨
      ∃ r, (publishContent H content w).calls
        = [Call.newPage (H.IsHeadless w), Call.newPublishImageAction none,
            Call.publish content r, Call.closePage] := by
    rcases h1 : H.NewPublishImageAction (H.NewPage (H.IsHeadless w) w) with ⟨e, w1⟩
    cases e with
    | some err => exact Or.inl ⟨some err, by simp [publishContent, h1]⟩
    | none =>
        rcases h2 : H.Publish content w1 with ⟨r, w2⟩
        cases r with
        | some err => exact Or.inr ⟨some err, by simp [publishContent, h1, h2]⟩
        | none => exact Or.inr ⟨none, by simp [publishContent, h1, h2]⟩
  intro c hc
  rcases hshape with ⟨e, h⟩ | ⟨r, h⟩
  · rw [h] at hc
    simp only [List.mem_cons, List.mem_singleton, List.not_mem_nil, or_false] at hc
    rcases hc with rfl | rfl | rfl <;> exact ⟨rfl, fun _ _ h => by cases h⟩
  · rw [h] at hc
    simp only [List.mem_cons, List.mem_singleton, List.not_mem_nil, or_false] at hc
    rcases hc with rfl | rfl | rfl | rfl
    · exact ⟨rfl, fun _ _ h => by cases h⟩
    · exact ⟨rfl, fun _ _ h => by cases h⟩
    · exact ⟨rfl, fun _ _ h => by cases h; rfl⟩
    · exact ⟨rfl, fun _ _ h => by cases h⟩

theorem PublishContent_of_paths {ω : Type} (H : Host ω) (req : PublishRequest) (w : ω)
    (imagePaths : List String)
    (h : (PublishContent.imagePaths H req w).val = .ok imagePaths) :
    (PublishContent H req w).calls
      = (PublishContent.imagePaths H req w).calls ++
        (publishContent H ⟨req.Title, req.Content, req.Tags, req.Products, imagePaths⟩
          (PublishContent.imagePaths H req w).st).calls ∧
    (PublishContent H req w).val
      = (match (publishContent H ⟨req.Title, req.Content, req.Tags, req.Products, imagePaths⟩
          (PublishContent.imagePaths H req w).st).val with
        | some err => .error err
        | none => .ok ⟨req.Title, req.Content, imagePaths.length,
            if imagePaths.length = 0 then "发布完成（纯文本）" else "发布完成", ""⟩) := by
  unfold PublishContent
  simp only [h]
  split <;> simp [*]

theorem imagePaths_text_only {ω : Type} (H : Host ω) (req : PublishRequest) (w : ω)
    (h : req.Images = [] ∨
      (PublishContent.virtualImagePaths H req.Images [] w).val = req.Images) :
    (PublishContent.imagePaths H req w).val = .ok [] ∧
    ∀ c ∈ (PublishContent.imagePaths H req w).calls, ∃ name ne, c = Call.stat name ne := by
  unfold PublishContent.imagePaths
  by_cases h0 : req.Images.length = 0
  · simp [h0]
  · have h1 : (PublishContent.virtualImagePaths H req.Images [] w).val.length
        = req.Images.length := by
      rcases h with h | h
      · rw [h] at h0
        exact absurd rfl h0
      · rw [h]
    simp only [h0, if_false, h1, if_true, true_and]
    exact virtualImagePaths_calls H req.Images [] w

/-- C23. When the request has no images, or every image of the request is in the list of
virtual images that the loop of `PublishContent` collects, `PublishContent`
makes no call of the image processing and publishes the title, content, tags
and products of the request with an empty list of image paths. And when
`PublishContent` returns a response, its `Images` is the number of image paths
published (those processed, or none), its status is the text-only one exactly
when that number is 0, and the plain one otherwise. -/
theorem PublishContent_text_only {ω : Type} (H : Host ω) (req : PublishRequest) (w : ω) :
    ((req.Images = [] ∨
        (PublishContent.virtualImagePaths H req.Images [] w).val = req.Images) →
      (PublishContent.imagePaths H req w).val = .ok [] ∧
      (∀ c ∈ (PublishContent H req w).calls, c.isProcessImages = false) ∧
      (PublishContent H req w).calls
        = (PublishContent.imagePaths H req w).calls ++
          (publishContent H ⟨req.Title, req.Content, req.Tags, req.Products, []⟩
            (PublishContent.imagePaths H req w).st).calls ∧
      (∀ content r, Call.publish content r ∈ (PublishContent H req w).calls →
        content = ⟨req.Title, req.Content, req.Tags, req.Products, []⟩)) ∧
    (∀ resp, (PublishContent H req w).val = .ok resp →
      ∃ imagePaths, (PublishContent.imagePaths H req w).val = .ok imagePaths ∧
        resp.Title = req.Title ∧ resp.Content = req.Content ∧
        resp.Images = imagePaths.length ∧
        (resp.Status = "发布完成（纯文本）" ↔ imagePaths.length = 0) ∧
        (imagePaths.length ≠ 0 → resp.Status = "发布完成")) := by
  constructor
  · intro h
    obtain ⟨hv, hc⟩ := imagePaths_text_only H req w h
    obtain ⟨hcalls, -⟩ := PublishContent_of_paths H req w [] hv
    have hall : ∀ c ∈ (PublishContent H req w).calls, c.isProcessImages = false ∧
        ∀ content r, c = Call.publish content r →
          content = ⟨req.Title, req.Content, req.Tags, req.Products, []⟩ := by
      intro c hmem
      rw [hcalls, List.mem_append] at hmem
      rcases hmem with hmem | hmem
      · obtain ⟨name, ne, rfl⟩ := hc c hmem
        exact ⟨rfl, fun _ _ h => by cases h⟩
      · exact publishContent_calls H _ _ c hmem
    exact ⟨hv, fun c hmem => (hall c hmem).1, hcalls,
      fun content r hmem => (hall _ hmem).2 content r rfl⟩
  · intro resp hresp
    rcases hv : (PublishContent.imagePaths H req w).val with e | imagePaths
    · unfold PublishContent at hresp
      simp [hv] at hresp
    · obtain ⟨-, hval⟩ := PublishContent_of_paths H req w imagePaths hv
      rw [hval] at hresp
      refine ⟨imagePaths, rfl, ?_⟩
      split at hresp
      · cases hresp
      · simp only [Except.ok.injEq] at hresp
        subst hresp
        refine ⟨rfl, rfl, rfl, ?_, ?_⟩
        · by_cases h0 : imagePaths.length = 0
          · simp [h0]
          · simp only [h0, if_false, iff_false]
            decide
        · intro h0
          simp [h0]

/-- Witness of C23: the only image is a file name that does not exist; the publication is
text only. -/
theorem PublishContent_text_only_witness :
    (PublishContent.virtualImagePaths emptyDiskHost ["cover.png"] [] 0).val = ["cover.png"] ∧
    (PublishContent emptyDiskHost ⟨"茶", "正文", ["cover.png"], ["#茶"], []⟩ 0).val
      = .ok ⟨"茶", "正文", 0, "发布完成（纯文本）", ""⟩ ∧
    (PublishContent emptyDiskHost ⟨"茶", "正文", ["cover.png"], ["#茶"], []⟩ 0).calls
      = (PublishContent.imagePaths emptyDiskHost ⟨"茶", "正文", ["cover.png"], ["#茶"], []⟩ 0).calls
        ++ (publishContent emptyDiskHost ⟨"茶", "正文", ["#茶"], [], []⟩
          (PublishContent.imagePaths emptyDiskHost
            ⟨"茶", "正文", ["cover.png"], ["#茶"], []⟩ 0).st).calls ∧
    ∃ imagePaths,
      (PublishContent.imagePaths emptyDiskHost ⟨"茶", "正文", ["cover.png"], ["#茶"], []⟩ 0).val
        = .ok imagePaths ∧
      (0 : Int) = imagePaths.length :=
  ⟨by decide, by decide,
    ((PublishContent_text_only emptyDiskHost ⟨"茶", "正文", ["cover.png"], ["#茶"], []⟩ 0).1
      (Or.inr (by decide))).2.2.1,
    match (PublishContent_text_only emptyDiskHost ⟨"茶", "正文", ["cover.png"], ["#茶"], []⟩ 0).2
      ⟨"茶", "正文", 0, "发布完成（纯文本）", ""⟩ (by decide) with
    | ⟨imagePaths, h1, _, _, h4, _⟩ => ⟨imagePaths, h1, h4⟩⟩

/-! ### Session of a request -/

/-- C24. The function `parseBool` returns a nil error for every string, and true exactly for
`true`, `1`, `yes` and `on`, as spelled. So `setSessionFromRequest` leaves
the registry alone when the header `Mcp-Headless` is empty and otherwise
calls `SetHeadless` with the value of `parseBool`, whatever the header says:
`True` and `maybe` are parsed as false without error, and the header `maybe`
sets a headless registry to not headless. -/
theorem parseBool_never_fails :
    (∀ s : String, (parseBool s).2 = none ∧
      ((parseBool s).1 = true ↔ s = "true" ∨ s = "1" ∨ s = "yes" ∨ s = "on")) ∧
    (∀ (ε μ : Type) (E : Environ ε) (M : Manager μ) (c : Request) (env : ε) (manager : μ),
      (setSessionFromRequest E M c env manager).2
        = if c.GetHeader "Mcp-Headless" = "" then manager
          else M.SetHeadless (parseBool (c.GetHeader "Mcp-Headless")).1 manager) ∧
    parseBool "True" = (false, none) ∧ parseBool "maybe" = (false, none) ∧
    setSessionFromRequest listEnviron registryManager (headlessRequest "maybe") []
        ⟨true, ["s1"]⟩
      = ([("MCP_HEADLESS", "maybe")], ⟨false, ["s1"]⟩) := by
  have hp : ∀ s : String, (parseBool s).2 = none ∧
      ((parseBool s).1 = true ↔ s = "true" ∨ s = "1" ∨ s = "yes" ∨ s = "on") := by
    intro s
    unfold parseBool
    by_cases h1 : s = "true" ∨ s = "1" ∨ s = "yes" ∨ s = "on"
    · simp [h1]
    · by_cases h2 : s = "false" ∨ s = "0" ∨ s = "no" ∨ s = "off"
      · simp only [h1, h2, if_true, if_false]
        simp
      · simp only [h1, h2, if_false]
        simp
  refine ⟨hp, ?_, by decide, by decide, by decide⟩
  intro ε μ E M c env manager
  unfold setSessionFromRequest
  by_cases h : c.GetHeader "Mcp-Headless" = ""
  · simp [h]
  · have h2 := (hp (c.GetHeader "Mcp-Headless")).1
    rcases hb : parseBool (c.GetHeader "Mcp-Headless") with ⟨b, e⟩
    rw [hb] at h2
    simp only at h2
    subst h2
    simp [h, hb]

end Xhs
